import Mathlib

/-!
# NearClip Android JNI bridge: lifecycle controller and command facade

Shallow embedding of `src/platform/android/app/src/main/cpp/nearclip_jni.cpp`.

The globals of the translation unit (`g_jvm`, `g_context`, the five `jmethodID`
slots and `g_nearclip_core`) become the fields of `Bridge`.  Every exported
function becomes a function from the state before the call to the returned
value, the state after the call and the list of externally visible operations
the call performed, in program order.  The behaviour of the two external
collaborators (the engine `NearClipCore` and the Java runtime) is supplied to
each call as an explicit argument, so that every theorem quantifies over it.

Exceptions come in two layers.  `Outcome` has the exceptions derived from
`std::exception`, which every handler of the file catches.  `Raised` keeps the
type of the exception: the functions `Typed.NearClipFFI_...` embed the same
source functions with engine calls, callback setters included, that may raise
an exception of any type, and agree with the first layer on its exceptions
(`typed_initialize_agrees`, `typed_commands_agree`).

A string made by `NewStringUTF` is a `HostString`: the bytes the call read, up to
the first zero byte, and the characters these bytes stand for in JNI's modified
UTF-8 (`mutf8Decode`), which are undefined for any other byte sequence.
-/

namespace NearClip

/-! ## Values -/

/-- A `std::string`: a sequence of bytes, possibly with embedded zero bytes. -/
abbrev NativeString := List Nat

/-- A `jstring` handed in by the host: the UTF-16 code units of a `java.lang.String`. -/
abbrev JString := List Nat

/-- Engine instances are told apart by the order in which they were constructed. -/
abbrev EngineId := Nat

/-- A JNI global reference, told apart by the order of the `NewGlobalRef` calls. -/
abbrev GlobalRef := Nat

/-- A non-null `jobject` of the host. -/
abbrev JObject := Nat

/-- A non-null `jmethodID`. -/
abbrev MethodID := Nat

/-- A non-null `JavaVM*`. -/
abbrev JavaVM := Nat

/-- The value of `JNI_VERSION_1_6`. -/
def JNI_VERSION_1_6 : Int := 0x00010006

/-- The value of `JNI_ERR`. -/
def JNI_ERR : Int := -1

/-- The way a call into code that may raise a C++ exception ends.  The exceptions
meant are those derived from `std::exception`, the kind all handlers of the bridge
(`catch (const std::exception& e)`) are written for.  Exceptions of other types, which
no handler of the bridge catches, are told apart by `Raised`, in the functions
`Typed.NearClipFFI_...`. -/
inductive Outcome (α : Type) where
  | ret (a : α)
  | throws
  deriving DecidableEq, Repr

/-- The struct `DeviceInfo` of `jni_bridge.h`. -/
structure DeviceInfo where
  device_id : NativeString
  device_name : NativeString
  device_type : NativeString
  public_key : NativeString
  deriving DecidableEq, Repr

/-! ## Strings across the boundary -/

/-- The bytes JNI's modified UTF-8 uses for one UTF-16 code unit: U+0000 takes two
bytes, so that no byte of an encoded string is zero. -/
def mutf8Unit (c : Nat) : List Nat :=
  if 1 ≤ c ∧ c ≤ 0x7F then [c]
  else if c ≤ 0x7FF then [0xC0 + c / 64, 0x80 + c % 64]
  else [0xE0 + c / 4096 % 16, 0x80 + c / 64 % 64, 0x80 + c % 64]

/-- The modified UTF-8 form of a host string. -/
def mutf8 (s : JString) : List Nat :=
  s.flatMap mutf8Unit

/-- The buffer `env->GetStringUTFChars(s, nullptr)` points to: the modified UTF-8
bytes of `s` and the terminating zero byte. -/
def GetStringUTFChars (s : JString) : List Nat :=
  mutf8 s ++ [0]

/-- The bytes a `const char*` denotes as a C string: those before the first zero byte.
This is what `std::string(const char*)`, `%s` and `NewStringUTF` read. -/
def cstring (buf : List Nat) : List Nat :=
  buf.takeWhile (fun b => b != 0)

/-- The buffer `s.c_str()` points to. -/
def c_str (s : NativeString) : List Nat :=
  s ++ [0]

/-- The UTF-16 code unit a two-byte group of modified UTF-8 stands for. -/
def unit2 (b0 b1 : Nat) : Nat := (b0 - 0xC0) * 64 + (b1 - 0x80)

/-- The UTF-16 code unit a three-byte group of modified UTF-8 stands for. -/
def unit3 (b0 b1 b2 : Nat) : Nat := (b0 - 0xE0) * 4096 + (b1 - 0x80) * 64 + (b2 - 0x80)

/-- A continuation byte of modified UTF-8. -/
def isCont (b : Nat) : Prop := 0x80 ≤ b ∧ b ≤ 0xBF

instance (b : Nat) : Decidable (isCont b) := by unfold isCont; infer_instance

/-- The host string a C string stands for in JNI's modified UTF-8, the format
`NewStringUTF` takes its argument in: one byte for U+0001..U+007F, two bytes for
U+0000 and U+0080..U+07FF, three bytes for U+0800..U+FFFF (a supplementary character
is two surrogates of three bytes each). Any other byte sequence, such as the
four-byte form standard UTF-8 uses for a supplementary character or arbitrary binary
data, is not modified UTF-8: JNI defines no string for it, and the result is `none`. -/
def mutf8Decode : List Nat → Option JString
  | [] => some []
  | b0 :: rest =>
    if 1 ≤ b0 ∧ b0 ≤ 0x7F then
      (mutf8Decode rest).map (fun t => b0 :: t)
    else
      match rest with
      | [] => none
      | b1 :: rest1 =>
        if 0xC0 ≤ b0 ∧ b0 ≤ 0xDF ∧ isCont b1 ∧ (unit2 b0 b1 = 0 ∨ 0x80 ≤ unit2 b0 b1) then
          (mutf8Decode rest1).map (fun t => unit2 b0 b1 :: t)
        else
          match rest1 with
          | [] => none
          | b2 :: rest2 =>
            if 0xE0 ≤ b0 ∧ b0 ≤ 0xEF ∧ isCont b1 ∧ isCont b2 ∧ 0x800 ≤ unit3 b0 b1 b2 then
              (mutf8Decode rest2).map (fun t => unit3 b0 b1 b2 :: t)
            else none

/-- A `java.lang.String` made by `NewStringUTF`: the bytes the call read from its
argument, and the characters of the string, which are the decoding of those bytes;
`chars` is `none` when the bytes are not modified UTF-8, for which JNI defines no
content. -/
structure HostString where
  utf : List Nat
  chars : Option JString
  deriving DecidableEq, Repr

/-- The string a successful `NewStringUTF(buf)` makes: it reads `buf` as a C string, up
to the first zero byte, and decodes what it read as modified UTF-8. -/
def HostString.ofUTF (buf : List Nat) : HostString :=
  { utf := cstring buf, chars := mutf8Decode (cstring buf) }

/-! ## The five relays of `jni_bridge.h`, as the calls a callback makes -/

/-- One call of a relay function declared in `jni_bridge.h`, with its arguments. -/
inductive RelayCall where
  | call_java_method_onDeviceDiscovered (device_json : NativeString)
  | call_java_method_onDiscoveryStateChanged (state : NativeString)
  | call_java_method_onConnectionChanged (device_id : NativeString) (connected : Bool)
  | call_java_method_onClipboardDataReceived (data : NativeString)
  | call_java_method_onError (error : NativeString)
  deriving DecidableEq, Repr

/-! ## The engine -/

/-- Modelled from the spec: the class `NearClipCore` is declared in `nearclip_jni.h`,
which is not part of the sources.  The spec's engine-facing contract gives it
`initialize`, the five domain operations and five callback setters
`set_{device_discovered,discovery_state,connection,clipboard,error}_callback(fn)`.
An instance is its identity and the callback registered by each setter; a callback
is the function from its arguments to the relay calls its body makes. -/
structure NearClipCore where
  id : EngineId
  device_discovered_callback : Option (NativeString → List RelayCall)
  discovery_state_callback : Option (NativeString → List RelayCall)
  connection_callback : Option (NativeString → Bool → List RelayCall)
  clipboard_callback : Option (NativeString → List RelayCall)
  error_callback : Option (NativeString → List RelayCall)

/-- A freshly constructed engine: no callback registered. -/
def NearClipCore.fresh (id : EngineId) : NearClipCore :=
  { id := id
    device_discovered_callback := none
    discovery_state_callback := none
    connection_callback := none
    clipboard_callback := none
    error_callback := none }

/-- The member functions of `NearClipCore` the bridge calls. -/
inductive EngineCall where
  | core_initialize
  | start_discovery
  | stop_discovery
  | connect_to_device (device_id : NativeString)
  | disconnect_from_device (device_id : NativeString)
  | send_clipboard_data (data : NativeString)
  | get_local_device_info
  | set_device_discovered_callback
  | set_discovery_state_callback
  | set_connection_callback
  | set_clipboard_callback
  | set_error_callback
  deriving DecidableEq, Repr

/-- Whether a member function is one of the five callback setters. -/
def EngineCall.isSetter : EngineCall → Bool
  | set_device_discovered_callback => true
  | set_discovery_state_callback => true
  | set_connection_callback => true
  | set_clipboard_callback => true
  | set_error_callback => true
  | _ => false

/-! ## Observable operations -/

/-- A host value passed to or returned by a JNI call in `getLocalDeviceInfo`. -/
inductive LocalRef where
  | null
  | jclass (name : String)
  | jstring (utf : List Nat)
  deriving DecidableEq, Repr

/-- The Java object `NearClipFFI$DeviceInfo(deviceId, deviceName, deviceType, publicKey)`
that `NewObject` builds: its four constructor arguments in order, each the string
the `jstring` passed refers to, or `none` for a null `jstring`. -/
structure JDeviceInfo where
  deviceId : Option HostString
  deviceName : Option HostString
  deviceType : Option HostString
  publicKey : Option HostString
  deriving DecidableEq, Repr

/-- One operation on an external collaborator, as performed by the bridge. -/
inductive Event where
  /-- The call `env->DeleteGlobalRef(r)`. -/
  | DeleteGlobalRef (r : GlobalRef)
  /-- The call `env->NewGlobalRef(obj)` with the reference it returned (`none` is `NULL`). -/
  | NewGlobalRef (obj : Option JObject) (r : Option GlobalRef)
  /-- The constructor `NearClipCore()` ran to completion for instance `e`. -/
  | construct (e : EngineId)
  /-- The constructor `NearClipCore()` (or the allocation) raised an exception. -/
  | constructThrows
  /-- The destructor of instance `e` ran. -/
  | destroy (e : EngineId)
  /-- A member function was called on instance `e`. -/
  | engine (e : EngineId) (c : EngineCall)
  /-- The call `env->GetStringUTFChars(s, nullptr)`. -/
  | GetStringUTFChars (s : JString)
  /-- The buffer obtained for `s` was read as a C string. -/
  | readUTFChars (s : JString)
  /-- The call `env->ReleaseStringUTFChars(s, buf)`. -/
  | ReleaseStringUTFChars (s : JString)
  /-- The call `vm->GetEnv(&env, JNI_VERSION_1_6)` and whether it gave `JNI_OK`. -/
  | GetEnv (ok : Bool)
  /-- The call `env->FindClass(name)` and whether it gave a class. -/
  | FindClass (name : String) (found : Bool)
  /-- The call `env->GetStaticMethodID(clazz, name, sig)` or `env->GetMethodID(clazz, name, sig)`. -/
  | GetMethodID (name : String) (sig : String) (id : Option MethodID)
  /-- The call `env->NewStringUTF(buf)`, where `utf` is the C string read from `buf`. -/
  | NewStringUTF (utf : List Nat) (ok : Bool)
  /-- The call `env->NewObject(clazz, constructor, ...)` and the object built (`none` is `NULL`). -/
  | NewObject (obj : Option JDeviceInfo)
  /-- The call `env->DeleteLocalRef(ref)`. -/
  | DeleteLocalRef (ref : LocalRef)
  deriving DecidableEq, Repr

/-- Whether an event is a member call on some engine instance. -/
def Event.isEngineCall : Event → Bool
  | engine _ _ => true
  | _ => false

/-- Whether an event is a callback-setter call on instance `e`. -/
def Event.isSetterOn (e : EngineId) : Event → Bool
  | engine e' c => e' == e && c.isSetter
  | _ => false

/-! ## The globals of `nearclip_jni.cpp` -/

/-- The file-scope variables of `nearclip_jni.cpp`.  `nextEngine` and `nextRef`
are not program variables: they number the engine instances constructed and the
global references created so far, so that instances and references can be told
apart. -/
structure Bridge where
  g_jvm : Option JavaVM
  g_context : Option GlobalRef
  g_onDeviceDiscovered : Option MethodID
  g_onDiscoveryStateChanged : Option MethodID
  g_onConnectionChanged : Option MethodID
  g_onClipboardDataReceived : Option MethodID
  g_onError : Option MethodID
  g_nearclip_core : Option NearClipCore
  nextEngine : Nat
  nextRef : Nat

/-- The state at program start: every global is `nullptr`. -/
def Bridge.init : Bridge :=
  { g_jvm := none
    g_context := none
    g_onDeviceDiscovered := none
    g_onDiscoveryStateChanged := none
    g_onConnectionChanged := none
    g_onClipboardDataReceived := none
    g_onError := none
    g_nearclip_core := none
    nextEngine := 0
    nextRef := 0 }

/-! ## Behaviour of the collaborators during one call -/

/-- What the host runtime and the engine do during one `initialize(context)`. -/
structure InitEnv where
  /-- Whether `NewGlobalRef` runs out of memory (it then returns `NULL`). -/
  globalRefOom : Bool
  /-- How `std::make_unique<NearClipCore>()` ends. -/
  construct : Outcome Unit
  /-- How `g_nearclip_core->initialize()` ends. -/
  core_initialize : Outcome Bool

/-- What happens inside the `try` block of a command that takes a string. -/
structure CallEnv where
  /-- How the construction of the `std::string` from the character buffer ends. -/
  string_ctor : Outcome Unit
  /-- How the engine operation ends. -/
  engine : Outcome Bool

/-- What the engine and the host runtime do during one `getLocalDeviceInfo()`. -/
structure InfoEnv where
  /-- How `g_nearclip_core->get_local_device_info()` ends. -/
  engine : Outcome DeviceInfo
  /-- Whether `FindClass` finds `NearClipFFI$DeviceInfo`. -/
  findClass : Bool
  /-- What `GetMethodID` gives for the constructor. -/
  getMethodID : Option MethodID
  /-- Whether the `i`-th `NewStringUTF` of the call (from 0) gives a string. -/
  newStringUTF : Nat → Bool
  /-- Whether `NewObject` gives an object when class and constructor are there. -/
  newObject : Bool

/-- What the host runtime does during `JNI_OnLoad`. -/
structure LoadEnv where
  /-- Whether `vm->GetEnv` gives `JNI_OK`. -/
  getEnvOk : Bool
  /-- Whether `FindClass` finds `com/nearclip/ffi/NearClipFFI`. -/
  findClass : Bool
  /-- What `GetStaticMethodID` gives for a method name. -/
  methodID : String → Option MethodID

/-! ## `nearclip_jni.cpp` -/

/-- The function `setup_callbacks()`, when every setter returns; setters that raise an
exception are in `Typed.setup_callbacks`. -/
def setup_callbacks (s : Bridge) : Bridge × List Event :=
  match s.g_nearclip_core with
  | none => (s, [])
  | some core =>
    let core1 : NearClipCore := { core with
      device_discovered_callback :=
        some (fun device_json => [RelayCall.call_java_method_onDeviceDiscovered device_json]) }
    let core2 : NearClipCore := { core1 with
      discovery_state_callback :=
        some (fun state => [RelayCall.call_java_method_onDiscoveryStateChanged state]) }
    let core3 : NearClipCore := { core2 with
      connection_callback :=
        some (fun device_id connected =>
          [RelayCall.call_java_method_onConnectionChanged device_id connected]) }
    let core4 : NearClipCore := { core3 with
      clipboard_callback :=
        some (fun data => [RelayCall.call_java_method_onClipboardDataReceived data]) }
    let core5 : NearClipCore := { core4 with
      error_callback :=
        some (fun error => [RelayCall.call_java_method_onError error]) }
    ({ s with g_nearclip_core := some core5 },
      [Event.engine core.id EngineCall.set_device_discovered_callback,
       Event.engine core.id EngineCall.set_discovery_state_callback,
       Event.engine core.id EngineCall.set_connection_callback,
       Event.engine core.id EngineCall.set_clipboard_callback,
       Event.engine core.id EngineCall.set_error_callback])

/-- The events of the statement `if (g_context) env->DeleteGlobalRef(g_context);`. -/
def deleteContext (s : Bridge) : List Event :=
  match s.g_context with
  | some r => [Event.DeleteGlobalRef r]
  | none => []

/-- The reference `env->NewGlobalRef(context)` returns: `NULL` for a null object or
when the runtime is out of memory, otherwise a reference not handed out before. -/
def newGlobalRef (context : Option JObject) (oom : Bool) (s : Bridge) : Option GlobalRef :=
  match context with
  | none => none
  | some _ => if oom then none else some s.nextRef

/-- The events of the move assignment of a `unique_ptr` holding a new instance to
`g_nearclip_core`, and of `g_nearclip_core.reset()`: the instance held before, if
any, is destroyed. -/
def destroyHeld (s : Bridge) : List Event :=
  match s.g_nearclip_core with
  | some old => [Event.destroy old.id]
  | none => []

/-- The function `Java_com_nearclip_ffi_NearClipFFI_initialize(env, thiz, context)`. -/
def NearClipFFI_initialize (context : Option JObject) (env : InitEnv) (s : Bridge) :
    Bool × Bridge × List Event :=
  -- if (g_context) env->DeleteGlobalRef(g_context);
  let t1 := deleteContext s
  -- g_context = env->NewGlobalRef(context);
  let r := newGlobalRef context env.globalRefOom s
  let s1 := { s with g_context := r, nextRef := if r.isSome then s.nextRef + 1 else s.nextRef }
  let t2 := t1 ++ [Event.NewGlobalRef context r]
  -- g_nearclip_core = std::make_unique<NearClipCore>();
  match env.construct with
  | Outcome.throws => (false, s1, t2 ++ [Event.constructThrows])
  | Outcome.ret _ =>
    let core := NearClipCore.fresh s1.nextEngine
    let t3 := t2 ++ [Event.construct core.id] ++ destroyHeld s1
    let s2 := { s1 with g_nearclip_core := some core, nextEngine := s1.nextEngine + 1 }
    -- bool result = g_nearclip_core->initialize();
    let t4 := t3 ++ [Event.engine core.id EngineCall.core_initialize]
    match env.core_initialize with
    | Outcome.throws => (false, s2, t4)
    | Outcome.ret result =>
      if result then
        let (s3, t5) := setup_callbacks s2
        (true, s3, t4 ++ t5)
      else
        (false, s2, t4)

/-- The function `Java_com_nearclip_ffi_NearClipFFI_startDeviceDiscovery(env, thiz)`. -/
def NearClipFFI_startDeviceDiscovery (engine : Outcome Bool) (s : Bridge) :
    Bool × Bridge × List Event :=
  match s.g_nearclip_core with
  | none => (false, s, [])
  | some core =>
    match engine with
    | Outcome.ret result => (result, s, [Event.engine core.id EngineCall.start_discovery])
    | Outcome.throws => (false, s, [Event.engine core.id EngineCall.start_discovery])

/-- The function `Java_com_nearclip_ffi_NearClipFFI_stopDeviceDiscovery(env, thiz)`. -/
def NearClipFFI_stopDeviceDiscovery (engine : Outcome Bool) (s : Bridge) :
    Bool × Bridge × List Event :=
  match s.g_nearclip_core with
  | none => (false, s, [])
  | some core =>
    match engine with
    | Outcome.ret result => (result, s, [Event.engine core.id EngineCall.stop_discovery])
    | Outcome.throws => (false, s, [Event.engine core.id EngineCall.stop_discovery])

/-- The common shape of `connectToDevice`, `disconnectFromDevice` and
`sendClipboardData`, which differ in the engine operation `op` they call. -/
def stringCommand (op : NativeString → EngineCall) (arg : JString) (env : CallEnv)
    (s : Bridge) : Bool × Bridge × List Event :=
  -- const char* str = env->GetStringUTFChars(arg, nullptr); LOG("... %s", str);
  let str := GetStringUTFChars arg
  let t0 := [Event.GetStringUTFChars arg, Event.readUTFChars arg]
  match s.g_nearclip_core with
  | none => (false, s, t0 ++ [Event.ReleaseStringUTFChars arg])
  | some core =>
    -- std::string cpp(str);
    match env.string_ctor with
    | Outcome.throws =>
      (false, s, t0 ++ [Event.readUTFChars arg, Event.ReleaseStringUTFChars arg])
    | Outcome.ret _ =>
      let cpp := cstring str
      let t1 := t0 ++ [Event.readUTFChars arg, Event.engine core.id (op cpp)]
      match env.engine with
      | Outcome.ret result => (result, s, t1 ++ [Event.ReleaseStringUTFChars arg])
      | Outcome.throws => (false, s, t1 ++ [Event.ReleaseStringUTFChars arg])

/-- The function `Java_com_nearclip_ffi_NearClipFFI_connectToDevice(env, thiz, device_id)`. -/
def NearClipFFI_connectToDevice (device_id : JString) (env : CallEnv) (s : Bridge) :
    Bool × Bridge × List Event :=
  stringCommand EngineCall.connect_to_device device_id env s

/-- The function `Java_com_nearclip_ffi_NearClipFFI_disconnectFromDevice(env, thiz, device_id)`. -/
def NearClipFFI_disconnectFromDevice (device_id : JString) (env : CallEnv) (s : Bridge) :
    Bool × Bridge × List Event :=
  stringCommand EngineCall.disconnect_from_device device_id env s

/-- The function `Java_com_nearclip_ffi_NearClipFFI_sendClipboardData(env, thiz, data)`. -/
def NearClipFFI_sendClipboardData (data : JString) (env : CallEnv) (s : Bridge) :
    Bool × Bridge × List Event :=
  stringCommand EngineCall.send_clipboard_data data env s

/-- The result of `env->NewStringUTF(str.c_str())`: the string decoded from the bytes
of `str` before its first zero byte, or `NULL`. -/
def NewStringUTF (ok : Bool) (str : NativeString) : Option HostString :=
  if ok then some (HostString.ofUTF (c_str str)) else none

/-- The local reference a `NewStringUTF` result is. -/
def localRefOf : Option HostString → LocalRef
  | some str => LocalRef.jstring str.utf
  | none => LocalRef.null

/-- The function `Java_com_nearclip_ffi_NearClipFFI_getLocalDeviceInfo(env, thiz)`. -/
def NearClipFFI_getLocalDeviceInfo (env : InfoEnv) (s : Bridge) :
    Option JDeviceInfo × Bridge × List Event :=
  match s.g_nearclip_core with
  | none => (none, s, [])
  | some core =>
    match env.engine with
    | Outcome.throws => (none, s, [Event.engine core.id EngineCall.get_local_device_info])
    | Outcome.ret info =>
      let constructor := if env.findClass then env.getMethodID else none
      let device_id := NewStringUTF (env.newStringUTF 0) info.device_id
      let device_name := NewStringUTF (env.newStringUTF 1) info.device_name
      let device_type := NewStringUTF (env.newStringUTF 2) info.device_type
      let public_key := NewStringUTF (env.newStringUTF 3) info.public_key
      let result : Option JDeviceInfo :=
        if env.findClass && constructor.isSome && env.newObject then
          some { deviceId := device_id, deviceName := device_name,
                 deviceType := device_type, publicKey := public_key }
        else none
      (result, s,
        [Event.engine core.id EngineCall.get_local_device_info,
         Event.FindClass "com/nearclip/ffi/NearClipFFI$DeviceInfo" env.findClass,
         Event.GetMethodID "<init>"
           "(Ljava/lang/String;Ljava/lang/String;Ljava/lang/String;Ljava/lang/String;)V"
           constructor,
         Event.NewStringUTF (cstring (c_str info.device_id)) (env.newStringUTF 0),
         Event.NewStringUTF (cstring (c_str info.device_name)) (env.newStringUTF 1),
         Event.NewStringUTF (cstring (c_str info.device_type)) (env.newStringUTF 2),
         Event.NewStringUTF (cstring (c_str info.public_key)) (env.newStringUTF 3),
         Event.NewObject result,
         Event.DeleteLocalRef (localRefOf device_id),
         Event.DeleteLocalRef (localRefOf device_name),
         Event.DeleteLocalRef (localRefOf device_type),
         Event.DeleteLocalRef (localRefOf public_key)])

/-- The function `Java_com_nearclip_ffi_NearClipFFI_cleanup(env, thiz)`. -/
def NearClipFFI_cleanup (s : Bridge) : Bridge × List Event :=
  -- if (g_nearclip_core) g_nearclip_core.reset();
  let t1 := destroyHeld s
  let s1 := { s with g_nearclip_core := none }
  -- if (g_context) { env->DeleteGlobalRef(g_context); g_context = nullptr; }
  ({ s1 with g_context := none }, t1 ++ deleteContext s1)

/-- The function `JNI_OnLoad(vm, reserved)`. -/
def JNI_OnLoad (vm : JavaVM) (env : LoadEnv) (s : Bridge) : Int × Bridge × List Event :=
  let s1 := { s with g_jvm := some vm }
  if !env.getEnvOk then (JNI_ERR, s1, [Event.GetEnv false])
  else if !env.findClass then
    (JNI_ERR, s1, [Event.GetEnv true, Event.FindClass "com/nearclip/ffi/NearClipFFI" false])
  else
    let s2 := { s1 with
      g_onDeviceDiscovered := env.methodID "onDeviceDiscovered"
      g_onDiscoveryStateChanged := env.methodID "onDiscoveryStateChanged"
      g_onConnectionChanged := env.methodID "onConnectionChanged"
      g_onClipboardDataReceived := env.methodID "onClipboardDataReceived"
      g_onError := env.methodID "onError" }
    let t := [Event.GetEnv true, Event.FindClass "com/nearclip/ffi/NearClipFFI" true,
      Event.GetMethodID "onDeviceDiscovered" "(Ljava/lang/String;)V" s2.g_onDeviceDiscovered,
      Event.GetMethodID "onDiscoveryStateChanged" "(Ljava/lang/String;)V"
        s2.g_onDiscoveryStateChanged,
      Event.GetMethodID "onConnectionChanged" "(Ljava/lang/String;Z)V" s2.g_onConnectionChanged,
      Event.GetMethodID "onClipboardDataReceived" "(Ljava/lang/String;)V"
        s2.g_onClipboardDataReceived,
      Event.GetMethodID "onError" "(Ljava/lang/String;)V" s2.g_onError]
    if s2.g_onDeviceDiscovered.isNone || s2.g_onDiscoveryStateChanged.isNone ||
        s2.g_onConnectionChanged.isNone || s2.g_onClipboardDataReceived.isNone ||
        s2.g_onError.isNone then
      (JNI_ERR, s2, t)
    else
      (JNI_VERSION_1_6, s2, t)

/-- The function `JNI_OnUnload(vm, reserved)`; `getEnvOk` tells whether `vm->GetEnv`
gives `JNI_OK`. -/
def JNI_OnUnload (getEnvOk : Bool) (s : Bridge) : Bridge × List Event :=
  -- if (g_nearclip_core) g_nearclip_core.reset();
  let t1 := destroyHeld s
  let s1 := { s with g_nearclip_core := none }
  -- if (g_context) { if (vm->GetEnv(...) == JNI_OK) env->DeleteGlobalRef(g_context); }
  let t2 :=
    match s1.g_context with
    | some r => Event.GetEnv getEnvOk :: (if getEnvOk then [Event.DeleteGlobalRef r] else [])
    | none => []
  -- g_jvm = nullptr;
  ({ s1 with g_jvm := none }, t1 ++ t2)

/-! ## Call sequences -/

/-- The value a bridge function gives back to the host. -/
inductive Ret where
  | void
  | jboolean (b : Bool)
  | jobject (o : Option JDeviceInfo)
  deriving DecidableEq, Repr

/-- One call of the host into the bridge, together with what the collaborators do
during that call. -/
inductive Call where
  | NearClipFFI_initialize (context : Option JObject) (env : InitEnv)
  | NearClipFFI_cleanup
  | NearClipFFI_startDeviceDiscovery (engine : Outcome Bool)
  | NearClipFFI_stopDeviceDiscovery (engine : Outcome Bool)
  | NearClipFFI_connectToDevice (device_id : JString) (env : CallEnv)
  | NearClipFFI_disconnectFromDevice (device_id : JString) (env : CallEnv)
  | NearClipFFI_sendClipboardData (data : JString) (env : CallEnv)
  | NearClipFFI_getLocalDeviceInfo (env : InfoEnv)
  | JNI_OnUnload (getEnvOk : Bool)

/-- The effect of one call: returned value, state afterwards, operations performed. -/
def Call.step (c : Call) (s : Bridge) : Ret × Bridge × List Event :=
  match c with
  | Call.NearClipFFI_initialize context env =>
    let r := NearClip.NearClipFFI_initialize context env s
    (Ret.jboolean r.1, r.2)
  | Call.NearClipFFI_cleanup => (Ret.void, NearClip.NearClipFFI_cleanup s)
  | Call.NearClipFFI_startDeviceDiscovery engine =>
    let r := NearClip.NearClipFFI_startDeviceDiscovery engine s
    (Ret.jboolean r.1, r.2)
  | Call.NearClipFFI_stopDeviceDiscovery engine =>
    let r := NearClip.NearClipFFI_stopDeviceDiscovery engine s
    (Ret.jboolean r.1, r.2)
  | Call.NearClipFFI_connectToDevice device_id env =>
    let r := NearClip.NearClipFFI_connectToDevice device_id env s
    (Ret.jboolean r.1, r.2)
  | Call.NearClipFFI_disconnectFromDevice device_id env =>
    let r := NearClip.NearClipFFI_disconnectFromDevice device_id env s
    (Ret.jboolean r.1, r.2)
  | Call.NearClipFFI_sendClipboardData data env =>
    let r := NearClip.NearClipFFI_sendClipboardData data env s
    (Ret.jboolean r.1, r.2)
  | Call.NearClipFFI_getLocalDeviceInfo env =>
    let r := NearClip.NearClipFFI_getLocalDeviceInfo env s
    (Ret.jobject r.1, r.2)
  | Call.JNI_OnUnload getEnvOk => (Ret.void, NearClip.JNI_OnUnload getEnvOk s)

/-- A sequence of calls made one after the other: the values returned, the final
state, and the operations performed, all in order. -/
def run : List Call → Bridge → List Ret × Bridge × List Event
  | [], s => ([], s, [])
  | c :: cs, s =>
    let r := c.step s
    let rest := run cs r.2.1
    (r.1 :: rest.1, rest.2.1, r.2.2 ++ rest.2.2)

/-! ## Reading a list of operations -/

/-- The engine instances alive after the operations `t`, given those alive before:
a completed construction adds its instance, a destruction removes it. -/
def aliveEngines : List EngineId → List Event → List EngineId
  | alive, [] => alive
  | alive, Event.construct e :: t => aliveEngines (alive ++ [e]) t
  | alive, Event.destroy e :: t => aliveEngines (alive.erase e) t
  | alive, _ :: t => aliveEngines alive t

/-- The global references live after the operations `t`, given those live before:
a `NewGlobalRef` that returned a reference adds it, `DeleteGlobalRef` removes it. -/
def liveGlobalRefs : List GlobalRef → List Event → List GlobalRef
  | live, [] => live
  | live, Event.NewGlobalRef _ (some r) :: t => liveGlobalRefs (live ++ [r]) t
  | live, Event.DeleteGlobalRef r :: t => liveGlobalRefs (live.erase r) t
  | live, _ :: t => liveGlobalRefs live t

/-- Whether an operation constructs, destroys or calls an engine instance. -/
def Event.touchesEngine : Event → Bool
  | construct _ => true
  | constructThrows => true
  | destroy _ => true
  | engine _ _ => true
  | _ => false

/-- The identity of the engine held in `g_nearclip_core`, if one is held. -/
def Bridge.held (s : Bridge) : Option EngineId :=
  s.g_nearclip_core.map NearClipCore.id

/-- The numbering of instances and references is ahead of what the globals hold. -/
def Bridge.WF (s : Bridge) : Prop :=
  (∀ e, s.held = some e → e < s.nextEngine) ∧ (∀ r, s.g_context = some r → r < s.nextRef)

/-- The lifetime discipline of an engine replacement in which the old instance is
torn down first: in the operations `t` of one call, started with `old` alive, `old` is
destroyed exactly once, that destruction comes before every construction, and no more
than one instance is alive after any initial part of `t`. -/
def DestroyedBeforeConstructed (old : EngineId) (t : List Event) : Prop :=
  t.count (Event.destroy old) = 1
  ∧ (∀ new, Event.construct new ∈ t →
      t.indexOf (Event.destroy old) < t.indexOf (Event.construct new))
  ∧ ∀ p, p <+: t → (aliveEngines [old] p).length ≤ 1

/-- An engine whose construction and `initialize()` both succeed, in a host runtime
that has memory for a global reference. -/
def InitEnv.success : InitEnv :=
  { globalRefOom := false, construct := Outcome.ret (), core_initialize := Outcome.ret true }

/-- The state after one successful `initialize` of context object 7 from the initial
state: engine 0 is held and wired, global reference 0 is pinned. -/
def Bridge.ready : Bridge :=
  (NearClip.NearClipFFI_initialize (some 7) InitEnv.success Bridge.init).2.1

/-- The state after `initialize(nullptr)` from the initial state with an engine whose
`initialize()` returns `false`: the unwired engine 0 is held, no reference is pinned. -/
def Bridge.unwired : Bridge :=
  (NearClip.NearClipFFI_initialize none
    { globalRefOom := false, construct := Outcome.ret (),
      core_initialize := Outcome.ret false } Bridge.init).2.1

/-- Whether an operation is the destruction of an engine instance. -/
def Event.isDestroy : Event → Bool
  | destroy _ => true
  | _ => false

/-- Whether an operation is a completed construction of an engine instance. -/
def Event.isConstruct : Event → Bool
  | construct _ => true
  | _ => false

/-- Whether an operation is a `DeleteGlobalRef`. -/
def Event.isDeleteGlobalRef : Event → Bool
  | DeleteGlobalRef _ => true
  | _ => false

/-- Whether an operation is a call of `initialize()` on an engine instance. -/
def Event.isInitializeCall : Event → Bool
  | engine _ EngineCall.core_initialize => true
  | _ => false

/-- Whether an operation is a call of one of the five callback setters. -/
def Event.isSetter : Event → Bool
  | engine _ c => c.isSetter
  | _ => false

/-- The calls that keep context pin and engine slot paired: `cleanup`, the six
commands, and an `initialize` whose context is not null, whose `NewGlobalRef` returns a
reference and whose engine construction does not throw.  `JNI_OnUnload` is not one. -/
def Call.keepsPairing : Call → Prop
  | Call.NearClipFFI_initialize context env =>
    context.isSome = true ∧ env.globalRefOom = false ∧ env.construct = Outcome.ret ()
  | Call.JNI_OnUnload _ => False
  | _ => True

/-! ## `jni_callbacks.cpp`: the calling thread and the host runtime -/

/-- The value of `JNI_OK`. -/
def JNI_OK : Int := 0

/-- The value of `JNI_EDETACHED`. -/
def JNI_EDETACHED : Int := -2

/-- The value of `JNI_EVERSION`. -/
def JNI_EVERSION : Int := -3

/-- A non-null `JNIEnv*`: the execution context of one thread attached to the VM. -/
abbrev JNIEnv := Nat

/-- Who attached a thread to the VM.  The program keeps no such record; it is kept
here to be able to say which attachments the bridge made. -/
inductive Owner where
  | host
  | bridge
  deriving DecidableEq, Repr

/-- The state of the calling thread as the host runtime sees it: its `JNIEnv` while it
is attached, whether an exception is pending on it, and its live local references.
`owner` (who made the current attachment) and `nextLocal` (the numbering of local
references) are bookkeeping, not runtime state. -/
structure Thread where
  env : Option JNIEnv
  owner : Owner
  pending : Bool
  locals : List Nat
  nextLocal : Nat
  deriving DecidableEq, Repr

/-- The five `jmethodID` globals a relay can pass to `CallStaticVoidMethod`. -/
inductive CallbackSlot where
  | g_onDeviceDiscovered
  | g_onDiscoveryStateChanged
  | g_onConnectionChanged
  | g_onClipboardDataReceived
  | g_onError
  deriving DecidableEq, Repr

/-- A `jstring` made by `NewStringUTF`: the local reference returned and the string it
refers to, decoded from the C string read from the buffer passed. -/
structure JStringRef where
  ref : Nat
  str : HostString
  deriving DecidableEq, Repr

/-- An argument passed to a Java callback. -/
inductive JValue where
  | jstring (s : JStringRef)
  | jboolean (b : Bool)
  deriving DecidableEq, Repr

/-- One call of `jni_callbacks.cpp` into the host runtime. -/
inductive JniOp where
  /-- The call `g_jvm->GetEnv(&env, version)` and the code it returned. -/
  | GetEnv (version : Int) (result : Int)
  /-- The call `g_jvm->AttachCurrentThread(env, &args)` with the version and thread name
  of `args`, and the code it returned. -/
  | AttachCurrentThread (version : Int) (name : String) (result : Int)
  /-- The call `g_jvm->DetachCurrentThread()`. -/
  | DetachCurrentThread
  /-- The call `env->ExceptionCheck()` and its answer. -/
  | ExceptionCheck (pending : Bool)
  /-- The call `env->ExceptionDescribe()`. -/
  | ExceptionDescribe
  /-- The call `env->ExceptionClear()`. -/
  | ExceptionClear
  /-- The call `env->FindClass(name)` and the local reference returned (`none` is `NULL`). -/
  | FindClass (name : String) (ref : Option Nat)
  /-- The call `env->NewStringUTF(buf)`, where `utf` is the C string read from `buf`, and
  the local reference returned (`none` is `NULL`). -/
  | NewStringUTF (utf : List Nat) (ref : Option Nat)
  /-- The call `env->CallStaticVoidMethod(clazz, slot, args...)`: the global passed as
  method, the value it held, and the arguments. -/
  | CallStaticVoidMethod (slot : CallbackSlot) (methodID : Option MethodID)
      (args : List JValue)
  /-- The call `env->DeleteLocalRef(ref)`. -/
  | DeleteLocalRef (ref : Nat)
  deriving DecidableEq, Repr

/-- Whether an operation invokes a Java callback. -/
def JniOp.isCall : JniOp → Bool
  | CallStaticVoidMethod _ _ _ => true
  | _ => false

/-- Whether an operation is an `AttachCurrentThread`. -/
def JniOp.isAttach : JniOp → Bool
  | AttachCurrentThread _ _ _ => true
  | _ => false

/-- What the host runtime does during one call of a relay. -/
structure RelayEnv where
  /-- Whether `GetEnv` accepts the version asked for (else `JNI_EVERSION`). -/
  versionOk : Bool
  /-- The code `AttachCurrentThread` returns for a thread that is not attached. -/
  attach : Int
  /-- The `JNIEnv` the runtime gives the thread when that attach returns `JNI_OK`. -/
  attachEnv : JNIEnv
  /-- Whether `FindClass` finds `com/nearclip/ffi/NearClipFFI`. -/
  findClass : Bool
  /-- Whether `NewStringUTF` gives a string. -/
  newStringUTF : Bool
  /-- Whether the Java callback invoked raises an exception. -/
  callbackThrows : Bool
  deriving DecidableEq, Repr

/-- The code `GetEnv` returns on a thread: `JNI_EDETACHED` when it is not attached,
`JNI_EVERSION` when the version is refused, otherwise `JNI_OK`. -/
def Thread.GetEnv (th : Thread) (versionOk : Bool) : Int :=
  match th.env with
  | none => JNI_EDETACHED
  | some _ => if versionOk then JNI_OK else JNI_EVERSION

/-- The code `AttachCurrentThread` returns and the thread afterwards: nothing happens
on an attached thread (`JNI_OK`); a thread that is not attached gets the `JNIEnv` `env`
when the runtime answers `JNI_OK`, and stays as it is otherwise. -/
def Thread.AttachCurrentThread (th : Thread) (result : Int) (env : JNIEnv) : Int × Thread :=
  match th.env with
  | some _ => (JNI_OK, th)
  | none =>
    if result = JNI_OK then (JNI_OK, { th with env := some env, owner := Owner.bridge })
    else (result, th)

/-- The thread after `DetachCurrentThread`: it has no `JNIEnv` any more. -/
def Thread.DetachCurrentThread (th : Thread) : Thread :=
  { th with env := none }

/-- The statement `if (env->ExceptionCheck()) { env->ExceptionDescribe(); env->ExceptionClear(); }`. -/
def Thread.ExceptionClearIfPending (th : Thread) : Thread × List JniOp :=
  if th.pending then
    ({ th with pending := false },
      [JniOp.ExceptionCheck true, JniOp.ExceptionDescribe, JniOp.ExceptionClear])
  else (th, [JniOp.ExceptionCheck false])

/-- The call `env->FindClass(name)`: a new local reference, or `NULL` with an exception
left pending. -/
def Thread.FindClass (th : Thread) (name : String) (found : Bool) :
    Option Nat × Thread × List JniOp :=
  if found then
    (some th.nextLocal,
      { th with locals := th.locals ++ [th.nextLocal], nextLocal := th.nextLocal + 1 },
      [JniOp.FindClass name (some th.nextLocal)])
  else (none, { th with pending := true }, [JniOp.FindClass name none])

/-- The call `env->NewStringUTF(buf)`: a new local reference to the string decoded from
the C string read from `buf`, or `NULL` with an exception left pending. -/
def Thread.NewStringUTF (th : Thread) (buf : List Nat) (ok : Bool) :
    Option JStringRef × Thread × List JniOp :=
  if ok then
    (some { ref := th.nextLocal, str := HostString.ofUTF buf },
      { th with locals := th.locals ++ [th.nextLocal], nextLocal := th.nextLocal + 1 },
      [JniOp.NewStringUTF (cstring buf) (some th.nextLocal)])
  else (none, { th with pending := true }, [JniOp.NewStringUTF (cstring buf) none])

/-- The call `env->CallStaticVoidMethod(clazz, method, args...)`, where `method` is the
value of the global `slot`: an exception is pending afterwards when the callback raised
one. -/
def Thread.CallStaticVoidMethod (th : Thread) (slot : CallbackSlot)
    (methodID : Option MethodID) (args : List JValue) (throws : Bool) : Thread × List JniOp :=
  ({ th with pending := th.pending || throws },
    [JniOp.CallStaticVoidMethod slot methodID args])

/-- The call `env->DeleteLocalRef(ref)`. -/
def Thread.DeleteLocalRef (th : Thread) (ref : Nat) : Thread × List JniOp :=
  ({ th with locals := th.locals.erase ref }, [JniOp.DeleteLocalRef ref])

/-! ## `jni_callbacks.cpp` -/

/-- The function `attach_current_thread(JNIEnv** env)`: the boolean returned, the
value written to `*env` (when one is written), the thread afterwards, the operations. -/
def attach_current_thread (h : RelayEnv) (g : Bridge) (th : Thread) :
    Bool × Option JNIEnv × Thread × List JniOp :=
  -- if (g_jvm == nullptr) return false;
  match g.g_jvm with
  | none => (false, none, th, [])
  | some _ =>
    -- JavaVMAttachArgs args = { JNI_VERSION_1_6, "NearClipNativeThread", nullptr };
    -- jint result = g_jvm->AttachCurrentThread(env, &args);
    let r := th.AttachCurrentThread h.attach h.attachEnv
    let t := [JniOp.AttachCurrentThread JNI_VERSION_1_6 "NearClipNativeThread" r.1]
    if r.1 ≠ JNI_OK then (false, none, r.2, t)
    else (true, r.2.env, r.2, t)

/-- The function `get_jni_env()`: the `JNIEnv*` returned (`none` is `nullptr`), the
thread afterwards, the operations. -/
def get_jni_env (h : RelayEnv) (g : Bridge) (th : Thread) :
    Option JNIEnv × Thread × List JniOp :=
  -- if (g_jvm == nullptr) return nullptr;
  match g.g_jvm with
  | none => (none, th, [])
  | some _ =>
    -- jint result = g_jvm->GetEnv(&env, JNI_VERSION_1_6);
    let result := th.GetEnv h.versionOk
    let t0 := [JniOp.GetEnv JNI_VERSION_1_6 result]
    if result = JNI_EDETACHED then
      let a := attach_current_thread h g th
      if !a.1 then (none, a.2.2.1, t0 ++ a.2.2.2)
      else (a.2.1, a.2.2.1, t0 ++ a.2.2.2)
    else if result ≠ JNI_OK then (none, th, t0)
    else (th.env, th, t0)

/-- The function `detach_current_thread()`. -/
def detach_current_thread (g : Bridge) (th : Thread) : Thread × List JniOp :=
  match g.g_jvm with
  | none => (th, [])
  | some _ => (th.DetachCurrentThread, [JniOp.DetachCurrentThread])

/-- The statement `if (should_detach) detach_current_thread();`. -/
def detachIf (should_detach : Bool) (g : Bridge) (th : Thread) : Thread × List JniOp :=
  if should_detach then detach_current_thread g th else (th, [])

/-- The function `call_java_method_onDeviceDiscovered(device_json)`. -/
def call_java_method_onDeviceDiscovered (device_json : NativeString) (h : RelayEnv)
    (g : Bridge) (th : Thread) : Thread × List JniOp :=
  -- JNIEnv* env = get_jni_env(); if (!env) return;
  let e := get_jni_env h g th
  match e.1 with
  | none => (e.2.1, e.2.2)
  | some _ =>
    -- bool should_detach = false;
    let should_detach := false
    -- if (env->ExceptionCheck()) { env->ExceptionDescribe(); env->ExceptionClear(); }
    let x0 := e.2.1.ExceptionClearIfPending
    -- jclass clazz = env->FindClass("com/nearclip/ffi/NearClipFFI");
    let c := x0.1.FindClass "com/nearclip/ffi/NearClipFFI" h.findClass
    match c.1 with
    | none =>
      -- if (!clazz) { if (should_detach) detach_current_thread(); return; }
      let d := detachIf should_detach g c.2.1
      (d.1, e.2.2 ++ x0.2 ++ c.2.2 ++ d.2)
    | some clazz =>
      -- jstring device_json_str = env->NewStringUTF(device_json.c_str());
      let n := c.2.1.NewStringUTF (c_str device_json) h.newStringUTF
      match n.1 with
      | none =>
        -- if (!device_json_str) { if (should_detach) detach_current_thread(); return; }
        let d := detachIf should_detach g n.2.1
        (d.1, e.2.2 ++ x0.2 ++ c.2.2 ++ n.2.2 ++ d.2)
      | some str =>
        -- env->CallStaticVoidMethod(clazz, g_onDeviceDiscovered, device_json_str);
        let m := n.2.1.CallStaticVoidMethod CallbackSlot.g_onDeviceDiscovered
          g.g_onDeviceDiscovered [JValue.jstring str] h.callbackThrows
        -- env->DeleteLocalRef(device_json_str); env->DeleteLocalRef(clazz);
        let d1 := m.1.DeleteLocalRef str.ref
        let d2 := d1.1.DeleteLocalRef clazz
        -- if (env->ExceptionCheck()) { env->ExceptionDescribe(); env->ExceptionClear(); }
        let x := d2.1.ExceptionClearIfPending
        -- if (should_detach) detach_current_thread();
        let d := detachIf should_detach g x.1
        (d.1, e.2.2 ++ x0.2 ++ c.2.2 ++ n.2.2 ++ m.2 ++ d1.2 ++ d2.2 ++ x.2 ++ d.2)

/-- The function `call_java_method_onDiscoveryStateChanged(state)`. -/
def call_java_method_onDiscoveryStateChanged (state : NativeString) (h : RelayEnv)
    (g : Bridge) (th : Thread) : Thread × List JniOp :=
  -- JNIEnv* env = get_jni_env(); if (!env) return;
  let e := get_jni_env h g th
  match e.1 with
  | none => (e.2.1, e.2.2)
  | some _ =>
    -- jclass clazz = env->FindClass("com/nearclip/ffi/NearClipFFI"); if (!clazz) return;
    let c := e.2.1.FindClass "com/nearclip/ffi/NearClipFFI" h.findClass
    match c.1 with
    | none => (c.2.1, e.2.2 ++ c.2.2)
    | some clazz =>
      -- jstring str = env->NewStringUTF(state.c_str());
      let n := c.2.1.NewStringUTF (c_str state) h.newStringUTF
      match n.1 with
      | none =>
        -- if (!str) { env->DeleteLocalRef(clazz); return; }
        let d := n.2.1.DeleteLocalRef clazz
        (d.1, e.2.2 ++ c.2.2 ++ n.2.2 ++ d.2)
      | some str =>
        -- env->CallStaticVoidMethod(clazz, g_onDiscoveryStateChanged, ...);
        let m := n.2.1.CallStaticVoidMethod CallbackSlot.g_onDiscoveryStateChanged g.g_onDiscoveryStateChanged
          [JValue.jstring str] h.callbackThrows
        -- env->DeleteLocalRef(str); env->DeleteLocalRef(clazz);
        let d1 := m.1.DeleteLocalRef str.ref
        let d2 := d1.1.DeleteLocalRef clazz
        -- if (env->ExceptionCheck()) { env->ExceptionDescribe(); env->ExceptionClear(); }
        let x := d2.1.ExceptionClearIfPending
        (x.1, e.2.2 ++ c.2.2 ++ n.2.2 ++ m.2 ++ d1.2 ++ d2.2 ++ x.2)

/-- The function `call_java_method_onConnectionChanged(device_id, connected)`. -/
def call_java_method_onConnectionChanged (device_id : NativeString) (connected : Bool) (h : RelayEnv)
    (g : Bridge) (th : Thread) : Thread × List JniOp :=
  -- JNIEnv* env = get_jni_env(); if (!env) return;
  let e := get_jni_env h g th
  match e.1 with
  | none => (e.2.1, e.2.2)
  | some _ =>
    -- jclass clazz = env->FindClass("com/nearclip/ffi/NearClipFFI"); if (!clazz) return;
    let c := e.2.1.FindClass "com/nearclip/ffi/NearClipFFI" h.findClass
    match c.1 with
    | none => (c.2.1, e.2.2 ++ c.2.2)
    | some clazz =>
      -- jstring str = env->NewStringUTF(device_id.c_str());
      let n := c.2.1.NewStringUTF (c_str device_id) h.newStringUTF
      match n.1 with
      | none =>
        -- if (!str) { env->DeleteLocalRef(clazz); return; }
        let d := n.2.1.DeleteLocalRef clazz
        (d.1, e.2.2 ++ c.2.2 ++ n.2.2 ++ d.2)
      | some str =>
        -- env->CallStaticVoidMethod(clazz, g_onConnectionChanged, ...);
        let m := n.2.1.CallStaticVoidMethod CallbackSlot.g_onConnectionChanged g.g_onConnectionChanged
          [JValue.jstring str, JValue.jboolean connected] h.callbackThrows
        -- env->DeleteLocalRef(str); env->DeleteLocalRef(clazz);
        let d1 := m.1.DeleteLocalRef str.ref
        let d2 := d1.1.DeleteLocalRef clazz
        -- if (env->ExceptionCheck()) { env->ExceptionDescribe(); env->ExceptionClear(); }
        let x := d2.1.ExceptionClearIfPending
        (x.1, e.2.2 ++ c.2.2 ++ n.2.2 ++ m.2 ++ d1.2 ++ d2.2 ++ x.2)

/-- The function `call_java_method_onClipboardDataReceived(data)`. -/
def call_java_method_onClipboardDataReceived (data : NativeString) (h : RelayEnv)
    (g : Bridge) (th : Thread) : Thread × List JniOp :=
  -- JNIEnv* env = get_jni_env(); if (!env) return;
  let e := get_jni_env h g th
  match e.1 with
  | none => (e.2.1, e.2.2)
  | some _ =>
    -- jclass clazz = env->FindClass("com/nearclip/ffi/NearClipFFI"); if (!clazz) return;
    let c := e.2.1.FindClass "com/nearclip/ffi/NearClipFFI" h.findClass
    match c.1 with
    | none => (c.2.1, e.2.2 ++ c.2.2)
    | some clazz =>
      -- jstring str = env->NewStringUTF(data.c_str());
      let n := c.2.1.NewStringUTF (c_str data) h.newStringUTF
      match n.1 with
      | none =>
        -- if (!str) { env->DeleteLocalRef(clazz); return; }
        let d := n.2.1.DeleteLocalRef clazz
        (d.1, e.2.2 ++ c.2.2 ++ n.2.2 ++ d.2)
      | some str =>
        -- env->CallStaticVoidMethod(clazz, g_onClipboardDataReceived, ...);
        let m := n.2.1.CallStaticVoidMethod CallbackSlot.g_onClipboardDataReceived g.g_onClipboardDataReceived
          [JValue.jstring str] h.callbackThrows
        -- env->DeleteLocalRef(str); env->DeleteLocalRef(clazz);
        let d1 := m.1.DeleteLocalRef str.ref
        let d2 := d1.1.DeleteLocalRef clazz
        -- if (env->ExceptionCheck()) { env->ExceptionDescribe(); env->ExceptionClear(); }
        let x := d2.1.ExceptionClearIfPending
        (x.1, e.2.2 ++ c.2.2 ++ n.2.2 ++ m.2 ++ d1.2 ++ d2.2 ++ x.2)

/-- The function `call_java_method_onError(error)`. -/
def call_java_method_onError (error : NativeString) (h : RelayEnv)
    (g : Bridge) (th : Thread) : Thread × List JniOp :=
  -- JNIEnv* env = get_jni_env(); if (!env) return;
  let e := get_jni_env h g th
  match e.1 with
  | none => (e.2.1, e.2.2)
  | some _ =>
    -- jclass clazz = env->FindClass("com/nearclip/ffi/NearClipFFI"); if (!clazz) return;
    let c := e.2.1.FindClass "com/nearclip/ffi/NearClipFFI" h.findClass
    match c.1 with
    | none => (c.2.1, e.2.2 ++ c.2.2)
    | some clazz =>
      -- jstring str = env->NewStringUTF(error.c_str());
      let n := c.2.1.NewStringUTF (c_str error) h.newStringUTF
      match n.1 with
      | none =>
        -- if (!str) { env->DeleteLocalRef(clazz); return; }
        let d := n.2.1.DeleteLocalRef clazz
        (d.1, e.2.2 ++ c.2.2 ++ n.2.2 ++ d.2)
      | some str =>
        -- env->CallStaticVoidMethod(clazz, g_onError, ...);
        let m := n.2.1.CallStaticVoidMethod CallbackSlot.g_onError g.g_onError
          [JValue.jstring str] h.callbackThrows
        -- env->DeleteLocalRef(str); env->DeleteLocalRef(clazz);
        let d1 := m.1.DeleteLocalRef str.ref
        let d2 := d1.1.DeleteLocalRef clazz
        -- if (env->ExceptionCheck()) { env->ExceptionDescribe(); env->ExceptionClear(); }
        let x := d2.1.ExceptionClearIfPending
        (x.1, e.2.2 ++ c.2.2 ++ n.2.2 ++ m.2 ++ d1.2 ++ d2.2 ++ x.2)

/-- The relay call made by an engine callback, run on the calling thread. -/
def RelayCall.run (c : RelayCall) (h : RelayEnv) (g : Bridge) (th : Thread) :
    Thread × List JniOp :=
  match c with
  | RelayCall.call_java_method_onDeviceDiscovered device_json =>
    NearClip.call_java_method_onDeviceDiscovered device_json h g th
  | RelayCall.call_java_method_onDiscoveryStateChanged state =>
    NearClip.call_java_method_onDiscoveryStateChanged state h g th
  | RelayCall.call_java_method_onConnectionChanged device_id connected =>
    NearClip.call_java_method_onConnectionChanged device_id connected h g th
  | RelayCall.call_java_method_onClipboardDataReceived data =>
    NearClip.call_java_method_onClipboardDataReceived data h g th
  | RelayCall.call_java_method_onError error =>
    NearClip.call_java_method_onError error h g th

/-- A host runtime in which every operation of a relay succeeds and the callback
returns normally; a thread that is not attached gets the `JNIEnv` 9. -/
def RelayEnv.success : RelayEnv :=
  { versionOk := true, attach := JNI_OK, attachEnv := 9, findClass := true,
    newStringUTF := true, callbackThrows := false }

/-- A thread the host attached to the VM itself, with `JNIEnv` 5, nothing pending. -/
def Thread.hostAttached : Thread :=
  { env := some 5, owner := Owner.host, pending := false, locals := [], nextLocal := 0 }

/-- A native thread that is not attached to the VM. -/
def Thread.detached : Thread :=
  { env := none, owner := Owner.host, pending := false, locals := [], nextLocal := 0 }

/-- The globals after a successful `JNI_OnLoad` of VM 1 that resolved the five callback
methods to the ids 11 to 15. -/
def Bridge.loaded : Bridge :=
  (JNI_OnLoad 1
    { getEnvOk := true, findClass := true,
      methodID := fun name =>
        if name = "onDeviceDiscovered" then some 11
        else if name = "onDiscoveryStateChanged" then some 12
        else if name = "onConnectionChanged" then some 13
        else if name = "onClipboardDataReceived" then some 14
        else if name = "onError" then some 15
        else none } Bridge.init).2.1

/-! ## All functions of the bridge, on the globals and one calling thread -/

/-- The five callback slots of a state, in declaration order. -/
def Bridge.slots (s : Bridge) :
    Option MethodID × Option MethodID × Option MethodID × Option MethodID × Option MethodID :=
  (s.g_onDeviceDiscovered, s.g_onDiscoveryStateChanged, s.g_onConnectionChanged,
    s.g_onClipboardDataReceived, s.g_onError)

/-- One call of any function of the two source files, with what the collaborators do
during it. -/
inductive BridgeOp where
  /-- A call of `initialize`, `cleanup`, one of the six commands, or `JNI_OnUnload`. -/
  | host (c : Call)
  | JNI_OnLoad (vm : JavaVM) (env : LoadEnv)
  | setup_callbacks
  | relay (c : RelayCall) (h : RelayEnv)
  | get_jni_env (h : RelayEnv)
  | attach_current_thread (h : RelayEnv)
  | detach_current_thread

/-- Whether a call is a call of `JNI_OnLoad`. -/
def BridgeOp.isLoad : BridgeOp → Bool
  | BridgeOp.JNI_OnLoad _ _ => true
  | _ => false

/-- Whether a call is a call of `JNI_OnUnload`. -/
def BridgeOp.isUnload : BridgeOp → Bool
  | BridgeOp.host (Call.JNI_OnUnload _) => true
  | _ => false

/-- The globals and the calling thread after one call.  The functions of
`jni_callbacks.cpp` contain no assignment to a global, so they give back the globals
they were given. -/
def BridgeOp.step (op : BridgeOp) (w : Bridge × Thread) : Bridge × Thread :=
  match op with
  | BridgeOp.host c => ((c.step w.1).2.1, w.2)
  | BridgeOp.JNI_OnLoad vm env => ((NearClip.JNI_OnLoad vm env w.1).2.1, w.2)
  | BridgeOp.setup_callbacks => ((NearClip.setup_callbacks w.1).1, w.2)
  | BridgeOp.relay c h => (w.1, (c.run h w.1 w.2).1)
  | BridgeOp.get_jni_env h => (w.1, (NearClip.get_jni_env h w.1 w.2).2.1)
  | BridgeOp.attach_current_thread h =>
    (w.1, (NearClip.attach_current_thread h w.1 w.2).2.2.1)
  | BridgeOp.detach_current_thread => (w.1, (NearClip.detach_current_thread w.1 w.2).1)

/-- The globals and the calling thread after a sequence of calls. -/
def BridgeOp.steps : List BridgeOp → Bridge × Thread → Bridge × Thread
  | [], w => w
  | op :: ops, w => BridgeOp.steps ops (op.step w)

/-- The example scenario of the specification: `initialize(ctxA)`,
`startDeviceDiscovery()`, `connectToDevice("dev-123")`, `sendClipboardData("hello")` and
`cleanup()`, with an engine all of whose operations succeed. -/
def exampleScenario (ctxA : Option JObject) (oom : Bool) : List Call :=
  [Call.NearClipFFI_initialize ctxA
     { globalRefOom := oom, construct := Outcome.ret (), core_initialize := Outcome.ret true },
   Call.NearClipFFI_startDeviceDiscovery (Outcome.ret true),
   Call.NearClipFFI_connectToDevice [100, 101, 118, 45, 49, 50, 51]
     { string_ctor := Outcome.ret (), engine := Outcome.ret true },
   Call.NearClipFFI_sendClipboardData [104, 101, 108, 108, 111]
     { string_ctor := Outcome.ret (), engine := Outcome.ret true },
   Call.NearClipFFI_cleanup]

/-- The relay of which `onDiscoveryStateChanged`, `onClipboardDataReceived` and `onError`
are said to be instances: obtain the context, find the class, create the host string,
invoke the method held by the global `slot`, delete the two local references, clear a
pending exception.  It is written from that description, with the slot as a parameter,
to be compared with the three functions of the source. -/
def plainRelay (slot : CallbackSlot) (methodID : Option MethodID) (text : NativeString)
    (h : RelayEnv) (g : Bridge) (th : Thread) : Thread × List JniOp :=
  let e := get_jni_env h g th
  match e.1 with
  | none => (e.2.1, e.2.2)
  | some _ =>
    let c := e.2.1.FindClass "com/nearclip/ffi/NearClipFFI" h.findClass
    match c.1 with
    | none => (c.2.1, e.2.2 ++ c.2.2)
    | some clazz =>
      let n := c.2.1.NewStringUTF (c_str text) h.newStringUTF
      match n.1 with
      | none =>
        let d := n.2.1.DeleteLocalRef clazz
        (d.1, e.2.2 ++ c.2.2 ++ n.2.2 ++ d.2)
      | some str =>
        let m := n.2.1.CallStaticVoidMethod slot methodID [JValue.jstring str] h.callbackThrows
        let d1 := m.1.DeleteLocalRef str.ref
        let d2 := d1.1.DeleteLocalRef clazz
        let x := d2.1.ExceptionClearIfPending
        (x.1, e.2.2 ++ c.2.2 ++ n.2.2 ++ m.2 ++ d1.2 ++ d2.2 ++ x.2)

/-- An operation with the method of a callback invocation replaced by the global `slot`
and its value; every other operation is left as it is. -/
def JniOp.retarget (slot : CallbackSlot) (methodID : Option MethodID) : JniOp → JniOp
  | JniOp.CallStaticVoidMethod _ _ args => JniOp.CallStaticVoidMethod slot methodID args
  | op => op

/-- Whether an operation is an `AttachCurrentThread` that returned `JNI_OK`. -/
def JniOp.isAttachOk : JniOp → Bool
  | JniOp.AttachCurrentThread _ _ result => result == JNI_OK
  | _ => false

/-- A sequence of relay calls made one after the other on one thread, each with its own
behaviour of the host runtime, while the globals stay as they are: the thread afterwards
and the operations performed, in order. -/
def runRelays : List (RelayCall × RelayEnv) → Bridge → Thread → Thread × List JniOp
  | [], _, th => (th, [])
  | p :: rest, g, th =>
    let r := p.1.run p.2 g th
    let r2 := runRelays rest g r.1
    (r2.1, r.2 ++ r2.2)

/-! ## Exceptions by type -/

/-- The type of a C++ exception, as far as the handlers of the bridge tell exceptions
apart: derived from `std::exception`, which is what `catch (const std::exception& e)`
catches, or of any other type (a class of its own, a number, a string). -/
inductive Thrown where
  | std_exception
  | other
  deriving DecidableEq, Repr

/-- The way a call ends when the type of a raised exception is kept: it returns a value,
or an exception of the given type leaves it. -/
inductive Raised (α : Type) where
  | ret (a : α)
  | throws (e : Thrown)
  deriving DecidableEq, Repr

/-- An `Outcome`, whose exceptions are those derived from `std::exception`, with the
type of the exception spelled out. -/
def Outcome.raised {α : Type} : Outcome α → Raised α
  | Outcome.ret a => Raised.ret a
  | Outcome.throws => Raised.throws Thrown.std_exception

/-- What the handler `catch (const std::exception& e) { ...; return fallback; }`, the
only handler of each function of `nearclip_jni.cpp`, makes of an exception raised in
its `try` block: an exception derived from `std::exception` is caught and the
function returns `fallback`; an exception of any other type is not caught and leaves
the function. -/
def Thrown.caught {α : Type} (fallback : α) : Thrown → Raised α
  | Thrown.std_exception => Raised.ret fallback
  | Thrown.other => Raised.throws Thrown.other

/-- The number of callbacks registered with an engine instance. -/
def NearClipCore.wired (core : NearClipCore) : Nat :=
  (if core.device_discovered_callback.isSome then 1 else 0)
  + (if core.discovery_state_callback.isSome then 1 else 0)
  + (if core.connection_callback.isSome then 1 else 0)
  + (if core.clipboard_callback.isSome then 1 else 0)
  + (if core.error_callback.isSome then 1 else 0)

/-- What the engine does during one `initialize`, with the type of each exception and
with callback setters that may raise one. -/
structure Typed.InitEnv where
  /-- Whether `NewGlobalRef` runs out of memory (it then returns `NULL`). -/
  globalRefOom : Bool
  /-- How `std::make_unique<NearClipCore>()` ends. -/
  construct : Raised Unit
  /-- How `g_nearclip_core->initialize()` ends. -/
  core_initialize : Raised Bool
  /-- How the `i`-th setter call of `setup_callbacks` (from 0) ends; a setter that
  raises an exception registers nothing. -/
  setter : Nat → Raised Unit

/-- What happens inside the `try` block of a command that takes a string, with the
type of each exception. -/
structure Typed.CallEnv where
  /-- How the construction of the `std::string` from the character buffer ends. -/
  string_ctor : Raised Unit
  /-- How the engine operation ends. -/
  engine : Raised Bool

/-- The function `setup_callbacks()`, with setters that may raise an exception: the
exception leaves `setup_callbacks`, which has no handler, after the setters before it
have registered their callbacks. -/
def Typed.setup_callbacks (setter : Nat → Raised Unit) (s : Bridge) :
    Raised Unit × Bridge × List Event :=
  match s.g_nearclip_core with
  | none => (Raised.ret (), s, [])
  | some core =>
    -- g_nearclip_core->set_device_discovered_callback(...);
    let t1 := [Event.engine core.id EngineCall.set_device_discovered_callback]
    match setter 0 with
    | Raised.throws e => (Raised.throws e, s, t1)
    | Raised.ret _ =>
      let core1 : NearClipCore := { core with
        device_discovered_callback :=
          some (fun device_json =>
            [RelayCall.call_java_method_onDeviceDiscovered device_json]) }
      -- g_nearclip_core->set_discovery_state_callback(...);
      let t2 := t1 ++ [Event.engine core.id EngineCall.set_discovery_state_callback]
      match setter 1 with
      | Raised.throws e => (Raised.throws e, { s with g_nearclip_core := some core1 }, t2)
      | Raised.ret _ =>
        let core2 : NearClipCore := { core1 with
          discovery_state_callback :=
            some (fun state => [RelayCall.call_java_method_onDiscoveryStateChanged state]) }
        -- g_nearclip_core->set_connection_callback(...);
        let t3 := t2 ++ [Event.engine core.id EngineCall.set_connection_callback]
        match setter 2 with
        | Raised.throws e => (Raised.throws e, { s with g_nearclip_core := some core2 }, t3)
        | Raised.ret _ =>
          let core3 : NearClipCore := { core2 with
            connection_callback :=
              some (fun device_id connected =>
                [RelayCall.call_java_method_onConnectionChanged device_id connected]) }
          -- g_nearclip_core->set_clipboard_callback(...);
          let t4 := t3 ++ [Event.engine core.id EngineCall.set_clipboard_callback]
          match setter 3 with
          | Raised.throws e =>
            (Raised.throws e, { s with g_nearclip_core := some core3 }, t4)
          | Raised.ret _ =>
            let core4 : NearClipCore := { core3 with
              clipboard_callback :=
                some (fun data => [RelayCall.call_java_method_onClipboardDataReceived data]) }
            -- g_nearclip_core->set_error_callback(...);
            let t5 := t4 ++ [Event.engine core.id EngineCall.set_error_callback]
            match setter 4 with
            | Raised.throws e =>
              (Raised.throws e, { s with g_nearclip_core := some core4 }, t5)
            | Raised.ret _ =>
              let core5 : NearClipCore := { core4 with
                error_callback :=
                  some (fun error => [RelayCall.call_java_method_onError error]) }
              (Raised.ret (), { s with g_nearclip_core := some core5 }, t5)

/-- The function `Java_com_nearclip_ffi_NearClipFFI_initialize(env, thiz, context)`, with
the type of each exception: the first component is the value returned to the host, or
the exception that leaves the function. -/
def Typed.NearClipFFI_initialize (context : Option JObject) (env : Typed.InitEnv)
    (s : Bridge) : Raised Bool × Bridge × List Event :=
  -- if (g_context) env->DeleteGlobalRef(g_context);
  let t1 := deleteContext s
  -- g_context = env->NewGlobalRef(context);
  let r := newGlobalRef context env.globalRefOom s
  let s1 := { s with g_context := r, nextRef := if r.isSome then s.nextRef + 1 else s.nextRef }
  let t2 := t1 ++ [Event.NewGlobalRef context r]
  -- g_nearclip_core = std::make_unique<NearClipCore>();
  match env.construct with
  | Raised.throws e => (Thrown.caught false e, s1, t2 ++ [Event.constructThrows])
  | Raised.ret _ =>
    let core := NearClipCore.fresh s1.nextEngine
    let t3 := t2 ++ [Event.construct core.id] ++ destroyHeld s1
    let s2 := { s1 with g_nearclip_core := some core, nextEngine := s1.nextEngine + 1 }
    -- bool result = g_nearclip_core->initialize();
    let t4 := t3 ++ [Event.engine core.id EngineCall.core_initialize]
    match env.core_initialize with
    | Raised.throws e => (Thrown.caught false e, s2, t4)
    | Raised.ret result =>
      if result then
        -- setup_callbacks();
        let r := Typed.setup_callbacks env.setter s2
        match r.1 with
        | Raised.throws e => (Thrown.caught false e, r.2.1, t4 ++ r.2.2)
        | Raised.ret _ => (Raised.ret true, r.2.1, t4 ++ r.2.2)
      else
        (Raised.ret false, s2, t4)

/-- The function `Java_com_nearclip_ffi_NearClipFFI_startDeviceDiscovery(env, thiz)`, with
the type of each exception. -/
def Typed.NearClipFFI_startDeviceDiscovery (engine : Raised Bool) (s : Bridge) :
    Raised Bool × Bridge × List Event :=
  match s.g_nearclip_core with
  | none => (Raised.ret false, s, [])
  | some core =>
    match engine with
    | Raised.ret result =>
      (Raised.ret result, s, [Event.engine core.id EngineCall.start_discovery])
    | Raised.throws e =>
      (Thrown.caught false e, s, [Event.engine core.id EngineCall.start_discovery])

/-- The function `Java_com_nearclip_ffi_NearClipFFI_stopDeviceDiscovery(env, thiz)`, with
the type of each exception. -/
def Typed.NearClipFFI_stopDeviceDiscovery (engine : Raised Bool) (s : Bridge) :
    Raised Bool × Bridge × List Event :=
  match s.g_nearclip_core with
  | none => (Raised.ret false, s, [])
  | some core =>
    match engine with
    | Raised.ret result =>
      (Raised.ret result, s, [Event.engine core.id EngineCall.stop_discovery])
    | Raised.throws e =>
      (Thrown.caught false e, s, [Event.engine core.id EngineCall.stop_discovery])

/-- The events of the handler of a string command, which releases the character buffer
of `arg`, for an exception raised in the `try` block: the handler runs for an exception
derived from `std::exception` only. -/
def Thrown.release (arg : JString) : Thrown → List Event
  | Thrown.std_exception => [Event.ReleaseStringUTFChars arg]
  | Thrown.other => []

/-- The common shape of `connectToDevice`, `disconnectFromDevice` and
`sendClipboardData`, with the type of each exception. -/
def Typed.stringCommand (op : NativeString → EngineCall) (arg : JString)
    (env : Typed.CallEnv) (s : Bridge) : Raised Bool × Bridge × List Event :=
  -- const char* str = env->GetStringUTFChars(arg, nullptr); LOG("... %s", str);
  let str := GetStringUTFChars arg
  let t0 := [Event.GetStringUTFChars arg, Event.readUTFChars arg]
  match s.g_nearclip_core with
  | none => (Raised.ret false, s, t0 ++ [Event.ReleaseStringUTFChars arg])
  | some core =>
    -- std::string cpp(str);
    match env.string_ctor with
    | Raised.throws e =>
      (Thrown.caught false e, s, t0 ++ [Event.readUTFChars arg] ++ Thrown.release arg e)
    | Raised.ret _ =>
      let cpp := cstring str
      let t1 := t0 ++ [Event.readUTFChars arg, Event.engine core.id (op cpp)]
      match env.engine with
      | Raised.ret result => (Raised.ret result, s, t1 ++ [Event.ReleaseStringUTFChars arg])
      | Raised.throws e => (Thrown.caught false e, s, t1 ++ Thrown.release arg e)

/-- The function `Java_com_nearclip_ffi_NearClipFFI_connectToDevice(env, thiz, device_id)`,
with the type of each exception. -/
def Typed.NearClipFFI_connectToDevice (device_id : JString) (env : Typed.CallEnv)
    (s : Bridge) : Raised Bool × Bridge × List Event :=
  Typed.stringCommand EngineCall.connect_to_device device_id env s

/-- The function
`Java_com_nearclip_ffi_NearClipFFI_disconnectFromDevice(env, thiz, device_id)`, with the
type of each exception. -/
def Typed.NearClipFFI_disconnectFromDevice (device_id : JString) (env : Typed.CallEnv)
    (s : Bridge) : Raised Bool × Bridge × List Event :=
  Typed.stringCommand EngineCall.disconnect_from_device device_id env s

/-- The function `Java_com_nearclip_ffi_NearClipFFI_sendClipboardData(env, thiz, data)`,
with the type of each exception. -/
def Typed.NearClipFFI_sendClipboardData (data : JString) (env : Typed.CallEnv)
    (s : Bridge) : Raised Bool × Bridge × List Event :=
  Typed.stringCommand EngineCall.send_clipboard_data data env s

/-- What the engine and the host runtime do during one `getLocalDeviceInfo()`, with the
type of the exception the engine may raise. -/
structure Typed.InfoEnv where
  /-- How `g_nearclip_core->get_local_device_info()` ends. -/
  engine : Raised DeviceInfo
  /-- Whether `FindClass` finds `NearClipFFI$DeviceInfo`. -/
  findClass : Bool
  /-- What `GetMethodID` gives for the constructor. -/
  getMethodID : Option MethodID
  /-- Whether the `i`-th `NewStringUTF` of the call (from 0) gives a string. -/
  newStringUTF : Nat → Bool
  /-- Whether `NewObject` gives an object when class and constructor are there. -/
  newObject : Bool

/-- The function `Java_com_nearclip_ffi_NearClipFFI_getLocalDeviceInfo(env, thiz)`, with
the type of the exception `get_local_device_info()` may raise; when it returns a
descriptor, the rest of the `try` block, which makes JNI calls only, runs as in
`NearClip.NearClipFFI_getLocalDeviceInfo`. -/
def Typed.NearClipFFI_getLocalDeviceInfo (env : Typed.InfoEnv) (s : Bridge) :
    Raised (Option JDeviceInfo) × Bridge × List Event :=
  match s.g_nearclip_core with
  | none => (Raised.ret none, s, [])
  | some core =>
    match env.engine with
    | Raised.throws e =>
      (Thrown.caught none e, s, [Event.engine core.id EngineCall.get_local_device_info])
    | Raised.ret info =>
      let r := NearClip.NearClipFFI_getLocalDeviceInfo
        { engine := Outcome.ret info, findClass := env.findClass,
          getMethodID := env.getMethodID, newStringUTF := env.newStringUTF,
          newObject := env.newObject } s
      (Raised.ret r.1, r.2.1, r.2.2)

/-! # Theorems -/

/-! ## Strings: what the engine receives -/

theorem mutf8Unit_ne_zero (c : Nat) : ∀ b ∈ mutf8Unit c, b ≠ 0 := by
  intro b hb
  unfold mutf8Unit at hb
  split_ifs at hb with h1 h2
  · simp at hb; omega
  · simp at hb; omega
  · simp at hb; omega

theorem mutf8_ne_zero (s : JString) : ∀ b ∈ mutf8 s, b ≠ 0 := by
  intro b hb
  simp only [mutf8, List.mem_flatMap] at hb
  obtain ⟨c, _, hc⟩ := hb
  exact mutf8Unit_ne_zero c b hc

theorem cstring_append_zero (l : List Nat) (h : ∀ b ∈ l, b ≠ 0) : cstring (l ++ [0]) = l := by
  induction l with
  | nil => simp [cstring]
  | cons a l ih =>
    have ha : a ≠ 0 := h a (List.mem_cons_self a l)
    have hl : ∀ b ∈ l, b ≠ 0 := fun b hb => h b (List.mem_cons_of_mem a hb)
    have ih2 := ih hl
    have hne : (a != 0) = true := by simp [ha]
    simp only [cstring] at ih2 ⊢
    rw [List.cons_append, List.takeWhile_cons, if_pos hne, ih2]

theorem cstring_GetStringUTFChars (s : JString) : cstring (GetStringUTFChars s) = mutf8 s :=
  cstring_append_zero (mutf8 s) (mutf8_ne_zero s)

theorem mutf8_ascii (s : JString) (h : ∀ c ∈ s, 1 ≤ c ∧ c ≤ 0x7F) : mutf8 s = s := by
  induction s with
  | nil => rfl
  | cons a l ih =>
    have ha := h a (List.mem_cons_self a l)
    have hl : ∀ c ∈ l, 1 ≤ c ∧ c ≤ 0x7F := fun c hc => h c (List.mem_cons_of_mem a hc)
    have ih2 := ih hl
    simp only [mutf8] at ih2 ⊢
    simp [List.flatMap_cons, mutf8Unit, ha, ih2]

theorem mutf8Unit_append_inj (a b : Nat) (x y : List Nat) (ha : a < 65536) (hb : b < 65536)
    (h : mutf8Unit a ++ x = mutf8Unit b ++ y) : a = b ∧ x = y := by
  unfold mutf8Unit at h
  have e1 : 1 ≤ a ∧ a ≤ 0x7F ∨ ¬ (1 ≤ a ∧ a ≤ 0x7F) ∧ a ≤ 0x7FF ∨ 0x7FF < a := by omega
  have e2 : 1 ≤ b ∧ b ≤ 0x7F ∨ ¬ (1 ≤ b ∧ b ≤ 0x7F) ∧ b ≤ 0x7FF ∨ 0x7FF < b := by omega
  rcases e1 with h1 | ⟨h1, h1b⟩ | h1 <;> rcases e2 with h2 | ⟨h2, h2b⟩ | h2
  · rw [if_pos h1, if_pos h2] at h
    simp only [List.cons_append, List.nil_append, List.cons.injEq] at h
    exact h
  · rw [if_pos h1, if_neg h2, if_pos h2b] at h
    simp only [List.cons_append, List.nil_append, List.cons.injEq] at h
    exfalso; omega
  · rw [if_pos h1, if_neg (by omega), if_neg (by omega)] at h
    simp only [List.cons_append, List.nil_append, List.cons.injEq] at h
    exfalso; omega
  · rw [if_neg h1, if_pos h1b, if_pos h2] at h
    simp only [List.cons_append, List.nil_append, List.cons.injEq] at h
    exfalso; omega
  · rw [if_neg h1, if_pos h1b, if_neg h2, if_pos h2b] at h
    simp only [List.cons_append, List.nil_append, List.cons.injEq] at h
    exact ⟨by omega, h.2.2⟩
  · rw [if_neg h1, if_pos h1b, if_neg (by omega), if_neg (by omega)] at h
    simp only [List.cons_append, List.nil_append, List.cons.injEq] at h
    exfalso; omega
  · rw [if_neg (by omega), if_neg (by omega), if_pos h2] at h
    simp only [List.cons_append, List.nil_append, List.cons.injEq] at h
    exfalso; omega
  · rw [if_neg (by omega), if_neg (by omega), if_neg h2, if_pos h2b] at h
    simp only [List.cons_append, List.nil_append, List.cons.injEq] at h
    exfalso; omega
  · rw [if_neg (by omega), if_neg (by omega), if_neg (by omega), if_neg (by omega)] at h
    simp only [List.cons_append, List.nil_append, List.cons.injEq] at h
    exact ⟨by omega, h.2.2.2⟩

/-- Two host strings of UTF-16 code units with the same modified UTF-8 form are the
same string. -/
theorem mutf8_injective (s t : JString) (hs : ∀ c ∈ s, c < 65536) (ht : ∀ c ∈ t, c < 65536)
    (h : mutf8 s = mutf8 t) : s = t := by
  induction s generalizing t with
  | nil =>
    cases t with
    | nil => rfl
    | cons b t =>
      exfalso
      have hb : mutf8Unit b ≠ [] := by
        unfold mutf8Unit
        split_ifs <;> simp
      simp only [mutf8, List.flatMap_nil, List.flatMap_cons] at h
      exact hb (List.append_eq_nil.mp h.symm).1
  | cons a s ih =>
    cases t with
    | nil =>
      exfalso
      have ha : mutf8Unit a ≠ [] := by
        unfold mutf8Unit
        split_ifs <;> simp
      simp only [mutf8, List.flatMap_nil, List.flatMap_cons] at h
      exact ha (List.append_eq_nil.mp h).1
    | cons b t =>
      simp only [mutf8, List.flatMap_cons] at h
      have key := mutf8Unit_append_inj a b _ _ (hs a (List.mem_cons_self a s))
        (ht b (List.mem_cons_self b t)) h
      have hst : s = t := ih t (fun c hc => hs c (List.mem_cons_of_mem a hc))
        (fun c hc => ht c (List.mem_cons_of_mem b hc)) key.2
      rw [key.1, hst]

theorem mutf8Decode_one (b0 : Nat) (x : List Nat) (h : 1 ≤ b0 ∧ b0 ≤ 0x7F) :
    mutf8Decode (b0 :: x) = (mutf8Decode x).map (fun t => b0 :: t) := by
  rw [mutf8Decode.eq_def]
  simp only [if_pos h]

theorem mutf8Decode_two (b0 b1 : Nat) (x : List Nat) (hn : ¬ (1 ≤ b0 ∧ b0 ≤ 0x7F))
    (h : 0xC0 ≤ b0 ∧ b0 ≤ 0xDF ∧ isCont b1 ∧ (unit2 b0 b1 = 0 ∨ 0x80 ≤ unit2 b0 b1)) :
    mutf8Decode (b0 :: b1 :: x) = (mutf8Decode x).map (fun t => unit2 b0 b1 :: t) := by
  rw [mutf8Decode.eq_def]
  simp only [if_neg hn, if_pos h]

theorem mutf8Decode_three (b0 b1 b2 : Nat) (x : List Nat) (hn : ¬ (1 ≤ b0 ∧ b0 ≤ 0x7F))
    (hn2 : ¬ (0xC0 ≤ b0 ∧ b0 ≤ 0xDF ∧ isCont b1 ∧ (unit2 b0 b1 = 0 ∨ 0x80 ≤ unit2 b0 b1)))
    (h : 0xE0 ≤ b0 ∧ b0 ≤ 0xEF ∧ isCont b1 ∧ isCont b2 ∧ 0x800 ≤ unit3 b0 b1 b2) :
    mutf8Decode (b0 :: b1 :: b2 :: x)
      = (mutf8Decode x).map (fun t => unit3 b0 b1 b2 :: t) := by
  rw [mutf8Decode.eq_def]
  simp only [if_neg hn, if_neg hn2, if_pos h]

/-- Decoding undoes the encoding of one UTF-16 code unit. -/
theorem mutf8Decode_unit (c : Nat) (x : List Nat) (hc : c < 65536) :
    mutf8Decode (mutf8Unit c ++ x) = (mutf8Decode x).map (fun t => c :: t) := by
  unfold mutf8Unit
  have e1 : 1 ≤ c ∧ c ≤ 0x7F ∨ ¬ (1 ≤ c ∧ c ≤ 0x7F) ∧ c ≤ 0x7FF ∨ 0x7FF < c := by omega
  rcases e1 with h1 | ⟨h1, h1b⟩ | h1
  · rw [if_pos h1]
    exact mutf8Decode_one c x h1
  · rw [if_neg h1, if_pos h1b]
    have hu : unit2 (0xC0 + c / 64) (0x80 + c % 64) = c := by unfold unit2; omega
    have key := mutf8Decode_two (0xC0 + c / 64) (0x80 + c % 64) x (by omega)
      (by rw [hu]; unfold isCont; omega)
    rw [hu] at key
    exact key
  · rw [if_neg (by omega), if_neg (by omega)]
    have hu : unit3 (0xE0 + c / 4096 % 16) (0x80 + c / 64 % 64) (0x80 + c % 64) = c := by
      unfold unit3; omega
    have key := mutf8Decode_three (0xE0 + c / 4096 % 16) (0x80 + c / 64 % 64) (0x80 + c % 64) x
      (by omega) (by omega) (by rw [hu]; unfold isCont; omega)
    rw [hu] at key
    exact key

/-- Decoding the modified UTF-8 form of a host string gives the string back. -/
theorem mutf8Decode_mutf8 (t : JString) (h : ∀ c ∈ t, c < 65536) :
    mutf8Decode (mutf8 t) = some t := by
  induction t with
  | nil => rfl
  | cons a l ih =>
    have ih2 := ih (fun c hc => h c (List.mem_cons_of_mem a hc))
    simp only [mutf8, List.flatMap_cons] at ih2 ⊢
    rw [mutf8Decode_unit a _ (h a (List.mem_cons_self a l)), ih2]
    rfl

theorem mutf8_cons (c : Nat) (t : JString) : mutf8 (c :: t) = mutf8Unit c ++ mutf8 t := by
  simp only [mutf8, List.flatMap_cons]

theorem mutf8Decode_sound_aux : ∀ (n : Nat) (b : List Nat) (t : JString), b.length ≤ n →
    mutf8Decode b = some t → mutf8 t = b ∧ ∀ c ∈ t, c < 65536 := by
  intro n
  induction n with
  | zero =>
    intro b t hl h
    have hb : b = [] := List.length_eq_zero.mp (Nat.le_zero.mp hl)
    subst hb
    rw [mutf8Decode.eq_def] at h
    simp only [Option.some.injEq] at h
    subst h
    exact ⟨rfl, by simp⟩
  | succ n ih =>
    intro b t hl h
    cases b with
    | nil =>
      rw [mutf8Decode.eq_def] at h
      simp only [Option.some.injEq] at h
      subst h
      exact ⟨rfl, by simp⟩
    | cons b0 rest =>
      by_cases h1 : 1 ≤ b0 ∧ b0 ≤ 0x7F
      · rw [mutf8Decode_one b0 rest h1] at h
        simp only [Option.map_eq_some'] at h
        obtain ⟨u, hu, rfl⟩ := h
        have hr := ih rest u (by simp only [List.length_cons] at hl; omega) hu
        refine ⟨?_, ?_⟩
        · rw [mutf8_cons, hr.1]
          simp [mutf8Unit, h1]
        · intro c hc
          rcases List.mem_cons.mp hc with rfl | hc
          · omega
          · exact hr.2 c hc
      · cases rest with
        | nil =>
          rw [mutf8Decode.eq_def] at h
          simp [h1] at h
        | cons b1 rest1 =>
          by_cases h2 : 0xC0 ≤ b0 ∧ b0 ≤ 0xDF ∧ isCont b1
              ∧ (unit2 b0 b1 = 0 ∨ 0x80 ≤ unit2 b0 b1)
          · rw [mutf8Decode_two b0 b1 rest1 h1 h2] at h
            simp only [Option.map_eq_some'] at h
            obtain ⟨u, hu, rfl⟩ := h
            have hr := ih rest1 u (by simp only [List.length_cons] at hl; omega) hu
            have hb : mutf8Unit (unit2 b0 b1) = [b0, b1] := by
              unfold isCont at h2
              unfold mutf8Unit
              unfold unit2 at h2 ⊢
              rw [if_neg (by omega), if_pos (by omega)]
              simp only [List.cons.injEq, and_true]
              omega
            refine ⟨?_, ?_⟩
            · rw [mutf8_cons, hr.1, hb]
              rfl
            · intro c hc
              rcases List.mem_cons.mp hc with hcu | hc
              · rw [hcu]
                unfold isCont at h2
                unfold unit2
                omega
              · exact hr.2 c hc
          · cases rest1 with
            | nil =>
              rw [mutf8Decode.eq_def] at h
              simp [h1, h2] at h
            | cons b2 rest2 =>
              by_cases h3 : 0xE0 ≤ b0 ∧ b0 ≤ 0xEF ∧ isCont b1 ∧ isCont b2
                  ∧ 0x800 ≤ unit3 b0 b1 b2
              · rw [mutf8Decode_three b0 b1 b2 rest2 h1 h2 h3] at h
                simp only [Option.map_eq_some'] at h
                obtain ⟨u, hu, rfl⟩ := h
                have hr := ih rest2 u (by simp only [List.length_cons] at hl; omega) hu
                have hb : mutf8Unit (unit3 b0 b1 b2) = [b0, b1, b2] := by
                  unfold isCont at h3
                  unfold mutf8Unit
                  unfold unit3 at h3 ⊢
                  rw [if_neg (by omega), if_neg (by omega)]
                  simp only [List.cons.injEq, and_true]
                  omega
                refine ⟨?_, ?_⟩
                · rw [mutf8_cons, hr.1, hb]
                  rfl
                · intro c hc
                  rcases List.mem_cons.mp hc with hcu | hc
                  · rw [hcu]
                    unfold isCont at h3
                    unfold unit3
                    omega
                  · exact hr.2 c hc
              · rw [mutf8Decode.eq_def] at h
                simp [h1, h2, h3] at h

/-- A byte string has a decoding only when it is the modified UTF-8 form of it. -/
theorem mutf8Decode_sound (b : List Nat) (t : JString) (h : mutf8Decode b = some t) :
    mutf8 t = b ∧ ∀ c ∈ t, c < 65536 :=
  mutf8Decode_sound_aux b.length b t (le_refl _) h

/-! ## Commands before `initialize` or after `cleanup` -/

/-- C1: in a state where `g_nearclip_core` is empty, the five boolean commands return
`false` and `getLocalDeviceInfo` returns null, whatever the argument string and
whatever the collaborators would have done; no operation of the call constructs,
destroys or calls an engine, and the state (so the empty engine slot) is unchanged. -/
theorem commands_without_engine (s : Bridge) (h : s.g_nearclip_core = none)
    (o : Outcome Bool) (arg : JString) (env : CallEnv) (ienv : InfoEnv) :
    ((NearClip.NearClipFFI_startDeviceDiscovery o s).1 = false
      ∧ (NearClip.NearClipFFI_startDeviceDiscovery o s).2.1 = s
      ∧ ∀ ev ∈ (NearClip.NearClipFFI_startDeviceDiscovery o s).2.2, ev.touchesEngine = false)
    ∧ ((NearClip.NearClipFFI_stopDeviceDiscovery o s).1 = false
      ∧ (NearClip.NearClipFFI_stopDeviceDiscovery o s).2.1 = s
      ∧ ∀ ev ∈ (NearClip.NearClipFFI_stopDeviceDiscovery o s).2.2, ev.touchesEngine = false)
    ∧ ((NearClip.NearClipFFI_connectToDevice arg env s).1 = false
      ∧ (NearClip.NearClipFFI_connectToDevice arg env s).2.1 = s
      ∧ ∀ ev ∈ (NearClip.NearClipFFI_connectToDevice arg env s).2.2, ev.touchesEngine = false)
    ∧ ((NearClip.NearClipFFI_disconnectFromDevice arg env s).1 = false
      ∧ (NearClip.NearClipFFI_disconnectFromDevice arg env s).2.1 = s
      ∧ ∀ ev ∈ (NearClip.NearClipFFI_disconnectFromDevice arg env s).2.2,
          ev.touchesEngine = false)
    ∧ ((NearClip.NearClipFFI_sendClipboardData arg env s).1 = false
      ∧ (NearClip.NearClipFFI_sendClipboardData arg env s).2.1 = s
      ∧ ∀ ev ∈ (NearClip.NearClipFFI_sendClipboardData arg env s).2.2, ev.touchesEngine = false)
    ∧ ((NearClip.NearClipFFI_getLocalDeviceInfo ienv s).1 = none
      ∧ (NearClip.NearClipFFI_getLocalDeviceInfo ienv s).2.1 = s
      ∧ ∀ ev ∈ (NearClip.NearClipFFI_getLocalDeviceInfo ienv s).2.2, ev.touchesEngine = false)
    ∧ (NearClip.NearClipFFI_startDeviceDiscovery o s).2.1.g_nearclip_core = none := by
  simp [NearClipFFI_startDeviceDiscovery, NearClipFFI_stopDeviceDiscovery,
    NearClipFFI_connectToDevice, NearClipFFI_disconnectFromDevice,
    NearClipFFI_sendClipboardData, NearClipFFI_getLocalDeviceInfo, stringCommand, h,
    Event.touchesEngine]

/-- C1 at the initial state, with the argument string "dev" and an engine that would
have answered `true`. -/
theorem commands_without_engine_witness :
    Bridge.init.g_nearclip_core = none
    ∧ (NearClip.NearClipFFI_startDeviceDiscovery (Outcome.ret true) Bridge.init).1 = false
    ∧ (NearClip.NearClipFFI_connectToDevice [100, 101, 118]
        { string_ctor := Outcome.ret (), engine := Outcome.ret true } Bridge.init).1 = false :=
  have w := commands_without_engine Bridge.init rfl (Outcome.ret true) [100, 101, 118]
    { string_ctor := Outcome.ret (), engine := Outcome.ret true }
    { engine := Outcome.throws, findClass := true, getMethodID := some 1,
      newStringUTF := fun _ => true, newObject := true }
  ⟨rfl, w.1.1, w.2.2.1.1⟩

/-! ## `initialize` when the engine fails -/

theorem initialize_trace_ready :
    (NearClip.NearClipFFI_initialize (some 8) InitEnv.success Bridge.ready).2.2
      = [Event.DeleteGlobalRef 0, Event.NewGlobalRef (some 8) (some 1),
         Event.construct 1, Event.destroy 0,
         Event.engine 1 EngineCall.core_initialize,
         Event.engine 1 EngineCall.set_device_discovered_callback,
         Event.engine 1 EngineCall.set_discovery_state_callback,
         Event.engine 1 EngineCall.set_connection_callback,
         Event.engine 1 EngineCall.set_clipboard_callback,
         Event.engine 1 EngineCall.set_error_callback] := rfl

/-- C3 as stated fails: in the state that holds engine 0, a successful `initialize`
constructs engine 1 before it destroys engine 0, so the old instance is not destroyed
before the construction and two instances are alive in between. -/
theorem initialize_not_destroyed_before_constructed :
    ¬ DestroyedBeforeConstructed 0
        (NearClip.NearClipFFI_initialize (some 8) InitEnv.success Bridge.ready).2.2 := by
  rw [initialize_trace_ready]
  intro h
  have h2 := h.2.1 1 (by decide)
  revert h2
  decide

/-- C3 as the code has it: when an engine `old` is held and the construction of the new
engine succeeds, the operations of `initialize` contain exactly one destruction of
`old`; it directly follows the completed construction of the new instance, nothing
before the two touches an engine and everything after them is a member call on the new
instance; at most two instances are alive after any initial part of the call, and at
its end exactly the new one is. -/
theorem initialize_destroys_after_construct (context : Option JObject) (env : InitEnv)
    (s : Bridge) (old : NearClipCore) (hheld : s.g_nearclip_core = some old)
    (hc : env.construct = Outcome.ret ()) :
    (NearClip.NearClipFFI_initialize context env s).2.2.count (Event.destroy old.id) = 1
    ∧ (∃ pre post, (NearClip.NearClipFFI_initialize context env s).2.2
          = pre ++ [Event.construct s.nextEngine, Event.destroy old.id] ++ post
        ∧ (∀ ev ∈ pre, ev.touchesEngine = false)
        ∧ (∀ ev ∈ post, ∃ c, ev = Event.engine s.nextEngine c))
    ∧ (∀ p, p <+: (NearClip.NearClipFFI_initialize context env s).2.2 →
        (aliveEngines [old.id] p).length ≤ 2)
    ∧ aliveEngines [old.id] (NearClip.NearClipFFI_initialize context env s).2.2
        = [s.nextEngine] := by
  obtain ⟨oom, construct, ini⟩ := env
  simp only at hc
  subst hc
  refine ⟨?_, ?_, ?_, ?_⟩
  · cases hctx : s.g_context <;> rcases ini with ⟨_ | _⟩ | _ <;>
      simp [NearClip.NearClipFFI_initialize, setup_callbacks, deleteContext, destroyHeld,
        hheld, hctx, NearClipCore.fresh]
  · refine ⟨deleteContext s ++ [Event.NewGlobalRef context (newGlobalRef context oom s)], ?_⟩
    rcases ini with ⟨_ | _⟩ | _
    · refine ⟨[Event.engine s.nextEngine EngineCall.core_initialize], ?_, ?_, ?_⟩
      · simp [NearClip.NearClipFFI_initialize, destroyHeld, hheld, NearClipCore.fresh]
      · cases hctx : s.g_context <;> simp [deleteContext, hctx, Event.touchesEngine]
      · simp
    · refine ⟨[Event.engine s.nextEngine EngineCall.core_initialize,
        Event.engine s.nextEngine EngineCall.set_device_discovered_callback,
        Event.engine s.nextEngine EngineCall.set_discovery_state_callback,
        Event.engine s.nextEngine EngineCall.set_connection_callback,
        Event.engine s.nextEngine EngineCall.set_clipboard_callback,
        Event.engine s.nextEngine EngineCall.set_error_callback], ?_, ?_, ?_⟩
      · simp [NearClip.NearClipFFI_initialize, setup_callbacks, destroyHeld, hheld,
          NearClipCore.fresh]
      · cases hctx : s.g_context <;> simp [deleteContext, hctx, Event.touchesEngine]
      · simp
    · refine ⟨[Event.engine s.nextEngine EngineCall.core_initialize], ?_, ?_, ?_⟩
      · simp [NearClip.NearClipFFI_initialize, destroyHeld, hheld, NearClipCore.fresh]
      · cases hctx : s.g_context <;> simp [deleteContext, hctx, Event.touchesEngine]
      · simp
  · intro p hp
    rw [← List.mem_inits] at hp
    cases hctx : s.g_context <;> rcases ini with ⟨_ | _⟩ | _ <;>
      simp [NearClip.NearClipFFI_initialize, setup_callbacks, deleteContext, destroyHeld,
        hheld, hctx, NearClipCore.fresh, List.inits] at hp <;>
      rcases hp with rfl | rfl | rfl | rfl | rfl | rfl | rfl | rfl | rfl | rfl | rfl <;>
      simp [aliveEngines]
  · cases hctx : s.g_context <;> rcases ini with ⟨_ | _⟩ | _ <;>
      simp [NearClip.NearClipFFI_initialize, setup_callbacks, deleteContext, destroyHeld,
        hheld, hctx, NearClipCore.fresh, aliveEngines]

/-- C3 (as the code has it) at the state `Bridge.unwired`, which holds engine 0: a
successful `initialize` destroys engine 0 once and ends with engine 1 alone alive. -/
theorem initialize_destroys_after_construct_witness :
    Bridge.unwired.g_nearclip_core = some (NearClipCore.fresh 0)
    ∧ InitEnv.success.construct = Outcome.ret ()
    ∧ (NearClip.NearClipFFI_initialize (some 8) InitEnv.success Bridge.unwired).2.2.count
        (Event.destroy 0) = 1
    ∧ aliveEngines [0]
        (NearClip.NearClipFFI_initialize (some 8) InitEnv.success Bridge.unwired).2.2 = [1] :=
  have w := initialize_destroys_after_construct (some 8) InitEnv.success Bridge.unwired
    (NearClipCore.fresh 0) rfl rfl
  ⟨rfl, rfl, w.1, w.2.2.2⟩

/-! ## Context pin and engine slot -/

/-- C4 as stated fails: after `initialize(nullptr)` with a succeeding engine, engine 0
is held and no context is pinned; after an `initialize` whose engine construction
throws, global reference 0 is pinned and no engine is held; and after a successful
`initialize` followed by `JNI_OnUnload`, the engine slot is empty while `g_context`
still holds global reference 0, which `JNI_OnUnload` has deleted. -/
theorem context_pinned_iff_engine_held_fails :
    ((run [Call.NearClipFFI_initialize none InitEnv.success] Bridge.init).2.1.g_context = none
      ∧ (run [Call.NearClipFFI_initialize none InitEnv.success] Bridge.init).2.1.held = some 0)
    ∧ ((run [Call.NearClipFFI_initialize (some 7)
              { globalRefOom := false, construct := Outcome.throws,
                core_initialize := Outcome.ret true }] Bridge.init).2.1.g_context = some 0
      ∧ (run [Call.NearClipFFI_initialize (some 7)
              { globalRefOom := false, construct := Outcome.throws,
                core_initialize := Outcome.ret true }] Bridge.init).2.1.held = none)
    ∧ ((run [Call.NearClipFFI_initialize (some 7) InitEnv.success, Call.JNI_OnUnload true]
          Bridge.init).2.1.g_context = some 0
      ∧ (run [Call.NearClipFFI_initialize (some 7) InitEnv.success, Call.JNI_OnUnload true]
          Bridge.init).2.1.held = none
      ∧ Event.DeleteGlobalRef 0 ∈
          (run [Call.NearClipFFI_initialize (some 7) InitEnv.success, Call.JNI_OnUnload true]
            Bridge.init).2.2) := by
  refine ⟨⟨rfl, rfl⟩, ⟨rfl, rfl⟩, ⟨rfl, rfl, ?_⟩⟩
  decide

theorem step_keepsPairing (c : Call) (s : Bridge) (hc : c.keepsPairing)
    (h : s.g_context.isSome = s.g_nearclip_core.isSome) :
    (c.step s).2.1.g_context.isSome = (c.step s).2.1.g_nearclip_core.isSome := by
  cases c with
  | NearClipFFI_initialize context env =>
    obtain ⟨oom, construct, ini⟩ := env
    obtain ⟨h1, h2, h3⟩ := hc
    simp only at h2 h3
    subst h2 h3
    cases context with
    | none => simp at h1
    | some ctx =>
      rcases ini with ⟨_ | _⟩ | _ <;>
        simp [Call.step, NearClip.NearClipFFI_initialize, setup_callbacks, newGlobalRef]
  | NearClipFFI_cleanup => simp [Call.step, NearClipFFI_cleanup]
  | NearClipFFI_startDeviceDiscovery engine =>
    cases hcore : s.g_nearclip_core <;> rcases engine with _ | _ <;>
      simpa [Call.step, NearClipFFI_startDeviceDiscovery, hcore] using h
  | NearClipFFI_stopDeviceDiscovery engine =>
    cases hcore : s.g_nearclip_core <;> rcases engine with _ | _ <;>
      simpa [Call.step, NearClipFFI_stopDeviceDiscovery, hcore] using h
  | NearClipFFI_connectToDevice device_id env =>
    obtain ⟨ctor, engine⟩ := env
    cases hcore : s.g_nearclip_core <;> rcases ctor with _ | _ <;> rcases engine with _ | _ <;>
      simpa [Call.step, NearClipFFI_connectToDevice, stringCommand, hcore] using h
  | NearClipFFI_disconnectFromDevice device_id env =>
    obtain ⟨ctor, engine⟩ := env
    cases hcore : s.g_nearclip_core <;> rcases ctor with _ | _ <;> rcases engine with _ | _ <;>
      simpa [Call.step, NearClipFFI_disconnectFromDevice, stringCommand, hcore] using h
  | NearClipFFI_sendClipboardData data env =>
    obtain ⟨ctor, engine⟩ := env
    cases hcore : s.g_nearclip_core <;> rcases ctor with _ | _ <;> rcases engine with _ | _ <;>
      simpa [Call.step, NearClipFFI_sendClipboardData, stringCommand, hcore] using h
  | NearClipFFI_getLocalDeviceInfo env =>
    cases hcore : s.g_nearclip_core <;> rcases henv : env.engine with _ | _ <;>
      simpa [Call.step, NearClipFFI_getLocalDeviceInfo, hcore, henv] using h
  | JNI_OnUnload getEnvOk => exact absurd hc (by simp [Call.keepsPairing])

theorem run_keepsPairing (cs : List Call) (s : Bridge) (hcs : ∀ c ∈ cs, c.keepsPairing)
    (h : s.g_context.isSome = s.g_nearclip_core.isSome) :
    (run cs s).2.1.g_context.isSome = (run cs s).2.1.g_nearclip_core.isSome := by
  induction cs generalizing s with
  | nil => exact h
  | cons c cs ih =>
    exact ih (c.step s).2.1 (fun d hd => hcs d (List.mem_cons_of_mem c hd))
      (step_keepsPairing c s (hcs c (List.mem_cons_self c cs)) h)

/-- C4 as the code has it: in every state reached from the initial state by a finite
sequence of `cleanup`, the six commands and `initialize(context)` calls whose context is
not null, whose `NewGlobalRef` returns a reference and whose engine construction does
not throw (the engine's `initialize()` returning `true`, returning `false` or throwing),
a context reference is pinned exactly when an engine is held. -/
theorem context_pinned_iff_engine_held (cs : List Call) (hcs : ∀ c ∈ cs, c.keepsPairing) :
    ((run cs Bridge.init).2.1.g_context ≠ none
      ↔ (run cs Bridge.init).2.1.g_nearclip_core ≠ none) := by
  have h := run_keepsPairing cs Bridge.init hcs rfl
  cases hctx : (run cs Bridge.init).2.1.g_context <;>
    cases hcore : (run cs Bridge.init).2.1.g_nearclip_core <;>
    simp [hctx, hcore] at h ⊢

/-- C4 (as the code has it) on a sequence that initializes, runs a command, initializes
again with an engine whose `initialize()` throws, and asks for the device info: both a
context and an engine are held at the end. -/
theorem context_pinned_iff_engine_held_witness :
    ((run [Call.NearClipFFI_initialize (some 7) InitEnv.success,
            Call.NearClipFFI_startDeviceDiscovery (Outcome.ret true),
            Call.NearClipFFI_initialize (some 8)
              { globalRefOom := false, construct := Outcome.ret (),
                core_initialize := Outcome.throws },
            Call.NearClipFFI_getLocalDeviceInfo
              { engine := Outcome.throws, findClass := true, getMethodID := some 1,
                newStringUTF := fun _ => true, newObject := true }]
          Bridge.init).2.1.g_context ≠ none
      ↔ (run [Call.NearClipFFI_initialize (some 7) InitEnv.success,
            Call.NearClipFFI_startDeviceDiscovery (Outcome.ret true),
            Call.NearClipFFI_initialize (some 8)
              { globalRefOom := false, construct := Outcome.ret (),
                core_initialize := Outcome.throws },
            Call.NearClipFFI_getLocalDeviceInfo
              { engine := Outcome.throws, findClass := true, getMethodID := some 1,
                newStringUTF := fun _ => true, newObject := true }]
          Bridge.init).2.1.g_nearclip_core ≠ none)
    ∧ (run [Call.NearClipFFI_initialize (some 7) InitEnv.success,
            Call.NearClipFFI_startDeviceDiscovery (Outcome.ret true),
            Call.NearClipFFI_initialize (some 8)
              { globalRefOom := false, construct := Outcome.ret (),
                core_initialize := Outcome.throws },
            Call.NearClipFFI_getLocalDeviceInfo
              { engine := Outcome.throws, findClass := true, getMethodID := some 1,
                newStringUTF := fun _ => true, newObject := true }]
          Bridge.init).2.1.g_context = some 1 :=
  ⟨context_pinned_iff_engine_held _ (by
      intro c hc
      simp only [List.mem_cons, List.mem_singleton, List.not_mem_nil, or_false] at hc
      rcases hc with rfl | rfl | rfl | rfl <;> simp [Call.keepsPairing, InitEnv.success]),
    rfl⟩

/-- C5: for `initialize(a); cleanup(); initialize(b)` from the initial state, with
every engine construction and `initialize()` succeeding (and whether or not the host
runtime has memory for a global reference): the three calls return `true`, nothing,
`true`; at the end exactly one engine instance, the second one, is alive and held; after
every initial part of the operations performed at most one global reference is live;
and in any state with a pinned reference, `initialize` first deletes that reference and
only then calls `NewGlobalRef`. -/
theorem initialize_cleanup_initialize (a b : Option JObject) (oom1 oom2 : Bool) :
    (run [Call.NearClipFFI_initialize a
            { globalRefOom := oom1, construct := Outcome.ret (),
              core_initialize := Outcome.ret true },
          Call.NearClipFFI_cleanup,
          Call.NearClipFFI_initialize b
            { globalRefOom := oom2, construct := Outcome.ret (),
              core_initialize := Outcome.ret true }] Bridge.init).1
        = [Ret.jboolean true, Ret.void, Ret.jboolean true]
    ∧ aliveEngines []
        (run [Call.NearClipFFI_initialize a
            { globalRefOom := oom1, construct := Outcome.ret (),
              core_initialize := Outcome.ret true },
          Call.NearClipFFI_cleanup,
          Call.NearClipFFI_initialize b
            { globalRefOom := oom2, construct := Outcome.ret (),
              core_initialize := Outcome.ret true }] Bridge.init).2.2 = [1]
    ∧ (run [Call.NearClipFFI_initialize a
            { globalRefOom := oom1, construct := Outcome.ret (),
              core_initialize := Outcome.ret true },
          Call.NearClipFFI_cleanup,
          Call.NearClipFFI_initialize b
            { globalRefOom := oom2, construct := Outcome.ret (),
              core_initialize := Outcome.ret true }] Bridge.init).2.1.held = some 1
    ∧ (∀ p, p <+: (run [Call.NearClipFFI_initialize a
            { globalRefOom := oom1, construct := Outcome.ret (),
              core_initialize := Outcome.ret true },
          Call.NearClipFFI_cleanup,
          Call.NearClipFFI_initialize b
            { globalRefOom := oom2, construct := Outcome.ret (),
              core_initialize := Outcome.ret true }] Bridge.init).2.2 →
        (liveGlobalRefs [] p).length ≤ 1)
    ∧ (∀ (s : Bridge) (r : GlobalRef) (context : Option JObject) (env : InitEnv),
        s.g_context = some r →
        ∃ rest, (NearClip.NearClipFFI_initialize context env s).2.2
          = Event.DeleteGlobalRef r
            :: Event.NewGlobalRef context (newGlobalRef context env.globalRefOom s)
            :: rest) := by
  refine ⟨?_, ?_, ?_, ?_, ?_⟩
  · rfl
  · rcases a with _ | a <;> rcases b with _ | b <;> cases oom1 <;> cases oom2 <;> rfl
  · rcases a with _ | a <;> rcases b with _ | b <;> cases oom1 <;> cases oom2 <;> rfl
  · intro p hp
    rw [← List.mem_inits] at hp
    rcases a with _ | a <;> rcases b with _ | b <;> cases oom1 <;> cases oom2 <;>
      simp [run, Call.step, NearClip.NearClipFFI_initialize, NearClipFFI_cleanup,
        setup_callbacks, deleteContext, destroyHeld, newGlobalRef, NearClipCore.fresh,
        Bridge.init, List.inits] at hp <;>
      rcases hp with rfl | rfl | rfl | rfl | rfl | rfl | rfl | rfl | rfl | rfl | rfl | rfl |
        rfl | rfl | rfl | rfl | rfl | rfl | rfl | rfl | rfl | rfl | rfl <;>
      simp [liveGlobalRefs]
  · intro s r context env hr
    obtain ⟨oom, construct, ini⟩ := env
    rcases construct with _ | _
    · rcases ini with ⟨_ | _⟩ | _ <;>
        simp [NearClip.NearClipFFI_initialize, setup_callbacks, deleteContext, hr]
    · simp [NearClip.NearClipFFI_initialize, deleteContext, hr]

/-! ## `cleanup` -/

/-- C6: from every state, `cleanup` ends with the engine slot empty and no context
pinned; its operations are exactly the destruction of the held engine, when one is held,
followed by the `DeleteGlobalRef` of the pinned reference, when one is pinned (so each
happens once, and not at all when there is nothing to release); and a second `cleanup`
right after the first performs no operation and leaves the state as it is. -/
theorem cleanup_idempotent (s : Bridge) :
    (NearClipFFI_cleanup s).1.g_nearclip_core = none
    ∧ (NearClipFFI_cleanup s).1.g_context = none
    ∧ (NearClipFFI_cleanup s).2
        = (match s.g_nearclip_core with
            | some core => [Event.destroy core.id]
            | none => [])
          ++ (match s.g_context with
            | some r => [Event.DeleteGlobalRef r]
            | none => [])
    ∧ (NearClipFFI_cleanup s).2.countP Event.isDestroy
        = (if s.g_nearclip_core.isSome then 1 else 0)
    ∧ (NearClipFFI_cleanup s).2.countP Event.isDeleteGlobalRef
        = (if s.g_context.isSome then 1 else 0)
    ∧ NearClipFFI_cleanup (NearClipFFI_cleanup s).1 = ((NearClipFFI_cleanup s).1, []) := by
  refine ⟨rfl, rfl, ?_, ?_, ?_, rfl⟩
  · cases hcore : s.g_nearclip_core <;> cases hctx : s.g_context <;>
      simp [NearClipFFI_cleanup, destroyHeld, deleteContext, hcore, hctx]
  · cases hcore : s.g_nearclip_core <;> cases hctx : s.g_context <;>
      simp [NearClipFFI_cleanup, destroyHeld, deleteContext, hcore, hctx, Event.isDestroy]
  · cases hcore : s.g_nearclip_core <;> cases hctx : s.g_context <;>
      simp [NearClipFFI_cleanup, destroyHeld, deleteContext, hcore, hctx,
        Event.isDeleteGlobalRef, Event.isDestroy]

/-! ## `initialize`: replace semantics -/

/-- The numbering of a state reached by `initialize` stays ahead of what it holds. -/
theorem initialize_WF (context : Option JObject) (env : InitEnv) (s : Bridge) (h : s.WF) :
    (NearClip.NearClipFFI_initialize context env s).2.1.WF := by
  obtain ⟨oom, construct, ini⟩ := env
  obtain ⟨h1, h2⟩ := h
  have key : ∀ r, newGlobalRef context oom s = some r →
      r < (if (newGlobalRef context oom s).isSome then s.nextRef + 1 else s.nextRef) := by
    intro r hr
    rw [hr]
    cases context with
    | none => simp [newGlobalRef] at hr
    | some c =>
      cases oom <;> simp [newGlobalRef] at hr
      subst hr
      simp
  rcases construct with _ | _
  · rcases ini with ⟨_ | _⟩ | _ <;>
      refine ⟨?_, ?_⟩ <;>
      simp [NearClip.NearClipFFI_initialize, setup_callbacks, Bridge.held, NearClipCore.fresh]
        <;> exact key
  · refine ⟨?_, ?_⟩
    · intro e he
      have := h1 e (by simpa [NearClip.NearClipFFI_initialize, Bridge.held] using he)
      simpa [NearClip.NearClipFFI_initialize] using this
    · simpa [NearClip.NearClipFFI_initialize] using key

theorem step_WF (c : Call) (s : Bridge) (h : s.WF) : (c.step s).2.1.WF := by
  cases c with
  | NearClipFFI_initialize context env => exact initialize_WF context env s h
  | NearClipFFI_cleanup =>
    refine ⟨?_, ?_⟩ <;> simp [Call.step, NearClipFFI_cleanup, Bridge.held]
  | NearClipFFI_startDeviceDiscovery engine =>
    cases hcore : s.g_nearclip_core <;> rcases engine with _ | _ <;>
      simpa [Call.step, NearClipFFI_startDeviceDiscovery, hcore] using h
  | NearClipFFI_stopDeviceDiscovery engine =>
    cases hcore : s.g_nearclip_core <;> rcases engine with _ | _ <;>
      simpa [Call.step, NearClipFFI_stopDeviceDiscovery, hcore] using h
  | NearClipFFI_connectToDevice device_id env =>
    obtain ⟨ctor, engine⟩ := env
    cases hcore : s.g_nearclip_core <;> rcases ctor with _ | _ <;> rcases engine with _ | _ <;>
      simpa [Call.step, NearClipFFI_connectToDevice, stringCommand, hcore] using h
  | NearClipFFI_disconnectFromDevice device_id env =>
    obtain ⟨ctor, engine⟩ := env
    cases hcore : s.g_nearclip_core <;> rcases ctor with _ | _ <;> rcases engine with _ | _ <;>
      simpa [Call.step, NearClipFFI_disconnectFromDevice, stringCommand, hcore] using h
  | NearClipFFI_sendClipboardData data env =>
    obtain ⟨ctor, engine⟩ := env
    cases hcore : s.g_nearclip_core <;> rcases ctor with _ | _ <;> rcases engine with _ | _ <;>
      simpa [Call.step, NearClipFFI_sendClipboardData, stringCommand, hcore] using h
  | NearClipFFI_getLocalDeviceInfo env =>
    cases hcore : s.g_nearclip_core <;> rcases henv : env.engine with _ | _ <;>
      simpa [Call.step, NearClipFFI_getLocalDeviceInfo, hcore, henv] using h
  | JNI_OnUnload getEnvOk =>
    refine ⟨?_, ?_⟩
    · simp [Call.step, JNI_OnUnload, Bridge.held]
    · simpa [Call.step, JNI_OnUnload] using h.2

/-- Every state reached from the initial state by calls of the host is well numbered. -/
theorem run_WF (cs : List Call) (s : Bridge) (h : s.WF) : (run cs s).2.1.WF := by
  induction cs generalizing s with
  | nil => exact h
  | cons c cs ih => exact ih (c.step s).2.1 (step_WF c s h)

theorem init_WF : Bridge.init.WF := by
  refine ⟨?_, ?_⟩ <;> simp [Bridge.init, Bridge.held]

/-- C7: from every (well-numbered) state, whether or not an engine is held, when neither
the construction nor `initialize()` throws, `initialize(context)` performs exactly one
engine construction, that of a new instance; calls `initialize()` exactly once, on that
new instance; ends with the new instance in `g_nearclip_core`; and returns the boolean
`b` the new instance's `initialize()` returned.  An instance held before is not the one
held afterwards, is destroyed once, and receives no member call. -/
theorem initialize_replaces (context : Option JObject) (oom : Bool) (b : Bool) (s : Bridge)
    (h : s.WF) :
    (NearClip.NearClipFFI_initialize context
        { globalRefOom := oom, construct := Outcome.ret (),
          core_initialize := Outcome.ret b } s).1 = b
    ∧ (NearClip.NearClipFFI_initialize context
        { globalRefOom := oom, construct := Outcome.ret (),
          core_initialize := Outcome.ret b } s).2.1.held = some s.nextEngine
    ∧ (NearClip.NearClipFFI_initialize context
        { globalRefOom := oom, construct := Outcome.ret (),
          core_initialize := Outcome.ret b } s).2.2.filter Event.isConstruct
        = [Event.construct s.nextEngine]
    ∧ (NearClip.NearClipFFI_initialize context
        { globalRefOom := oom, construct := Outcome.ret (),
          core_initialize := Outcome.ret b } s).2.2.filter Event.isInitializeCall
        = [Event.engine s.nextEngine EngineCall.core_initialize]
    ∧ (∀ old, s.held = some old →
        old ≠ s.nextEngine
        ∧ (NearClip.NearClipFFI_initialize context
            { globalRefOom := oom, construct := Outcome.ret (),
              core_initialize := Outcome.ret b } s).2.1.held ≠ some old
        ∧ (NearClip.NearClipFFI_initialize context
            { globalRefOom := oom, construct := Outcome.ret (),
              core_initialize := Outcome.ret b } s).2.2.count (Event.destroy old) = 1
        ∧ ∀ c, Event.engine old c ∉
            (NearClip.NearClipFFI_initialize context
              { globalRefOom := oom, construct := Outcome.ret (),
                core_initialize := Outcome.ret b } s).2.2) := by
  refine ⟨?_, ?_, ?_, ?_, ?_⟩
  · cases b <;> simp [NearClip.NearClipFFI_initialize, setup_callbacks]
  · cases b <;> simp [NearClip.NearClipFFI_initialize, setup_callbacks, Bridge.held,
      NearClipCore.fresh]
  · cases b <;> cases hcore : s.g_nearclip_core <;> cases hctx : s.g_context <;>
      simp [NearClip.NearClipFFI_initialize, setup_callbacks, deleteContext, destroyHeld,
        hcore, hctx, NearClipCore.fresh, Event.isConstruct, List.filter]
  · cases b <;> cases hcore : s.g_nearclip_core <;> cases hctx : s.g_context <;>
      simp [NearClip.NearClipFFI_initialize, setup_callbacks, deleteContext, destroyHeld,
        hcore, hctx, NearClipCore.fresh, Event.isInitializeCall, List.filter]
  · intro old hold
    have hlt : old < s.nextEngine := h.1 old hold
    have hne : old ≠ s.nextEngine := Nat.ne_of_lt hlt
    have hne2 : s.nextEngine ≠ old := fun e => hne e.symm
    cases hcore : s.g_nearclip_core with
    | none => simp [Bridge.held, hcore] at hold
    | some core =>
      have hid : core.id = old := by simpa [Bridge.held, hcore] using hold
      subst hid
      refine ⟨hne, ?_, ?_, ?_⟩
      · cases b <;> simp [NearClip.NearClipFFI_initialize, setup_callbacks, Bridge.held,
          NearClipCore.fresh, hne2]
      · cases b <;> cases hctx : s.g_context <;>
          simp [NearClip.NearClipFFI_initialize, setup_callbacks, deleteContext, destroyHeld,
            hcore, hctx, NearClipCore.fresh]
      · intro c
        cases b <;> cases hctx : s.g_context <;>
          simp [NearClip.NearClipFFI_initialize, setup_callbacks, deleteContext, destroyHeld,
            hcore, hctx, NearClipCore.fresh, hne]

/-- C7 at the state `Bridge.ready`, which holds engine 0: an `initialize` whose new
engine answers `false` returns `false` and ends holding the new engine 1. -/
theorem initialize_replaces_witness :
    Bridge.ready.WF
    ∧ (NearClip.NearClipFFI_initialize (some 8)
        { globalRefOom := false, construct := Outcome.ret (),
          core_initialize := Outcome.ret false } Bridge.ready).1 = false
    ∧ (NearClip.NearClipFFI_initialize (some 8)
        { globalRefOom := false, construct := Outcome.ret (),
          core_initialize := Outcome.ret false } Bridge.ready).2.1.held = some 1 :=
  have hwf : Bridge.ready.WF := initialize_WF (some 7) InitEnv.success Bridge.init init_WF
  have w := initialize_replaces (some 8) false false Bridge.ready hwf
  ⟨hwf, w.1, w.2.1⟩

/-! ## Exceptions by type: agreement with the handlers' own case -/

/-- With exceptions derived from `std::exception` only and setters that do not raise,
`initialize` by exception type is `NearClip.NearClipFFI_initialize`. -/
theorem typed_initialize_agrees (context : Option JObject) (env : InitEnv) (s : Bridge) :
    Typed.NearClipFFI_initialize context
        { globalRefOom := env.globalRefOom, construct := env.construct.raised,
          core_initialize := env.core_initialize.raised, setter := fun _ => Raised.ret () } s
      = (Raised.ret (NearClip.NearClipFFI_initialize context env s).1,
          (NearClip.NearClipFFI_initialize context env s).2.1,
          (NearClip.NearClipFFI_initialize context env s).2.2) := by
  obtain ⟨oom, construct, ini⟩ := env
  rcases construct with _ | _ <;> rcases ini with ⟨_ | _⟩ | _ <;>
    cases hcore : s.g_nearclip_core <;>
    simp [Typed.NearClipFFI_initialize, NearClip.NearClipFFI_initialize,
      Typed.setup_callbacks, setup_callbacks, Outcome.raised, Thrown.caught, hcore]

/-- With exceptions derived from `std::exception` only, the commands by exception type
are the commands of `nearclip_jni.cpp` as modelled without the type. -/
theorem typed_commands_agree (o : Outcome Bool) (arg : JString) (env : CallEnv)
    (ienv : InfoEnv) (s : Bridge) :
    Typed.NearClipFFI_startDeviceDiscovery o.raised s
      = (Raised.ret (NearClipFFI_startDeviceDiscovery o s).1,
          (NearClipFFI_startDeviceDiscovery o s).2.1,
          (NearClipFFI_startDeviceDiscovery o s).2.2)
    ∧ Typed.NearClipFFI_stopDeviceDiscovery o.raised s
      = (Raised.ret (NearClipFFI_stopDeviceDiscovery o s).1,
          (NearClipFFI_stopDeviceDiscovery o s).2.1,
          (NearClipFFI_stopDeviceDiscovery o s).2.2)
    ∧ (∀ op, Typed.stringCommand op arg
          { string_ctor := env.string_ctor.raised, engine := env.engine.raised } s
        = (Raised.ret (stringCommand op arg env s).1, (stringCommand op arg env s).2.1,
            (stringCommand op arg env s).2.2))
    ∧ Typed.NearClipFFI_getLocalDeviceInfo
        { engine := ienv.engine.raised, findClass := ienv.findClass,
          getMethodID := ienv.getMethodID, newStringUTF := ienv.newStringUTF,
          newObject := ienv.newObject } s
      = (Raised.ret (NearClipFFI_getLocalDeviceInfo ienv s).1,
          (NearClipFFI_getLocalDeviceInfo ienv s).2.1,
          (NearClipFFI_getLocalDeviceInfo ienv s).2.2) := by
  obtain ⟨ctor, engine⟩ := env
  obtain ⟨iengine, fc, gm, ns, no⟩ := ienv
  refine ⟨?_, ?_, ?_, ?_⟩
  · cases hcore : s.g_nearclip_core <;> rcases o with _ | _ <;>
      simp [Typed.NearClipFFI_startDeviceDiscovery, NearClipFFI_startDeviceDiscovery,
        Outcome.raised, Thrown.caught, hcore]
  · cases hcore : s.g_nearclip_core <;> rcases o with _ | _ <;>
      simp [Typed.NearClipFFI_stopDeviceDiscovery, NearClipFFI_stopDeviceDiscovery,
        Outcome.raised, Thrown.caught, hcore]
  · intro op
    cases hcore : s.g_nearclip_core <;> rcases ctor with _ | _ <;> rcases engine with _ | _ <;>
      simp [Typed.stringCommand, stringCommand, Outcome.raised, Thrown.caught,
        Thrown.release, hcore]
  · cases hcore : s.g_nearclip_core <;> rcases iengine with _ | _ <;>
      simp [Typed.NearClipFFI_getLocalDeviceInfo, NearClipFFI_getLocalDeviceInfo,
        Outcome.raised, Thrown.caught, hcore]

/-! ## Callback wiring -/

/-- C8 as stated fails: from the initial state, with an engine whose `initialize()`
returns `true` and whose third setter, `set_connection_callback`, raises an exception
derived from `std::exception`, `initialize` has invoked three setters on engine 0, the
instance it constructed, returns `false`, and keeps that instance in the slot with two
callbacks registered. -/
theorem initialize_wires_two_of_five :
    (Typed.NearClipFFI_initialize (some 7)
        { globalRefOom := false, construct := Raised.ret (),
          core_initialize := Raised.ret true,
          setter := fun i =>
            if i = 2 then Raised.throws Thrown.std_exception else Raised.ret () }
        Bridge.init).2.2.countP (Event.isSetterOn 0) = 3
    ∧ (Typed.NearClipFFI_initialize (some 7)
        { globalRefOom := false, construct := Raised.ret (),
          core_initialize := Raised.ret true,
          setter := fun i =>
            if i = 2 then Raised.throws Thrown.std_exception else Raised.ret () }
        Bridge.init).1 = Raised.ret false
    ∧ (Typed.NearClipFFI_initialize (some 7)
        { globalRefOom := false, construct := Raised.ret (),
          core_initialize := Raised.ret true,
          setter := fun i =>
            if i = 2 then Raised.throws Thrown.std_exception else Raised.ret () }
        Bridge.init).2.1.g_nearclip_core.map (fun core => (core.id, core.wired))
      = some (0, 2) := by
  refine ⟨by decide, by decide, by decide⟩

/-- C8 as the code has it: for every context, every state and every behaviour of the
engine, all setter calls one `initialize` makes are on the instance it constructs.
Their number is 0 unless the construction succeeded and the instance's `initialize()`
returned `true`.  When no setter raises an exception, the number is 0 or 5, it is 5
exactly when the construction succeeded and `initialize()` returned `true`, and 0 when
`initialize()` returned `false`.  When the construction succeeded, `initialize()`
returned `true` and setter number `k` (from 0) is the first to raise an exception, the
number is `k + 1`, the call returns `false` for an exception derived from
`std::exception` and lets any other exception through, and the instance stays in the
slot with `k` callbacks registered. -/
theorem initialize_setters_until_raise (context : Option JObject) (env : Typed.InitEnv)
    (s : Bridge) :
    (Typed.NearClipFFI_initialize context env s).2.2.countP Event.isSetter
        = (Typed.NearClipFFI_initialize context env s).2.2.countP
            (Event.isSetterOn s.nextEngine)
    ∧ (¬ (env.construct = Raised.ret () ∧ env.core_initialize = Raised.ret true) →
        (Typed.NearClipFFI_initialize context env s).2.2.countP
          (Event.isSetterOn s.nextEngine) = 0)
    ∧ ((∀ i, i < 5 → env.setter i = Raised.ret ()) →
        ((Typed.NearClipFFI_initialize context env s).2.2.countP
              (Event.isSetterOn s.nextEngine) = 0
          ∨ (Typed.NearClipFFI_initialize context env s).2.2.countP
              (Event.isSetterOn s.nextEngine) = 5)
        ∧ ((Typed.NearClipFFI_initialize context env s).2.2.countP
              (Event.isSetterOn s.nextEngine) = 5
            ↔ env.construct = Raised.ret () ∧ env.core_initialize = Raised.ret true)
        ∧ (env.core_initialize = Raised.ret false →
            (Typed.NearClipFFI_initialize context env s).2.2.countP
              (Event.isSetterOn s.nextEngine) = 0))
    ∧ (∀ k e, k < 5 → env.construct = Raised.ret () →
        env.core_initialize = Raised.ret true →
        (∀ i, i < k → env.setter i = Raised.ret ()) → env.setter k = Raised.throws e →
        (Typed.NearClipFFI_initialize context env s).2.2.countP
            (Event.isSetterOn s.nextEngine) = k + 1
        ∧ (e = Thrown.std_exception →
            (Typed.NearClipFFI_initialize context env s).1 = Raised.ret false)
        ∧ (e = Thrown.other →
            (Typed.NearClipFFI_initialize context env s).1 = Raised.throws Thrown.other)
        ∧ ∃ core, (Typed.NearClipFFI_initialize context env s).2.1.g_nearclip_core
              = some core
            ∧ core.id = s.nextEngine ∧ core.wired = k) := by
  obtain ⟨oom, construct, ini, setter⟩ := env
  refine ⟨?_, ?_, ?_, ?_⟩
  · rcases construct with _ | _
    · rcases ini with ⟨_ | _⟩ | _
      · cases hcore : s.g_nearclip_core <;> cases hctx : s.g_context <;>
          simp [Typed.NearClipFFI_initialize, deleteContext, destroyHeld,
            hcore, hctx, NearClipCore.fresh, Event.isSetterOn,
            Event.isSetter, EngineCall.isSetter, List.countP_cons]
      · rcases h0 : setter 0 with _ | _
        · rcases h1 : setter 1 with _ | _
          · rcases h2 : setter 2 with _ | _
            · rcases h3 : setter 3 with _ | _
              · rcases h4 : setter 4 with _ | _ <;>
                  cases hcore : s.g_nearclip_core <;> cases hctx : s.g_context <;>
                  simp [Typed.NearClipFFI_initialize, Typed.setup_callbacks, deleteContext,
                    destroyHeld, hcore, hctx, h0, h1, h2, h3, h4, NearClipCore.fresh,
                    Event.isSetterOn, Event.isSetter, EngineCall.isSetter,
                    List.countP_cons]
              · cases hcore : s.g_nearclip_core <;> cases hctx : s.g_context <;>
                  simp [Typed.NearClipFFI_initialize, Typed.setup_callbacks, deleteContext,
                    destroyHeld, hcore, hctx, h0, h1, h2, h3, NearClipCore.fresh,
                    Event.isSetterOn, Event.isSetter, EngineCall.isSetter,
                    List.countP_cons]
            · cases hcore : s.g_nearclip_core <;> cases hctx : s.g_context <;>
                simp [Typed.NearClipFFI_initialize, Typed.setup_callbacks, deleteContext,
                  destroyHeld, hcore, hctx, h0, h1, h2, NearClipCore.fresh,
                  Event.isSetterOn, Event.isSetter, EngineCall.isSetter, List.countP_cons]
          · cases hcore : s.g_nearclip_core <;> cases hctx : s.g_context <;>
              simp [Typed.NearClipFFI_initialize, Typed.setup_callbacks, deleteContext,
                destroyHeld, hcore, hctx, h0, h1, NearClipCore.fresh,
                Event.isSetterOn, Event.isSetter, EngineCall.isSetter, List.countP_cons]
        · cases hcore : s.g_nearclip_core <;> cases hctx : s.g_context <;>
            simp [Typed.NearClipFFI_initialize, Typed.setup_callbacks, deleteContext,
              destroyHeld, hcore, hctx, h0, NearClipCore.fresh,
              Event.isSetterOn, Event.isSetter, EngineCall.isSetter, List.countP_cons]
      · cases hcore : s.g_nearclip_core <;> cases hctx : s.g_context <;>
          simp [Typed.NearClipFFI_initialize, deleteContext, destroyHeld,
            hcore, hctx, NearClipCore.fresh, Event.isSetterOn,
            Event.isSetter, EngineCall.isSetter, List.countP_cons]
    · cases hcore : s.g_nearclip_core <;> cases hctx : s.g_context <;>
        simp [Typed.NearClipFFI_initialize, deleteContext, destroyHeld,
          hcore, hctx, NearClipCore.fresh, Event.isSetterOn,
          Event.isSetter, EngineCall.isSetter, List.countP_cons]
  · intro hn
    rcases construct with _ | _ <;> rcases ini with ⟨_ | _⟩ | _ <;>
      cases hcore : s.g_nearclip_core <;> cases hctx : s.g_context <;>
      simp [Typed.NearClipFFI_initialize, deleteContext, destroyHeld,
        hcore, hctx, NearClipCore.fresh, Event.isSetterOn,
        Event.isSetter, EngineCall.isSetter, List.countP_cons] at hn ⊢
  · intro hs
    have h0 := hs 0 (by decide)
    have h1 := hs 1 (by decide)
    have h2 := hs 2 (by decide)
    have h3 := hs 3 (by decide)
    have h4 := hs 4 (by decide)
    simp only at h0 h1 h2 h3 h4
    rcases construct with _ | _ <;> rcases ini with ⟨_ | _⟩ | _ <;>
      cases hcore : s.g_nearclip_core <;> cases hctx : s.g_context <;>
      simp [Typed.NearClipFFI_initialize, Typed.setup_callbacks, deleteContext, destroyHeld,
        hcore, hctx, h0, h1, h2, h3, h4, NearClipCore.fresh, Event.isSetterOn,
        Event.isSetter, EngineCall.isSetter, List.countP_cons]
  · intro k e hk hc hi hbefore hat
    simp only at hc hi hbefore hat
    subst hc
    subst hi
    interval_cases k
    · cases hcore : s.g_nearclip_core <;> cases hctx : s.g_context <;> cases e <;>
        simp [Typed.NearClipFFI_initialize, Typed.setup_callbacks, deleteContext,
          destroyHeld, hcore, hctx, hat, NearClipCore.fresh, Event.isSetterOn,
          Event.isSetter, EngineCall.isSetter, List.countP_cons, Thrown.caught,
          NearClipCore.wired]
    · have h0 := hbefore 0 (by decide)
      cases hcore : s.g_nearclip_core <;> cases hctx : s.g_context <;> cases e <;>
        simp [Typed.NearClipFFI_initialize, Typed.setup_callbacks, deleteContext,
          destroyHeld, hcore, hctx, hat, h0, NearClipCore.fresh, Event.isSetterOn,
          Event.isSetter, EngineCall.isSetter, List.countP_cons, Thrown.caught,
          NearClipCore.wired]
    · have h0 := hbefore 0 (by decide)
      have h1 := hbefore 1 (by decide)
      cases hcore : s.g_nearclip_core <;> cases hctx : s.g_context <;> cases e <;>
        simp [Typed.NearClipFFI_initialize, Typed.setup_callbacks, deleteContext,
          destroyHeld, hcore, hctx, hat, h0, h1, NearClipCore.fresh, Event.isSetterOn,
          Event.isSetter, EngineCall.isSetter, List.countP_cons, Thrown.caught,
          NearClipCore.wired]
    · have h0 := hbefore 0 (by decide)
      have h1 := hbefore 1 (by decide)
      have h2 := hbefore 2 (by decide)
      cases hcore : s.g_nearclip_core <;> cases hctx : s.g_context <;> cases e <;>
        simp [Typed.NearClipFFI_initialize, Typed.setup_callbacks, deleteContext,
          destroyHeld, hcore, hctx, hat, h0, h1, h2, NearClipCore.fresh, Event.isSetterOn,
          Event.isSetter, EngineCall.isSetter, List.countP_cons, Thrown.caught,
          NearClipCore.wired]
    · have h0 := hbefore 0 (by decide)
      have h1 := hbefore 1 (by decide)
      have h2 := hbefore 2 (by decide)
      have h3 := hbefore 3 (by decide)
      cases hcore : s.g_nearclip_core <;> cases hctx : s.g_context <;> cases e <;>
        simp [Typed.NearClipFFI_initialize, Typed.setup_callbacks, deleteContext,
          destroyHeld, hcore, hctx, hat, h0, h1, h2, h3, NearClipCore.fresh,
          Event.isSetterOn, Event.isSetter, EngineCall.isSetter, List.countP_cons,
          Thrown.caught, NearClipCore.wired]

/-- C9: when an engine is held, `setup_callbacks` keeps that instance in the slot,
calls each of its five setters once and nothing else, and registers callbacks such that
firing the device-discovered callback with `json` makes the single call
`call_java_method_onDeviceDiscovered(json)`, the discovery-state callback with `st` the
single call `call_java_method_onDiscoveryStateChanged(st)`, the connection callback
with `(id, c)` the single call `call_java_method_onConnectionChanged(id, c)`, the
clipboard callback with `d` the single call `call_java_method_onClipboardDataReceived(d)`
and the error callback with `m` the single call `call_java_method_onError(m)`.  When no
engine is held, `setup_callbacks` performs no operation and changes nothing. -/
theorem setup_callbacks_wiring (s : Bridge) :
    (∀ core, s.g_nearclip_core = some core →
      ∃ wired fd fs fc fb fe,
        (setup_callbacks s).1.g_nearclip_core = some wired
        ∧ wired.id = core.id
        ∧ wired.device_discovered_callback = some fd
        ∧ (∀ json, fd json = [RelayCall.call_java_method_onDeviceDiscovered json])
        ∧ wired.discovery_state_callback = some fs
        ∧ (∀ st, fs st = [RelayCall.call_java_method_onDiscoveryStateChanged st])
        ∧ wired.connection_callback = some fc
        ∧ (∀ id c, fc id c = [RelayCall.call_java_method_onConnectionChanged id c])
        ∧ wired.clipboard_callback = some fb
        ∧ (∀ d, fb d = [RelayCall.call_java_method_onClipboardDataReceived d])
        ∧ wired.error_callback = some fe
        ∧ (∀ m, fe m = [RelayCall.call_java_method_onError m])
        ∧ (setup_callbacks s).2
            = [Event.engine core.id EngineCall.set_device_discovered_callback,
               Event.engine core.id EngineCall.set_discovery_state_callback,
               Event.engine core.id EngineCall.set_connection_callback,
               Event.engine core.id EngineCall.set_clipboard_callback,
               Event.engine core.id EngineCall.set_error_callback])
    ∧ (s.g_nearclip_core = none → setup_callbacks s = (s, [])) := by
  refine ⟨?_, ?_⟩
  · intro core hcore
    simp only [setup_callbacks, hcore]
    exact ⟨_, _, _, _, _, _, rfl, rfl, rfl, fun _ => rfl, rfl, fun _ => rfl, rfl,
      fun _ _ => rfl, rfl, fun _ => rfl, rfl, fun _ => rfl, trivial⟩
  · intro hcore
    simp [setup_callbacks, hcore]

/-! ## Commands with an engine held -/

/-- C10: when an engine is held, the construction of the native string does not throw
and the engine operation returns `b`, each of the five boolean commands returns `b`,
leaves the state as it is, and makes exactly one engine operation: `start_discovery`,
`stop_discovery`, `connect_to_device`, `disconnect_from_device` or
`send_clipboard_data` on the held instance.  The native string the three string commands
pass is the complete modified UTF-8 form of the host string (nothing is cut off), which
for a host string of the characters U+0001 to U+007F is the host string itself, and
which no other string of UTF-16 code units shares. -/
theorem commands_delegate (s : Bridge) (core : NearClipCore)
    (h : s.g_nearclip_core = some core) (b : Bool) (arg : JString) :
    NearClip.NearClipFFI_startDeviceDiscovery (Outcome.ret b) s
        = (b, s, [Event.engine core.id EngineCall.start_discovery])
    ∧ NearClip.NearClipFFI_stopDeviceDiscovery (Outcome.ret b) s
        = (b, s, [Event.engine core.id EngineCall.stop_discovery])
    ∧ ((NearClip.NearClipFFI_connectToDevice arg
          { string_ctor := Outcome.ret (), engine := Outcome.ret b } s).1 = b
      ∧ (NearClip.NearClipFFI_connectToDevice arg
          { string_ctor := Outcome.ret (), engine := Outcome.ret b } s).2.1 = s
      ∧ (NearClip.NearClipFFI_connectToDevice arg
          { string_ctor := Outcome.ret (), engine := Outcome.ret b } s).2.2.filter
            Event.touchesEngine
          = [Event.engine core.id (EngineCall.connect_to_device (mutf8 arg))])
    ∧ ((NearClip.NearClipFFI_disconnectFromDevice arg
          { string_ctor := Outcome.ret (), engine := Outcome.ret b } s).1 = b
      ∧ (NearClip.NearClipFFI_disconnectFromDevice arg
          { string_ctor := Outcome.ret (), engine := Outcome.ret b } s).2.1 = s
      ∧ (NearClip.NearClipFFI_disconnectFromDevice arg
          { string_ctor := Outcome.ret (), engine := Outcome.ret b } s).2.2.filter
            Event.touchesEngine
          = [Event.engine core.id (EngineCall.disconnect_from_device (mutf8 arg))])
    ∧ ((NearClip.NearClipFFI_sendClipboardData arg
          { string_ctor := Outcome.ret (), engine := Outcome.ret b } s).1 = b
      ∧ (NearClip.NearClipFFI_sendClipboardData arg
          { string_ctor := Outcome.ret (), engine := Outcome.ret b } s).2.1 = s
      ∧ (NearClip.NearClipFFI_sendClipboardData arg
          { string_ctor := Outcome.ret (), engine := Outcome.ret b } s).2.2.filter
            Event.touchesEngine
          = [Event.engine core.id (EngineCall.send_clipboard_data (mutf8 arg))])
    ∧ ((∀ c ∈ arg, 1 ≤ c ∧ c ≤ 0x7F) → mutf8 arg = arg)
    ∧ (∀ other : JString, (∀ c ∈ arg, c < 65536) → (∀ c ∈ other, c < 65536) →
        mutf8 other = mutf8 arg → other = arg) := by
  refine ⟨?_, ?_, ?_, ?_, ?_, mutf8_ascii arg,
    fun other ha ho he => mutf8_injective other arg ho ha he⟩
  · simp [NearClipFFI_startDeviceDiscovery, h]
  · simp [NearClipFFI_stopDeviceDiscovery, h]
  · simp [NearClipFFI_connectToDevice, stringCommand, h, cstring_GetStringUTFChars,
      Event.touchesEngine, List.filter]
  · simp [NearClipFFI_disconnectFromDevice, stringCommand, h, cstring_GetStringUTFChars,
      Event.touchesEngine, List.filter]
  · simp [NearClipFFI_sendClipboardData, stringCommand, h, cstring_GetStringUTFChars,
      Event.touchesEngine, List.filter]

/-- C10 at the state `Bridge.unwired`, which holds engine 0, with the host string
"dev-123" and an engine that answers `true`: `connectToDevice` returns `true` and the
engine receives `connect_to_device("dev-123")`. -/
theorem commands_delegate_witness :
    Bridge.unwired.g_nearclip_core = some (NearClipCore.fresh 0)
    ∧ (NearClip.NearClipFFI_connectToDevice [100, 101, 118, 45, 49, 50, 51]
        { string_ctor := Outcome.ret (), engine := Outcome.ret true } Bridge.unwired).1 = true
    ∧ (NearClip.NearClipFFI_connectToDevice [100, 101, 118, 45, 49, 50, 51]
        { string_ctor := Outcome.ret (), engine := Outcome.ret true } Bridge.unwired).2.2.filter
          Event.touchesEngine
        = [Event.engine 0
            (EngineCall.connect_to_device (mutf8 [100, 101, 118, 45, 49, 50, 51]))]
    ∧ mutf8 [100, 101, 118, 45, 49, 50, 51] = [100, 101, 118, 45, 49, 50, 51] :=
  have w := commands_delegate Bridge.unwired (NearClipCore.fresh 0) rfl true
    [100, 101, 118, 45, 49, 50, 51]
  ⟨rfl, w.2.2.1.1, w.2.2.1.2.2, w.2.2.2.2.2.1 (by decide)⟩

/-! ## Commands whose engine operation throws -/

/-- C11 as stated fails: in the state `Bridge.unwired`, which holds engine 0, when the
engine operation raises an exception of a type not derived from `std::exception`,
`startDeviceDiscovery`, `connectToDevice("dev")` and `getLocalDeviceInfo` do not return
`false` or null: the exception leaves the command. -/
theorem command_lets_exception_through :
    Bridge.unwired.g_nearclip_core.isSome = true
    ∧ (Typed.NearClipFFI_startDeviceDiscovery (Raised.throws Thrown.other) Bridge.unwired).1
      = Raised.throws Thrown.other
    ∧ (Typed.NearClipFFI_connectToDevice [100, 101, 118]
        { string_ctor := Raised.ret (), engine := Raised.throws Thrown.other }
        Bridge.unwired).1
      = Raised.throws Thrown.other
    ∧ (Typed.NearClipFFI_getLocalDeviceInfo
        { engine := Raised.throws Thrown.other, findClass := true, getMethodID := some 1,
          newStringUTF := fun _ => true, newObject := true } Bridge.unwired).1
      = Raised.throws Thrown.other := by
  refine ⟨rfl, rfl, rfl, rfl⟩

/-- C11 as the code has it: when an engine is held and the first exception raised in the
`try` block of a command, by the construction of the native string (for the three
string commands) or by the engine operation, is of type `e`, then, if `e` is derived
from `std::exception`, each of the five boolean commands returns `false` and
`getLocalDeviceInfo` returns null, no exception leaves the command and the state is
left as it is; if `e` is of any other type, the exception leaves each of the six
commands. -/
theorem commands_contain_std_exceptions (s : Bridge) (core : NearClipCore)
    (h : s.g_nearclip_core = some core) (arg : JString) (env : Typed.CallEnv)
    (ienv : Typed.InfoEnv) (e : Thrown)
    (hthrow : env.string_ctor = Raised.throws e
      ∨ (env.string_ctor = Raised.ret () ∧ env.engine = Raised.throws e))
    (hinfo : ienv.engine = Raised.throws e) :
    (e = Thrown.std_exception →
      Typed.NearClipFFI_startDeviceDiscovery (Raised.throws e) s
          = (Raised.ret false, s, [Event.engine core.id EngineCall.start_discovery])
      ∧ Typed.NearClipFFI_stopDeviceDiscovery (Raised.throws e) s
          = (Raised.ret false, s, [Event.engine core.id EngineCall.stop_discovery])
      ∧ ((Typed.NearClipFFI_connectToDevice arg env s).1 = Raised.ret false
        ∧ (Typed.NearClipFFI_connectToDevice arg env s).2.1 = s)
      ∧ ((Typed.NearClipFFI_disconnectFromDevice arg env s).1 = Raised.ret false
        ∧ (Typed.NearClipFFI_disconnectFromDevice arg env s).2.1 = s)
      ∧ ((Typed.NearClipFFI_sendClipboardData arg env s).1 = Raised.ret false
        ∧ (Typed.NearClipFFI_sendClipboardData arg env s).2.1 = s)
      ∧ Typed.NearClipFFI_getLocalDeviceInfo ienv s
          = (Raised.ret none, s, [Event.engine core.id EngineCall.get_local_device_info]))
    ∧ (e = Thrown.other →
      (Typed.NearClipFFI_startDeviceDiscovery (Raised.throws e) s).1
          = Raised.throws Thrown.other
      ∧ (Typed.NearClipFFI_stopDeviceDiscovery (Raised.throws e) s).1
          = Raised.throws Thrown.other
      ∧ (Typed.NearClipFFI_connectToDevice arg env s).1 = Raised.throws Thrown.other
      ∧ (Typed.NearClipFFI_disconnectFromDevice arg env s).1 = Raised.throws Thrown.other
      ∧ (Typed.NearClipFFI_sendClipboardData arg env s).1 = Raised.throws Thrown.other
      ∧ (Typed.NearClipFFI_getLocalDeviceInfo ienv s).1 = Raised.throws Thrown.other) := by
  obtain ⟨ctor, engine⟩ := env
  simp only at hthrow
  constructor
  · intro he
    subst he
    refine ⟨?_, ?_, ?_, ?_, ?_, ?_⟩
    · simp [Typed.NearClipFFI_startDeviceDiscovery, h, Thrown.caught]
    · simp [Typed.NearClipFFI_stopDeviceDiscovery, h, Thrown.caught]
    · rcases hthrow with hc | ⟨hc, hen⟩
      · simp [Typed.NearClipFFI_connectToDevice, Typed.stringCommand, h, hc, Thrown.caught]
      · simp [Typed.NearClipFFI_connectToDevice, Typed.stringCommand, h, hc, hen, Thrown.caught]
    · rcases hthrow with hc | ⟨hc, hen⟩
      · simp [Typed.NearClipFFI_disconnectFromDevice, Typed.stringCommand, h, hc, Thrown.caught]
      · simp [Typed.NearClipFFI_disconnectFromDevice, Typed.stringCommand, h, hc, hen, Thrown.caught]
    · rcases hthrow with hc | ⟨hc, hen⟩
      · simp [Typed.NearClipFFI_sendClipboardData, Typed.stringCommand, h, hc, Thrown.caught]
      · simp [Typed.NearClipFFI_sendClipboardData, Typed.stringCommand, h, hc, hen, Thrown.caught]
    · simp [Typed.NearClipFFI_getLocalDeviceInfo, h, hinfo, Thrown.caught]
  · intro he
    subst he
    refine ⟨?_, ?_, ?_, ?_, ?_, ?_⟩
    · simp [Typed.NearClipFFI_startDeviceDiscovery, h, Thrown.caught]
    · simp [Typed.NearClipFFI_stopDeviceDiscovery, h, Thrown.caught]
    · rcases hthrow with hc | ⟨hc, hen⟩
      · simp [Typed.NearClipFFI_connectToDevice, Typed.stringCommand, h, hc, Thrown.caught]
      · simp [Typed.NearClipFFI_connectToDevice, Typed.stringCommand, h, hc, hen, Thrown.caught]
    · rcases hthrow with hc | ⟨hc, hen⟩
      · simp [Typed.NearClipFFI_disconnectFromDevice, Typed.stringCommand, h, hc, Thrown.caught]
      · simp [Typed.NearClipFFI_disconnectFromDevice, Typed.stringCommand, h, hc, hen, Thrown.caught]
    · rcases hthrow with hc | ⟨hc, hen⟩
      · simp [Typed.NearClipFFI_sendClipboardData, Typed.stringCommand, h, hc, Thrown.caught]
      · simp [Typed.NearClipFFI_sendClipboardData, Typed.stringCommand, h, hc, hen, Thrown.caught]
    · simp [Typed.NearClipFFI_getLocalDeviceInfo, h, hinfo, Thrown.caught]

/-- C11 (as the code has it) at the state `Bridge.unwired`, which holds engine 0, with an
engine whose operations raise an exception derived from `std::exception`:
`connectToDevice("dev")` returns `false` and `getLocalDeviceInfo` returns null. -/
theorem commands_contain_std_exceptions_witness :
    Bridge.unwired.g_nearclip_core = some (NearClipCore.fresh 0)
    ∧ (Typed.NearClipFFI_connectToDevice [100, 101, 118]
        { string_ctor := Raised.ret (), engine := Raised.throws Thrown.std_exception }
        Bridge.unwired).1 = Raised.ret false
    ∧ (Typed.NearClipFFI_getLocalDeviceInfo
        { engine := Raised.throws Thrown.std_exception, findClass := true,
          getMethodID := some 1, newStringUTF := fun _ => true, newObject := true }
        Bridge.unwired).1 = Raised.ret none :=
  have w := commands_contain_std_exceptions Bridge.unwired (NearClipCore.fresh 0) rfl
    [100, 101, 118]
    { string_ctor := Raised.ret (), engine := Raised.throws Thrown.std_exception }
    { engine := Raised.throws Thrown.std_exception, findClass := true,
      getMethodID := some 1, newStringUTF := fun _ => true, newObject := true }
    Thrown.std_exception (Or.inr ⟨rfl, rfl⟩) rfl
  ⟨rfl, (w.1 rfl).2.2.1.1, congrArg Prod.fst (w.1 rfl).2.2.2.2.2⟩

/-! ## `getLocalDeviceInfo` -/

/-- What `NewStringUTF(s.c_str())` reads from a native string: its bytes before the first
zero byte. -/
theorem cstring_c_str (s : NativeString) :
    cstring (c_str s) = s.takeWhile (fun b => b != 0) := by
  induction s with
  | nil => simp [cstring, c_str]
  | cons a l ih =>
    simp only [cstring, c_str] at ih ⊢
    rw [List.cons_append, List.takeWhile_cons, List.takeWhile_cons, ih]

/-- A native string without a zero byte is read whole. -/
theorem cstring_c_str_of_no_zero (s : NativeString) (h : ∀ b ∈ s, b ≠ 0) :
    cstring (c_str s) = s :=
  cstring_append_zero s h

/-- A native string that is the modified UTF-8 form of a host string `t` is read whole by
`NewStringUTF(s.c_str())`, and decoded to `t`. -/
theorem takeWhile_mutf8 (t : JString) (ht : ∀ c ∈ t, c < 65536) :
    (mutf8 t).takeWhile (fun b => b != 0) = mutf8 t
    ∧ mutf8Decode ((mutf8 t).takeWhile (fun b => b != 0)) = some t := by
  have hw : (mutf8 t).takeWhile (fun b => b != 0) = mutf8 t := by
    rw [← cstring_c_str]
    exact cstring_c_str_of_no_zero (mutf8 t) (mutf8_ne_zero t)
  refine ⟨hw, ?_⟩
  rw [hw]
  exact mutf8Decode_mutf8 t ht

/-- C12 as stated fails: for the descriptor whose `device_id` is the three bytes
`100, 0, 101` and whose `public_key` is the four bytes `240, 159, 152, 128` (the
standard UTF-8 form of U+1F600), the record returned has a `deviceId` read from the one
byte `100`, the field being cut at its zero byte, and a `publicKey` made from bytes that
are not modified UTF-8, for which no content is defined: neither field is equal to the
descriptor's. -/
theorem device_info_field_cut :
    (NearClip.NearClipFFI_getLocalDeviceInfo
        { engine := Outcome.ret
            { device_id := [100, 0, 101], device_name := [110], device_type := [116],
              public_key := [240, 159, 152, 128] },
          findClass := true, getMethodID := some 1, newStringUTF := fun _ => true,
          newObject := true } Bridge.unwired).1
      = some { deviceId := some { utf := [100], chars := some [100] },
               deviceName := some { utf := [110], chars := some [110] },
               deviceType := some { utf := [116], chars := some [116] },
               publicKey := some { utf := [240, 159, 152, 128], chars := none } }
    ∧ ([100] : List Nat) ≠ [100, 0, 101]
    ∧ mutf8Decode [240, 159, 152, 128] = none := by
  refine ⟨by decide, by decide, by decide⟩

/-- C12 as the code has it: when an engine is held, the engine reports the descriptor
`info`, and the class lookup, the constructor lookup, the four `NewStringUTF` calls and
`NewObject` succeed, `getLocalDeviceInfo` makes exactly one engine operation,
`get_local_device_info`, leaves the state as it was, and returns the record whose
fields `deviceId`, `deviceName`, `deviceType`, `publicKey` are, in this order, the
strings made from the bytes of `info.device_id`, `info.device_name`,
`info.device_type`, `info.public_key` before their first zero byte, with the content
that decoding these bytes as modified UTF-8 gives, which is none when they are not
modified UTF-8. When the four fields of the descriptor are the modified UTF-8 forms of
host strings `t1`, `t2`, `t3`, `t4`, the four fields of the record are read from the
whole descriptor fields and are exactly `t1`, `t2`, `t3`, `t4`. -/
theorem device_info_fields (s : Bridge) (core : NearClipCore)
    (h : s.g_nearclip_core = some core) (env : InfoEnv) (info : DeviceInfo) (m : MethodID)
    (hengine : env.engine = Outcome.ret info) (hclass : env.findClass = true)
    (hctor : env.getMethodID = some m) (hstr : ∀ i, i < 4 → env.newStringUTF i = true)
    (hobj : env.newObject = true) :
    (NearClip.NearClipFFI_getLocalDeviceInfo env s).1
      = some { deviceId := some
                 { utf := info.device_id.takeWhile (fun b => b != 0),
                   chars := mutf8Decode (info.device_id.takeWhile (fun b => b != 0)) },
               deviceName := some
                 { utf := info.device_name.takeWhile (fun b => b != 0),
                   chars := mutf8Decode (info.device_name.takeWhile (fun b => b != 0)) },
               deviceType := some
                 { utf := info.device_type.takeWhile (fun b => b != 0),
                   chars := mutf8Decode (info.device_type.takeWhile (fun b => b != 0)) },
               publicKey := some
                 { utf := info.public_key.takeWhile (fun b => b != 0),
                   chars := mutf8Decode (info.public_key.takeWhile (fun b => b != 0)) } }
    ∧ (NearClip.NearClipFFI_getLocalDeviceInfo env s).2.2.filter Event.touchesEngine
      = [Event.engine core.id EngineCall.get_local_device_info]
    ∧ (NearClip.NearClipFFI_getLocalDeviceInfo env s).2.1 = s
    ∧ (∀ t1 t2 t3 t4 : JString, (∀ c ∈ t1 ++ t2 ++ t3 ++ t4, c < 65536) →
        info.device_id = mutf8 t1 → info.device_name = mutf8 t2 →
        info.device_type = mutf8 t3 → info.public_key = mutf8 t4 →
        (NearClip.NearClipFFI_getLocalDeviceInfo env s).1
          = some { deviceId := some { utf := info.device_id, chars := some t1 },
                   deviceName := some { utf := info.device_name, chars := some t2 },
                   deviceType := some { utf := info.device_type, chars := some t3 },
                   publicKey := some { utf := info.public_key, chars := some t4 } }) := by
  have h0 := hstr 0 (by decide)
  have h1 := hstr 1 (by decide)
  have h2 := hstr 2 (by decide)
  have h3 := hstr 3 (by decide)
  have hrec : (NearClip.NearClipFFI_getLocalDeviceInfo env s).1
      = some { deviceId := some
                 { utf := info.device_id.takeWhile (fun b => b != 0),
                   chars := mutf8Decode (info.device_id.takeWhile (fun b => b != 0)) },
               deviceName := some
                 { utf := info.device_name.takeWhile (fun b => b != 0),
                   chars := mutf8Decode (info.device_name.takeWhile (fun b => b != 0)) },
               deviceType := some
                 { utf := info.device_type.takeWhile (fun b => b != 0),
                   chars := mutf8Decode (info.device_type.takeWhile (fun b => b != 0)) },
               publicKey := some
                 { utf := info.public_key.takeWhile (fun b => b != 0),
                   chars := mutf8Decode (info.public_key.takeWhile (fun b => b != 0)) } } := by
    simp [NearClipFFI_getLocalDeviceInfo, h, hengine, hclass, hctor, hobj, h0, h1, h2, h3,
      NewStringUTF, HostString.ofUTF, cstring_c_str]
  refine ⟨hrec, ?_, ?_, ?_⟩
  · simp [NearClipFFI_getLocalDeviceInfo, h, hengine, hclass, hctor, hobj, h0, h1, h2, h3,
      NewStringUTF, Event.touchesEngine, List.filter]
  · simp [NearClipFFI_getLocalDeviceInfo, h, hengine]
  · intro t1 t2 t3 t4 ht e1 e2 e3 e4
    have k1 := takeWhile_mutf8 t1 (fun c hc => ht c (by simp [hc]))
    have k2 := takeWhile_mutf8 t2 (fun c hc => ht c (by simp [hc]))
    have k3 := takeWhile_mutf8 t3 (fun c hc => ht c (by simp [hc]))
    have k4 := takeWhile_mutf8 t4 (fun c hc => ht c (by simp [hc]))
    have d1 := k1.2
    have d2 := k2.2
    have d3 := k3.2
    have d4 := k4.2
    rw [k1.1] at d1
    rw [k2.1] at d2
    rw [k3.1] at d3
    rw [k4.1] at d4
    rw [hrec, e1, e2, e3, e4, k1.1, k2.1, k3.1, k4.1, d1, d2, d3, d4]

/-- C12 (as the code has it) at the state `Bridge.unwired`, which holds engine 0, for the
descriptor ("d", "n", "t", "k"): the record returned has these four strings as its
fields. -/
theorem device_info_fields_witness :
    Bridge.unwired.g_nearclip_core = some (NearClipCore.fresh 0)
    ∧ (NearClip.NearClipFFI_getLocalDeviceInfo
        { engine := Outcome.ret
            { device_id := [100], device_name := [110], device_type := [116],
              public_key := [107] },
          findClass := true, getMethodID := some 1, newStringUTF := fun _ => true,
          newObject := true } Bridge.unwired).1
      = some { deviceId := some { utf := [100], chars := some [100] },
               deviceName := some { utf := [110], chars := some [110] },
               deviceType := some { utf := [116], chars := some [116] },
               publicKey := some { utf := [107], chars := some [107] } } :=
  have w := device_info_fields Bridge.unwired (NearClipCore.fresh 0) rfl
    { engine := Outcome.ret
        { device_id := [100], device_name := [110], device_type := [116],
          public_key := [107] },
      findClass := true, getMethodID := some 1, newStringUTF := fun _ => true,
      newObject := true }
    { device_id := [100], device_name := [110], device_type := [116], public_key := [107] }
    1 rfl rfl rfl (fun _ _ => rfl) rfl
  ⟨rfl, w.2.2.2 [100] [110] [116] [107] (by decide) rfl rfl rfl rfl⟩

/-! ## Acquiring and releasing the thread context -/

/-- C17: with `g_jvm` set, `get_jni_env()` on a thread for which `GetEnv` reports `JNI_OK`
returns that thread's own, existing `JNIEnv`, performs no operation besides the `GetEnv`
and leaves the thread as it is; on a thread for which `GetEnv` reports `JNI_EDETACHED`
it performs, after the `GetEnv`, exactly one `AttachCurrentThread`, with version
`JNI_VERSION_1_6` and thread name "NearClipNativeThread", and when that attach returns
`JNI_OK` it returns the `JNIEnv` the attach produced, which the thread then holds as an
attachment made by the bridge. -/
theorem get_jni_env_acquire (h : RelayEnv) (g : Bridge) (th : Thread) (vm : JavaVM)
    (hjvm : g.g_jvm = some vm) :
    (th.GetEnv h.versionOk = JNI_OK →
      get_jni_env h g th = (th.env, th, [JniOp.GetEnv JNI_VERSION_1_6 JNI_OK])
      ∧ th.env ≠ none
      ∧ (get_jni_env h g th).2.2.filter JniOp.isAttach = [])
    ∧ (th.GetEnv h.versionOk = JNI_EDETACHED →
      (get_jni_env h g th).2.2
        = [JniOp.GetEnv JNI_VERSION_1_6 JNI_EDETACHED,
           JniOp.AttachCurrentThread JNI_VERSION_1_6 "NearClipNativeThread" h.attach]
      ∧ (h.attach = JNI_OK →
          (get_jni_env h g th).1 = some h.attachEnv
          ∧ (get_jni_env h g th).2.1.env = some h.attachEnv
          ∧ (get_jni_env h g th).2.1.owner = Owner.bridge)) := by
  obtain ⟨versionOk, attach, attachEnv, findClass, newStringUTF, callbackThrows⟩ := h
  refine ⟨?_, ?_⟩
  · intro hok
    cases henv : th.env with
    | none => simp [Thread.GetEnv, henv, JNI_OK, JNI_EDETACHED] at hok
    | some e =>
      cases versionOk
      · simp [Thread.GetEnv, henv, JNI_OK, JNI_EVERSION] at hok
      · simp [get_jni_env, hjvm, Thread.GetEnv, henv, JNI_OK, JNI_EDETACHED, JniOp.isAttach]
  · intro hdet
    cases henv : th.env with
    | some e =>
      cases versionOk <;>
        simp [Thread.GetEnv, henv, JNI_OK, JNI_EVERSION, JNI_EDETACHED] at hdet
    | none =>
      by_cases ha : attach = 0
      · subst ha
        simp [get_jni_env, attach_current_thread, hjvm, Thread.GetEnv,
          Thread.AttachCurrentThread, henv, JNI_OK, JNI_EDETACHED]
      · simp [get_jni_env, attach_current_thread, hjvm, Thread.GetEnv,
          Thread.AttachCurrentThread, henv, JNI_OK, JNI_EDETACHED, ha]

/-- C17 on the thread `Thread.hostAttached` (attached, `JNIEnv` 5) and on the thread
`Thread.detached`, with the globals `Bridge.loaded`: the first keeps `JNIEnv` 5 without an
attach, the second is attached once and gets `JNIEnv` 9. -/
theorem get_jni_env_acquire_witness :
    Bridge.loaded.g_jvm = some 1
    ∧ get_jni_env RelayEnv.success Bridge.loaded Thread.hostAttached
        = (some 5, Thread.hostAttached, [JniOp.GetEnv JNI_VERSION_1_6 JNI_OK])
    ∧ (get_jni_env RelayEnv.success Bridge.loaded Thread.detached).1 = some 9
    ∧ (get_jni_env RelayEnv.success Bridge.loaded Thread.detached).2.2
        = [JniOp.GetEnv JNI_VERSION_1_6 JNI_EDETACHED,
           JniOp.AttachCurrentThread JNI_VERSION_1_6 "NearClipNativeThread" JNI_OK] :=
  have w1 := get_jni_env_acquire RelayEnv.success Bridge.loaded Thread.hostAttached 1 rfl
  have w2 := get_jni_env_acquire RelayEnv.success Bridge.loaded Thread.detached 1 rfl
  ⟨rfl, (w1.1 rfl).1, ((w2.2 rfl).2 rfl).1, (w2.2 rfl).1⟩

/-- C18: when `g_jvm` is unset, `get_jni_env()` returns `nullptr` and
`attach_current_thread` returns `false`, and neither performs any operation on the host
runtime; when the calling thread is not attached and `AttachCurrentThread` does not
return `JNI_OK`, `get_jni_env()` returns `nullptr`; and `attach_current_thread` returns
`false` exactly when `g_jvm` is unset or the thread is not attached and
`AttachCurrentThread` does not return `JNI_OK`, and `true` otherwise. -/
theorem get_jni_env_failure (h : RelayEnv) (g : Bridge) (th : Thread) :
    (g.g_jvm = none →
      get_jni_env h g th = (none, th, [])
      ∧ attach_current_thread h g th = (false, none, th, []))
    ∧ (th.env = none → h.attach ≠ JNI_OK → (get_jni_env h g th).1 = none)
    ∧ ((attach_current_thread h g th).1 = false
        ↔ g.g_jvm = none ∨ (th.env = none ∧ h.attach ≠ JNI_OK))
    ∧ ((attach_current_thread h g th).1 = true
        ↔ ¬ (g.g_jvm = none ∨ (th.env = none ∧ h.attach ≠ JNI_OK))) := by
  obtain ⟨versionOk, attach, attachEnv, findClass, newStringUTF, callbackThrows⟩ := h
  refine ⟨?_, ?_, ?_, ?_⟩
  · intro hjvm
    simp [get_jni_env, attach_current_thread, hjvm]
  · intro henv ha
    have ha0 : ¬ attach = 0 := by simpa [JNI_OK] using ha
    cases hjvm : g.g_jvm <;>
      simp [get_jni_env, attach_current_thread, hjvm, Thread.GetEnv,
        Thread.AttachCurrentThread, henv, JNI_OK, JNI_EDETACHED, ha0]
  · cases hjvm : g.g_jvm <;> cases henv : th.env <;> by_cases ha : attach = 0 <;>
      simp [attach_current_thread, hjvm, Thread.AttachCurrentThread, henv, JNI_OK, ha]
  · cases hjvm : g.g_jvm <;> cases henv : th.env <;> by_cases ha : attach = 0 <;>
      simp [attach_current_thread, hjvm, Thread.AttachCurrentThread, henv, JNI_OK, ha]

/-- C19 as stated fails: on the thread `Thread.hostAttached`, which the host attached,
with `g_jvm` set, `detach_current_thread()` calls `DetachCurrentThread` and the thread is
no longer attached afterwards. -/
theorem detach_current_thread_detaches_host_thread :
    Thread.hostAttached.owner = Owner.host
    ∧ Thread.hostAttached.env = some 5
    ∧ (detach_current_thread Bridge.loaded Thread.hostAttached).2
        = [JniOp.DetachCurrentThread]
    ∧ (detach_current_thread Bridge.loaded Thread.hostAttached).1.env = none := by
  decide

/-- C19 as the code has it: `detach_current_thread()` calls `DetachCurrentThread` on the
calling thread whenever `g_jvm` is set, whoever attached the thread, and the thread is
not attached afterwards; it does nothing when `g_jvm` is unset; and calling it twice in
a row leaves the thread in the state one call leaves it in. -/
theorem detach_current_thread_unconditional (g : Bridge) (th : Thread) :
    (g.g_jvm ≠ none →
      detach_current_thread g th = (th.DetachCurrentThread, [JniOp.DetachCurrentThread])
      ∧ (detach_current_thread g th).1.env = none)
    ∧ (g.g_jvm = none → detach_current_thread g th = (th, []))
    ∧ (detach_current_thread g (detach_current_thread g th).1).1
        = (detach_current_thread g th).1 := by
  cases hjvm : g.g_jvm <;>
    simp [detach_current_thread, hjvm, Thread.DetachCurrentThread]

/-! ## The relays -/

/-- What `get_jni_env()` leaves alone: pending exception, local references, an existing
attachment; it invokes no callback and performs no detach; the `JNIEnv` it returns is
the one the thread holds afterwards. -/
theorem get_jni_env_frame (h : RelayEnv) (g : Bridge) (th : Thread) :
    (get_jni_env h g th).2.1.pending = th.pending
    ∧ (get_jni_env h g th).2.1.locals = th.locals
    ∧ (get_jni_env h g th).2.1.nextLocal = th.nextLocal
    ∧ (get_jni_env h g th).2.2.filter JniOp.isCall = []
    ∧ JniOp.DetachCurrentThread ∉ (get_jni_env h g th).2.2
    ∧ (∀ e, th.env = some e →
        (get_jni_env h g th).2.1.env = some e ∧ (get_jni_env h g th).2.1.owner = th.owner)
    ∧ ((get_jni_env h g th).1 ≠ none →
        (get_jni_env h g th).2.1.env = (get_jni_env h g th).1) := by
  obtain ⟨versionOk, attach, attachEnv, findClass, newStringUTF, callbackThrows⟩ := h
  cases hjvm : g.g_jvm <;> cases henv : th.env <;> cases versionOk <;>
    by_cases ha : attach = 0 <;>
    simp [get_jni_env, attach_current_thread, hjvm, Thread.GetEnv,
      Thread.AttachCurrentThread, henv, JNI_OK, JNI_EDETACHED, JNI_EVERSION, ha,
      JniOp.isCall]

/-- A relay whose `get_jni_env()` gives `nullptr` returns at once. -/
theorem relay_of_no_env (c : RelayCall) (h : RelayEnv) (g : Bridge) (th : Thread)
    (hnone : (get_jni_env h g th).1 = none) :
    c.run h g th = ((get_jni_env h g th).2.1, (get_jni_env h g th).2.2) := by
  cases c <;>
    simp [RelayCall.run, call_java_method_onDeviceDiscovered,
      call_java_method_onDiscoveryStateChanged, call_java_method_onConnectionChanged,
      call_java_method_onClipboardDataReceived, call_java_method_onError, hnone]

/-- C16: for each of the five relays and all its arguments, if `g_jvm` is unset, or
`GetEnv` reports a code that is neither `JNI_OK` nor `JNI_EDETACHED`, or the thread is
not attached and `AttachCurrentThread` does not return `JNI_OK`, then `get_jni_env()` gives
`nullptr` and the relay returns with exactly the operations `get_jni_env()` performed (a
`GetEnv`, and the `AttachCurrentThread` when one was tried; none at all when `g_jvm` is
unset): it invokes no callback and makes no other call into the host runtime. -/
theorem relay_without_context (c : RelayCall) (h : RelayEnv) (g : Bridge) (th : Thread)
    (hfail : g.g_jvm = none
      ∨ (th.GetEnv h.versionOk ≠ JNI_OK ∧ th.GetEnv h.versionOk ≠ JNI_EDETACHED)
      ∨ (th.GetEnv h.versionOk = JNI_EDETACHED ∧ h.attach ≠ JNI_OK)) :
    (get_jni_env h g th).1 = none
    ∧ c.run h g th = ((get_jni_env h g th).2.1, (get_jni_env h g th).2.2)
    ∧ (c.run h g th).2.filter JniOp.isCall = []
    ∧ (∀ op ∈ (c.run h g th).2,
        op = JniOp.GetEnv JNI_VERSION_1_6 (th.GetEnv h.versionOk)
        ∨ op = JniOp.AttachCurrentThread JNI_VERSION_1_6 "NearClipNativeThread" h.attach)
    ∧ (g.g_jvm = none → (c.run h g th).2 = [])
    ∧ (c.run h g th).1.pending = th.pending := by
  have hnone : (get_jni_env h g th).1 = none := by
    obtain ⟨versionOk, attach, attachEnv, findClass, newStringUTF, callbackThrows⟩ := h
    cases hjvm : g.g_jvm <;> cases henv : th.env <;> cases versionOk <;>
      by_cases ha : attach = 0 <;>
      simp [get_jni_env, attach_current_thread, hjvm, Thread.GetEnv,
        Thread.AttachCurrentThread, henv, JNI_OK, JNI_EDETACHED, JNI_EVERSION, ha] at hfail ⊢
  have hrun := relay_of_no_env c h g th hnone
  have hframe := get_jni_env_frame h g th
  refine ⟨hnone, hrun, ?_, ?_, ?_, ?_⟩
  · rw [hrun]
    exact hframe.2.2.2.1
  · rw [hrun]
    obtain ⟨versionOk, attach, attachEnv, findClass, newStringUTF, callbackThrows⟩ := h
    cases hjvm : g.g_jvm <;> cases henv : th.env <;> cases versionOk <;>
      by_cases ha : attach = 0 <;>
      simp [get_jni_env, attach_current_thread, hjvm, Thread.GetEnv,
        Thread.AttachCurrentThread, henv, JNI_OK, JNI_EDETACHED, JNI_EVERSION, ha]
  · intro hjvm
    rw [hrun]
    simp [get_jni_env, hjvm]
  · rw [hrun]
    exact hframe.1

/-- C16 on the thread `Thread.detached` when `AttachCurrentThread` returns `JNI_ERR`: the
relay `onError` performs the `GetEnv` and the failed attach and nothing else. -/
theorem relay_without_context_witness :
    (Thread.detached.GetEnv true = JNI_EDETACHED ∧ JNI_ERR ≠ JNI_OK)
    ∧ (call_java_method_onError [104, 105]
        { RelayEnv.success with attach := JNI_ERR } Bridge.loaded Thread.detached).2
      = [JniOp.GetEnv JNI_VERSION_1_6 JNI_EDETACHED,
         JniOp.AttachCurrentThread JNI_VERSION_1_6 "NearClipNativeThread" JNI_ERR] :=
  have w := relay_without_context (RelayCall.call_java_method_onError [104, 105])
    { RelayEnv.success with attach := JNI_ERR } Bridge.loaded Thread.detached
    (Or.inr (Or.inr ⟨rfl, by decide⟩))
  ⟨⟨rfl, by decide⟩, (congrArg Prod.snd w.2.1).trans rfl⟩

/-- C13 as stated fails: the relay `onError`, given the native string of the three
bytes `104, 0, 105`, invokes `g_onError` with a host string read from the one byte
`104`, the string being cut at its zero byte; given the four bytes `240, 159, 152, 128`
(the standard UTF-8 form of U+1F600), it invokes `g_onError` with a string made from
bytes that are not modified UTF-8, for which no content is defined. -/
theorem relay_string_cut :
    (call_java_method_onError [104, 0, 105] RelayEnv.success Bridge.loaded
        Thread.hostAttached).2.filter JniOp.isCall
      = [JniOp.CallStaticVoidMethod CallbackSlot.g_onError (some 15)
          [JValue.jstring { ref := 1, str := { utf := [104], chars := some [104] } }]]
    ∧ ([104] : List Nat) ≠ [104, 0, 105]
    ∧ (call_java_method_onError [240, 159, 152, 128] RelayEnv.success Bridge.loaded
        Thread.hostAttached).2.filter JniOp.isCall
      = [JniOp.CallStaticVoidMethod CallbackSlot.g_onError (some 15)
          [JValue.jstring
            { ref := 1, str := { utf := [240, 159, 152, 128], chars := none } }]] := by
  refine ⟨by decide, by decide, by decide⟩

/-- C13 as the code has it: for each of the five relays, every native string `text` (and
every boolean, for `onConnectionChanged`), when `get_jni_env()` gives a context and
`FindClass` and `NewStringUTF` succeed, the relay makes exactly one
`CallStaticVoidMethod`, passing the global of its own event kind (`g_onDeviceDiscovered`,
`g_onDiscoveryStateChanged`, `g_onConnectionChanged`, `g_onClipboardDataReceived`,
`g_onError`), a host string made from the bytes of `text` before its first zero byte,
with the content that decoding these bytes as modified UTF-8 gives (none when they are
not modified UTF-8) and, for `onConnectionChanged`, the given boolean. When `text` is the
modified UTF-8 form of a host string `t`, the string passed is read from the whole of
`text` and its content is exactly `t`; and whenever the string passed has a content,
the bytes of `text` before its first zero byte are the modified UTF-8 form of it. -/
theorem relay_invokes_own_slot (text : NativeString) (connected : Bool) (h : RelayEnv)
    (g : Bridge) (th : Thread) (hctx : (get_jni_env h g th).1 ≠ none)
    (hclass : h.findClass = true) (hstr : h.newStringUTF = true) :
    (call_java_method_onDeviceDiscovered text h g th).2.filter JniOp.isCall
      = [JniOp.CallStaticVoidMethod CallbackSlot.g_onDeviceDiscovered g.g_onDeviceDiscovered
          [JValue.jstring
            { ref := th.nextLocal + 1,
              str := { utf := text.takeWhile (fun b => b != 0),
                       chars := mutf8Decode (text.takeWhile (fun b => b != 0)) } }]]
    ∧ (call_java_method_onDiscoveryStateChanged text h g th).2.filter JniOp.isCall
      = [JniOp.CallStaticVoidMethod CallbackSlot.g_onDiscoveryStateChanged
          g.g_onDiscoveryStateChanged
          [JValue.jstring
            { ref := th.nextLocal + 1,
              str := { utf := text.takeWhile (fun b => b != 0),
                       chars := mutf8Decode (text.takeWhile (fun b => b != 0)) } }]]
    ∧ (call_java_method_onConnectionChanged text connected h g th).2.filter JniOp.isCall
      = [JniOp.CallStaticVoidMethod CallbackSlot.g_onConnectionChanged
          g.g_onConnectionChanged
          [JValue.jstring
            { ref := th.nextLocal + 1,
              str := { utf := text.takeWhile (fun b => b != 0),
                       chars := mutf8Decode (text.takeWhile (fun b => b != 0)) } },
           JValue.jboolean connected]]
    ∧ (call_java_method_onClipboardDataReceived text h g th).2.filter JniOp.isCall
      = [JniOp.CallStaticVoidMethod CallbackSlot.g_onClipboardDataReceived
          g.g_onClipboardDataReceived
          [JValue.jstring
            { ref := th.nextLocal + 1,
              str := { utf := text.takeWhile (fun b => b != 0),
                       chars := mutf8Decode (text.takeWhile (fun b => b != 0)) } }]]
    ∧ (call_java_method_onError text h g th).2.filter JniOp.isCall
      = [JniOp.CallStaticVoidMethod CallbackSlot.g_onError g.g_onError
          [JValue.jstring
            { ref := th.nextLocal + 1,
              str := { utf := text.takeWhile (fun b => b != 0),
                       chars := mutf8Decode (text.takeWhile (fun b => b != 0)) } }]]
    ∧ (∀ t : JString, (∀ c ∈ t, c < 65536) → text = mutf8 t →
        text.takeWhile (fun b => b != 0) = text
        ∧ mutf8Decode (text.takeWhile (fun b => b != 0)) = some t)
    ∧ (∀ t : JString, mutf8Decode (text.takeWhile (fun b => b != 0)) = some t →
        mutf8 t = text.takeWhile (fun b => b != 0)) := by
  have hframe := get_jni_env_frame h g th
  rcases hres : get_jni_env h g th with ⟨env, th0, t0⟩
  rw [hres] at hframe hctx
  obtain ⟨-, -, hnl, hcall, -, -, -⟩ := hframe
  simp only at hnl hcall hctx
  cases env with
  | none => exact absurd rfl hctx
  | some e =>
  refine ⟨?_, ?_, ?_, ?_, ?_, ?_, ?_⟩
  · cases hp : th0.pending <;> cases hthrows : h.callbackThrows <;>
    simp [call_java_method_onDeviceDiscovered, hres, Thread.FindClass, Thread.NewStringUTF,
      Thread.CallStaticVoidMethod, Thread.DeleteLocalRef, Thread.ExceptionClearIfPending,
      detachIf, hclass, hstr, hcall, hnl, hp, hthrows, JniOp.isCall, List.filter,
      HostString.ofUTF, cstring_c_str]
  · cases hp : th0.pending <;> cases hthrows : h.callbackThrows <;>
    simp [call_java_method_onDiscoveryStateChanged, hres, Thread.FindClass, Thread.NewStringUTF,
      Thread.CallStaticVoidMethod, Thread.DeleteLocalRef, Thread.ExceptionClearIfPending,
      detachIf, hclass, hstr, hcall, hnl, hp, hthrows, JniOp.isCall, List.filter,
      HostString.ofUTF, cstring_c_str]
  · cases hp : th0.pending <;> cases hthrows : h.callbackThrows <;>
    simp [call_java_method_onConnectionChanged, hres, Thread.FindClass, Thread.NewStringUTF,
      Thread.CallStaticVoidMethod, Thread.DeleteLocalRef, Thread.ExceptionClearIfPending,
      detachIf, hclass, hstr, hcall, hnl, hp, hthrows, JniOp.isCall, List.filter,
      HostString.ofUTF, cstring_c_str]
  · cases hp : th0.pending <;> cases hthrows : h.callbackThrows <;>
    simp [call_java_method_onClipboardDataReceived, hres, Thread.FindClass, Thread.NewStringUTF,
      Thread.CallStaticVoidMethod, Thread.DeleteLocalRef, Thread.ExceptionClearIfPending,
      detachIf, hclass, hstr, hcall, hnl, hp, hthrows, JniOp.isCall, List.filter,
      HostString.ofUTF, cstring_c_str]
  · cases hp : th0.pending <;> cases hthrows : h.callbackThrows <;>
    simp [call_java_method_onError, hres, Thread.FindClass, Thread.NewStringUTF,
      Thread.CallStaticVoidMethod, Thread.DeleteLocalRef, Thread.ExceptionClearIfPending,
      detachIf, hclass, hstr, hcall, hnl, hp, hthrows, JniOp.isCall, List.filter,
      HostString.ofUTF, cstring_c_str]
  · intro t ht e
    rw [e]
    exact takeWhile_mutf8 t ht
  · intro t ht
    exact (mutf8Decode_sound _ t ht).1

/-- C13 (as the code has it) on the thread `Thread.hostAttached` with the globals
`Bridge.loaded`: `onConnectionChanged("hi", true)` invokes `g_onConnectionChanged`, which
holds method 13, once, with the string "hi" and `true`. -/
theorem relay_invokes_own_slot_witness :
    (get_jni_env RelayEnv.success Bridge.loaded Thread.hostAttached).1 ≠ none
    ∧ (call_java_method_onConnectionChanged [104, 105] true RelayEnv.success Bridge.loaded
        Thread.hostAttached).2.filter JniOp.isCall
      = [JniOp.CallStaticVoidMethod CallbackSlot.g_onConnectionChanged (some 13)
          [JValue.jstring
            { ref := 1, str := { utf := [104, 105], chars := some [104, 105] } },
           JValue.jboolean true]] :=
  have w := relay_invokes_own_slot [104, 105] true RelayEnv.success Bridge.loaded
    Thread.hostAttached (by decide) rfl rfl
  ⟨by decide, w.2.2.1.trans (by decide)⟩

/-- C14: for each of the five relays and all its arguments, when the callback it
invokes raises an exception (the context was acquired and `FindClass` and `NewStringUTF`
succeeded, so that the callback is invoked), the relay returns, its last three operations
are `ExceptionCheck` (answering that an exception is pending), `ExceptionDescribe` and
`ExceptionClear`, and no exception is pending on the thread when it returns. -/
theorem relay_clears_callback_fault (c : RelayCall) (h : RelayEnv) (g : Bridge) (th : Thread)
    (hctx : (get_jni_env h g th).1 ≠ none) (hclass : h.findClass = true)
    (hstr : h.newStringUTF = true) (hthrows : h.callbackThrows = true) :
    (c.run h g th).1.pending = false
    ∧ ((c.run h g th).2.filter JniOp.isCall).length = 1
    ∧ (c.run h g th).2.reverse.take 3
        = [JniOp.ExceptionClear, JniOp.ExceptionDescribe, JniOp.ExceptionCheck true] := by
  rcases hres : get_jni_env h g th with ⟨env, th0, t0⟩
  have hframe := get_jni_env_frame h g th
  rw [hres] at hframe hctx
  obtain ⟨-, -, -, hcall, -, -, -⟩ := hframe
  simp only at hcall hctx
  cases env with
  | none => exact absurd rfl hctx
  | some e =>
    cases c <;> cases hp : th0.pending <;>
      simp [RelayCall.run, call_java_method_onDeviceDiscovered,
        call_java_method_onDiscoveryStateChanged, call_java_method_onConnectionChanged,
        call_java_method_onClipboardDataReceived, call_java_method_onError, hres,
        Thread.FindClass, Thread.NewStringUTF, Thread.CallStaticVoidMethod,
        Thread.DeleteLocalRef, Thread.ExceptionClearIfPending, detachIf, hclass, hstr,
        hthrows, hcall, hp, JniOp.isCall, List.filter]

/-- C14 on the thread `Thread.hostAttached` with the globals `Bridge.loaded`: when the
Java method `onError` throws, the relay returns with nothing pending. -/
theorem relay_clears_callback_fault_witness :
    (get_jni_env { RelayEnv.success with callbackThrows := true } Bridge.loaded
        Thread.hostAttached).1 ≠ none
    ∧ (call_java_method_onError [104, 105] { RelayEnv.success with callbackThrows := true }
        Bridge.loaded Thread.hostAttached).1.pending = false :=
  have w := relay_clears_callback_fault (RelayCall.call_java_method_onError [104, 105])
    { RelayEnv.success with callbackThrows := true } Bridge.loaded Thread.hostAttached
    (by decide) rfl rfl rfl
  ⟨by decide, w.1⟩

/-- C15, evaluated on the code: on the attached thread `Thread.hostAttached`, with
nothing pending on entry, the relay `onError` returns with an exception pending when
`FindClass` fails and when `NewStringUTF` fails, and so does the relay
`onDeviceDiscovered`; and the relay `onError` entered with an exception pending returns
with it still pending when `FindClass` fails; on the thread `Thread.detached`, which the
relay attaches itself, `onError` returns with an exception pending when `FindClass` fails.
When the callback throws, the same relays return with nothing pending. -/
theorem relay_leaves_fault_pending :
    (call_java_method_onError [104, 105] { RelayEnv.success with findClass := false }
        Bridge.loaded Thread.hostAttached).1.pending = true
    ∧ (call_java_method_onError [104, 105] { RelayEnv.success with newStringUTF := false }
        Bridge.loaded Thread.hostAttached).1.pending = true
    ∧ (call_java_method_onDeviceDiscovered [104, 105]
        { RelayEnv.success with findClass := false }
        Bridge.loaded Thread.hostAttached).1.pending = true
    ∧ (call_java_method_onDeviceDiscovered [104, 105]
        { RelayEnv.success with newStringUTF := false }
        Bridge.loaded Thread.hostAttached).1.pending = true
    ∧ (call_java_method_onError [104, 105] { RelayEnv.success with findClass := false }
        Bridge.loaded { Thread.hostAttached with pending := true }).1.pending = true
    ∧ (call_java_method_onError [104, 105] { RelayEnv.success with findClass := false }
        Bridge.loaded Thread.detached).1.pending = true
    ∧ (call_java_method_onError [104, 105] { RelayEnv.success with callbackThrows := true }
        Bridge.loaded Thread.hostAttached).1.pending = false
    ∧ (call_java_method_onDeviceDiscovered [104, 105]
        { RelayEnv.success with callbackThrows := true }
        Bridge.loaded Thread.hostAttached).1.pending = false := by
  decide

/-- Every relay that obtained a context and then fails to find the class or to create
the string returns with an exception pending. -/
theorem relay_lookup_failure_pending (c : RelayCall) (h : RelayEnv) (g : Bridge)
    (th : Thread) (hctx : (get_jni_env h g th).1 ≠ none)
    (hfail : h.findClass = false ∨ h.newStringUTF = false) :
    (c.run h g th).1.pending = true := by
  rcases hres : get_jni_env h g th with ⟨env, th0, t0⟩
  rw [hres] at hctx
  cases env with
  | none => exact absurd rfl hctx
  | some e =>
    cases c <;> cases hp : th0.pending <;> cases hclass : h.findClass <;>
      cases hstr : h.newStringUTF <;>
      simp [RelayCall.run, call_java_method_onDeviceDiscovered,
        call_java_method_onDiscoveryStateChanged, call_java_method_onConnectionChanged,
        call_java_method_onClipboardDataReceived, call_java_method_onError, hres,
        Thread.FindClass, Thread.NewStringUTF, Thread.CallStaticVoidMethod,
        Thread.DeleteLocalRef, Thread.ExceptionClearIfPending, detachIf, detach_current_thread,
        hclass, hstr, hp] at hfail ⊢

/-- C20: for each of the five relays, all its arguments and every behaviour of the host
runtime during the call (whether the context is obtained, the class found, the string
created, and whether the callback throws), a thread that is attached when the relay is
entered is attached, with the same `JNIEnv` and by the same owner, when the relay
returns, and the relay performs no `DetachCurrentThread`. -/
theorem relay_never_detaches (c : RelayCall) (h : RelayEnv) (g : Bridge) (th : Thread)
    (e : JNIEnv) (hatt : th.env = some e) :
    (c.run h g th).1.env = some e
    ∧ (c.run h g th).1.owner = th.owner
    ∧ JniOp.DetachCurrentThread ∉ (c.run h g th).2 := by
  rcases hres : get_jni_env h g th with ⟨env, th0, t0⟩
  have hframe := get_jni_env_frame h g th
  rw [hres] at hframe
  obtain ⟨-, -, -, -, hdet, hkeep, -⟩ := hframe
  obtain ⟨henv, howner⟩ := hkeep e hatt
  simp only at hdet henv howner
  cases env <;> cases c <;> cases hp : th0.pending <;> cases hclass : h.findClass <;>
    cases hstr : h.newStringUTF <;> cases hthrows : h.callbackThrows <;>
    simp [RelayCall.run, call_java_method_onDeviceDiscovered,
      call_java_method_onDiscoveryStateChanged, call_java_method_onConnectionChanged,
      call_java_method_onClipboardDataReceived, call_java_method_onError, hres,
      Thread.FindClass, Thread.NewStringUTF, Thread.CallStaticVoidMethod,
      Thread.DeleteLocalRef, Thread.ExceptionClearIfPending, detachIf, hclass, hstr,
      hthrows, hp, hdet, henv, howner]

/-- C20 on the thread `Thread.hostAttached` with the globals `Bridge.loaded`: after the
relay `onDeviceDiscovered` whose `FindClass` fails the thread still holds `JNIEnv` 5. -/
theorem relay_never_detaches_witness :
    Thread.hostAttached.env = some 5
    ∧ (call_java_method_onDeviceDiscovered [104, 105]
        { RelayEnv.success with findClass := false } Bridge.loaded
        Thread.hostAttached).1.env = some 5 :=
  have w := relay_never_detaches (RelayCall.call_java_method_onDeviceDiscovered [104, 105])
    { RelayEnv.success with findClass := false } Bridge.loaded Thread.hostAttached 5 rfl
  ⟨rfl, w.1⟩

/-! ## Load time -/

/-- C21: `JNI_OnLoad` returns `JNI_VERSION_1_6` exactly when `GetEnv` gives the load-time
context, the class `com/nearclip/ffi/NearClipFFI` is found and `GetStaticMethodID` gives
a non-null id for each of `onDeviceDiscovered`, `onDiscoveryStateChanged`,
`onConnectionChanged`, `onClipboardDataReceived` and `onError`; in every other case it
returns `JNI_ERR`; and after a return of `JNI_VERSION_1_6` the five callback slots hold
these five ids, so none of them is null. -/
theorem JNI_OnLoad_result (vm : JavaVM) (env : LoadEnv) (s : Bridge) :
    ((JNI_OnLoad vm env s).1 = JNI_VERSION_1_6
      ↔ env.getEnvOk = true ∧ env.findClass = true
        ∧ env.methodID "onDeviceDiscovered" ≠ none
        ∧ env.methodID "onDiscoveryStateChanged" ≠ none
        ∧ env.methodID "onConnectionChanged" ≠ none
        ∧ env.methodID "onClipboardDataReceived" ≠ none
        ∧ env.methodID "onError" ≠ none)
    ∧ ((JNI_OnLoad vm env s).1 ≠ JNI_VERSION_1_6 → (JNI_OnLoad vm env s).1 = JNI_ERR)
    ∧ ((JNI_OnLoad vm env s).1 = JNI_VERSION_1_6 →
        ((JNI_OnLoad vm env s).2.1.g_onDeviceDiscovered = env.methodID "onDeviceDiscovered"
          ∧ (JNI_OnLoad vm env s).2.1.g_onDeviceDiscovered ≠ none)
        ∧ ((JNI_OnLoad vm env s).2.1.g_onDiscoveryStateChanged
            = env.methodID "onDiscoveryStateChanged"
          ∧ (JNI_OnLoad vm env s).2.1.g_onDiscoveryStateChanged ≠ none)
        ∧ ((JNI_OnLoad vm env s).2.1.g_onConnectionChanged
            = env.methodID "onConnectionChanged"
          ∧ (JNI_OnLoad vm env s).2.1.g_onConnectionChanged ≠ none)
        ∧ ((JNI_OnLoad vm env s).2.1.g_onClipboardDataReceived
            = env.methodID "onClipboardDataReceived"
          ∧ (JNI_OnLoad vm env s).2.1.g_onClipboardDataReceived ≠ none)
        ∧ ((JNI_OnLoad vm env s).2.1.g_onError = env.methodID "onError"
          ∧ (JNI_OnLoad vm env s).2.1.g_onError ≠ none)) := by
  obtain ⟨getEnvOk, findClass, methodID⟩ := env
  cases getEnvOk <;> cases findClass <;>
    cases h1 : methodID "onDeviceDiscovered" <;>
    cases h2 : methodID "onDiscoveryStateChanged" <;>
    cases h3 : methodID "onConnectionChanged" <;>
    cases h4 : methodID "onClipboardDataReceived" <;>
    cases h5 : methodID "onError" <;>
    simp [JNI_OnLoad, JNI_ERR, JNI_VERSION_1_6, h1, h2, h3, h4, h5]

/-! ## Who writes `g_jvm` and the callback slots -/

theorem call_step_globals (c : Call) (s : Bridge) :
    (c.step s).2.1.slots = s.slots
    ∧ ((∀ ok, c ≠ Call.JNI_OnUnload ok) → (c.step s).2.1.g_jvm = s.g_jvm) := by
  cases c with
  | NearClipFFI_initialize context env =>
    obtain ⟨oom, construct, ini⟩ := env
    rcases construct with _ | _ <;> rcases ini with ⟨_ | _⟩ | _ <;>
      simp [Call.step, NearClip.NearClipFFI_initialize, setup_callbacks, Bridge.slots]
  | NearClipFFI_cleanup => simp [Call.step, NearClipFFI_cleanup, Bridge.slots]
  | NearClipFFI_startDeviceDiscovery engine =>
    cases hcore : s.g_nearclip_core <;> rcases engine with _ | _ <;>
      simp [Call.step, NearClipFFI_startDeviceDiscovery, hcore]
  | NearClipFFI_stopDeviceDiscovery engine =>
    cases hcore : s.g_nearclip_core <;> rcases engine with _ | _ <;>
      simp [Call.step, NearClipFFI_stopDeviceDiscovery, hcore]
  | NearClipFFI_connectToDevice device_id env =>
    obtain ⟨ctor, engine⟩ := env
    cases hcore : s.g_nearclip_core <;> rcases ctor with _ | _ <;> rcases engine with _ | _ <;>
      simp [Call.step, NearClipFFI_connectToDevice, stringCommand, hcore]
  | NearClipFFI_disconnectFromDevice device_id env =>
    obtain ⟨ctor, engine⟩ := env
    cases hcore : s.g_nearclip_core <;> rcases ctor with _ | _ <;> rcases engine with _ | _ <;>
      simp [Call.step, NearClipFFI_disconnectFromDevice, stringCommand, hcore]
  | NearClipFFI_sendClipboardData data env =>
    obtain ⟨ctor, engine⟩ := env
    cases hcore : s.g_nearclip_core <;> rcases ctor with _ | _ <;> rcases engine with _ | _ <;>
      simp [Call.step, NearClipFFI_sendClipboardData, stringCommand, hcore]
  | NearClipFFI_getLocalDeviceInfo env =>
    cases hcore : s.g_nearclip_core <;> rcases henv : env.engine with _ | _ <;>
      simp [Call.step, NearClipFFI_getLocalDeviceInfo, hcore, henv]
  | JNI_OnUnload getEnvOk => simp [Call.step, JNI_OnUnload, Bridge.slots]

theorem bridgeOp_step_globals (op : BridgeOp) (w : Bridge × Thread) :
    (op.isLoad = false → (op.step w).1.slots = w.1.slots)
    ∧ (op.isLoad = false → op.isUnload = false → (op.step w).1.g_jvm = w.1.g_jvm) := by
  cases op with
  | host c =>
    refine ⟨fun _ => (call_step_globals c w.1).1, fun _ hu => ?_⟩
    refine (call_step_globals c w.1).2 ?_
    intro ok hc
    subst hc
    simp [BridgeOp.isUnload] at hu
  | JNI_OnLoad vm env => simp [BridgeOp.isLoad]
  | setup_callbacks =>
    cases hcore : w.1.g_nearclip_core <;>
      simp [BridgeOp.step, NearClip.setup_callbacks, hcore, Bridge.slots]
  | relay c h => simp [BridgeOp.step]
  | get_jni_env h => simp [BridgeOp.step]
  | attach_current_thread h => simp [BridgeOp.step]
  | detach_current_thread => simp [BridgeOp.step]

/-- C22: of all functions of the bridge only `JNI_OnLoad` can change a callback slot, and
only `JNI_OnLoad` and `JNI_OnUnload` can change `g_jvm`.  One call of `initialize`,
`cleanup`, a command, `setup_callbacks`, a relay, `get_jni_env`, `attach_current_thread`
or `detach_current_thread` leaves `g_jvm` and the five slots as they are, and so does
every sequence of such calls; `JNI_OnUnload` leaves the five slots as they are and sets
`g_jvm` to null; `JNI_OnLoad` sets `g_jvm` to the `vm` it is given. -/
theorem globals_written_only_by_load_and_unload (w : Bridge × Thread) :
    (∀ op : BridgeOp, op.isLoad = false → (op.step w).1.slots = w.1.slots)
    ∧ (∀ op : BridgeOp, op.isLoad = false → op.isUnload = false →
        (op.step w).1.g_jvm = w.1.g_jvm)
    ∧ (∀ ops : List BridgeOp, (∀ op ∈ ops, op.isLoad = false) →
        (BridgeOp.steps ops w).1.slots = w.1.slots)
    ∧ (∀ ops : List BridgeOp, (∀ op ∈ ops, op.isLoad = false ∧ op.isUnload = false) →
        (BridgeOp.steps ops w).1.g_jvm = w.1.g_jvm)
    ∧ (∀ ok, (JNI_OnUnload ok w.1).1.slots = w.1.slots ∧ (JNI_OnUnload ok w.1).1.g_jvm = none)
    ∧ (∀ vm env, (JNI_OnLoad vm env w.1).2.1.g_jvm = some vm) := by
  refine ⟨fun op => (bridgeOp_step_globals op w).1, fun op => (bridgeOp_step_globals op w).2,
    ?_, ?_, ?_, ?_⟩
  · intro ops
    induction ops generalizing w with
    | nil => intro _; rfl
    | cons op ops ih =>
      intro hall
      have h1 := (bridgeOp_step_globals op w).1 (hall op (List.mem_cons_self op ops))
      have h2 := ih (op.step w) (fun o ho => hall o (List.mem_cons_of_mem op ho))
      simp only [BridgeOp.steps]
      rw [h2, h1]
  · intro ops
    induction ops generalizing w with
    | nil => intro _; rfl
    | cons op ops ih =>
      intro hall
      have hop := hall op (List.mem_cons_self op ops)
      have h1 := (bridgeOp_step_globals op w).2 hop.1 hop.2
      have h2 := ih (op.step w) (fun o ho => hall o (List.mem_cons_of_mem op ho))
      simp only [BridgeOp.steps]
      rw [h2, h1]
  · intro ok
    simp [JNI_OnUnload, Bridge.slots]
  · intro vm env
    obtain ⟨getEnvOk, findClass, methodID⟩ := env
    cases getEnvOk <;> cases findClass <;> simp [JNI_OnLoad]
    split <;> rfl

/-! ## The example scenario -/

/-- C23: for every context `ctxA` and an engine all of whose operations succeed, the
calls `initialize(ctxA)`, `startDeviceDiscovery()`, `connectToDevice("dev-123")`,
`sendClipboardData("hello")`, `cleanup()`, `startDeviceDiscovery()` from the initial state
return `true`, `true`, `true`, `true`, nothing, `false`.  The engine, instance 0, is
constructed, initialized, wired, receives `start_discovery`, `connect_to_device` with the
bytes of "dev-123" and `send_clipboard_data` with the bytes of "hello", and is destroyed by
`cleanup`; the last `startDeviceDiscovery` performs no operation at all, whatever an engine
would have answered. -/
theorem example_scenario (ctxA : Option JObject) (oom : Bool) (o : Outcome Bool) :
    (run (exampleScenario ctxA oom ++ [Call.NearClipFFI_startDeviceDiscovery o]) Bridge.init).1
      = [Ret.jboolean true, Ret.jboolean true, Ret.jboolean true, Ret.jboolean true, Ret.void,
         Ret.jboolean false]
    ∧ (run (exampleScenario ctxA oom ++ [Call.NearClipFFI_startDeviceDiscovery o])
          Bridge.init).2.2.filter Event.touchesEngine
      = [Event.construct 0,
         Event.engine 0 EngineCall.core_initialize,
         Event.engine 0 EngineCall.set_device_discovered_callback,
         Event.engine 0 EngineCall.set_discovery_state_callback,
         Event.engine 0 EngineCall.set_connection_callback,
         Event.engine 0 EngineCall.set_clipboard_callback,
         Event.engine 0 EngineCall.set_error_callback,
         Event.engine 0 EngineCall.start_discovery,
         Event.engine 0 (EngineCall.connect_to_device [100, 101, 118, 45, 49, 50, 51]),
         Event.engine 0 (EngineCall.send_clipboard_data [104, 101, 108, 108, 111]),
         Event.destroy 0]
    ∧ NearClip.NearClipFFI_startDeviceDiscovery o
          (run (exampleScenario ctxA oom) Bridge.init).2.1
        = (false, (run (exampleScenario ctxA oom) Bridge.init).2.1, [])
    ∧ (run (exampleScenario ctxA oom) Bridge.init).2.1.held = none := by
  refine ⟨?_, ?_, ?_, ?_⟩
  · rcases o with _ | _ <;> rfl
  · rcases ctxA with _ | c <;> cases oom <;> rcases o with _ | _ <;> rfl
  · rcases o with _ | _ <;> rfl
  · rfl

/-! ## Commands: character buffer and lifecycle state -/

/-- C28: for every state, every argument and every behaviour of the engine and the host
runtime, each of the six commands gives back the state it was called in: the same engine
instance (or none) is held and the same context reference (or none) is pinned. -/
theorem commands_keep_state (s : Bridge) (o : Outcome Bool) (arg : JString) (env : CallEnv)
    (ienv : InfoEnv) :
    (NearClip.NearClipFFI_startDeviceDiscovery o s).2.1 = s
    ∧ (NearClip.NearClipFFI_stopDeviceDiscovery o s).2.1 = s
    ∧ (NearClip.NearClipFFI_connectToDevice arg env s).2.1 = s
    ∧ (NearClip.NearClipFFI_disconnectFromDevice arg env s).2.1 = s
    ∧ (NearClip.NearClipFFI_sendClipboardData arg env s).2.1 = s
    ∧ (NearClip.NearClipFFI_getLocalDeviceInfo ienv s).2.1 = s
    ∧ (NearClip.NearClipFFI_getLocalDeviceInfo ienv s).2.1.g_nearclip_core = s.g_nearclip_core
    ∧ (NearClip.NearClipFFI_getLocalDeviceInfo ienv s).2.1.g_context = s.g_context := by
  obtain ⟨ctor, engine⟩ := env
  have hinfo : (NearClip.NearClipFFI_getLocalDeviceInfo ienv s).2.1 = s := by
    cases hcore : s.g_nearclip_core <;> rcases henv : ienv.engine with _ | _ <;>
      simp [NearClipFFI_getLocalDeviceInfo, hcore, henv]
  refine ⟨?_, ?_, ?_, ?_, ?_, hinfo, by rw [hinfo], by rw [hinfo]⟩
  · cases hcore : s.g_nearclip_core <;> rcases o with _ | _ <;>
      simp [NearClipFFI_startDeviceDiscovery, hcore]
  · cases hcore : s.g_nearclip_core <;> rcases o with _ | _ <;>
      simp [NearClipFFI_stopDeviceDiscovery, hcore]
  · cases hcore : s.g_nearclip_core <;> rcases ctor with _ | _ <;> rcases engine with _ | _ <;>
      simp [NearClipFFI_connectToDevice, stringCommand, hcore]
  · cases hcore : s.g_nearclip_core <;> rcases ctor with _ | _ <;> rcases engine with _ | _ <;>
      simp [NearClipFFI_disconnectFromDevice, stringCommand, hcore]
  · cases hcore : s.g_nearclip_core <;> rcases ctor with _ | _ <;> rcases engine with _ | _ <;>
      simp [NearClipFFI_sendClipboardData, stringCommand, hcore]

/-! ## Global and local references -/

/-- C26, evaluated on the code: after `initialize(ctx)`, which creates global reference 0,
`JNI_OnUnload` deletes reference 0 and leaves it in `g_context`, so that a following
`cleanup()` deletes reference 0 a second time, and so does a following `initialize`.
With `cleanup()` in the place of `JNI_OnUnload` the reference is deleted once. -/
theorem unload_then_cleanup_deletes_twice :
    Event.NewGlobalRef (some 7) (some 0) ∈
      (run [Call.NearClipFFI_initialize (some 7) InitEnv.success, Call.JNI_OnUnload true,
            Call.NearClipFFI_cleanup] Bridge.init).2.2
    ∧ (run [Call.NearClipFFI_initialize (some 7) InitEnv.success, Call.JNI_OnUnload true,
            Call.NearClipFFI_cleanup] Bridge.init).2.2.count (Event.DeleteGlobalRef 0) = 2
    ∧ (run [Call.NearClipFFI_initialize (some 7) InitEnv.success, Call.JNI_OnUnload true,
            Call.NearClipFFI_initialize (some 8) InitEnv.success]
          Bridge.init).2.2.count (Event.DeleteGlobalRef 0) = 2
    ∧ (run [Call.NearClipFFI_initialize (some 7) InitEnv.success, Call.NearClipFFI_cleanup,
            Call.NearClipFFI_cleanup] Bridge.init).2.2.count (Event.DeleteGlobalRef 0) = 1 := by
  decide

/-- C25, evaluated on the code: on the thread `Thread.hostAttached`, which has no local
reference on entry, the relay `onDeviceDiscovered` whose `NewStringUTF` fails creates the
class reference 0 and returns without deleting it, so one local reference is live on
return; the relay `onError` deletes it on the same path and returns with none. -/
theorem onDeviceDiscovered_leaks_class_ref :
    Thread.hostAttached.locals = []
    ∧ (call_java_method_onDeviceDiscovered [104, 105]
        { RelayEnv.success with newStringUTF := false } Bridge.loaded
        Thread.hostAttached).1.locals = [0]
    ∧ JniOp.FindClass "com/nearclip/ffi/NearClipFFI" (some 0) ∈
        (call_java_method_onDeviceDiscovered [104, 105]
          { RelayEnv.success with newStringUTF := false } Bridge.loaded Thread.hostAttached).2
    ∧ JniOp.DeleteLocalRef 0 ∉
        (call_java_method_onDeviceDiscovered [104, 105]
          { RelayEnv.success with newStringUTF := false } Bridge.loaded Thread.hostAttached).2
    ∧ (call_java_method_onError [104, 105]
        { RelayEnv.success with newStringUTF := false } Bridge.loaded
        Thread.hostAttached).1.locals = []
    ∧ (call_java_method_onError [104, 105]
        { RelayEnv.success with newStringUTF := false } Bridge.loaded
        Thread.hostAttached).2.count (JniOp.DeleteLocalRef 0) = 1 := by
  decide

theorem length_erase_one (l : List Nat) (n : Nat) : ((l ++ [n]).erase n).length = l.length := by
  rw [List.length_erase_of_mem (by simp)]
  simp

theorem length_erase_two (l : List Nat) (n : Nat) :
    (((l ++ [n] ++ [n + 1]).erase (n + 1)).erase n).length = l.length := by
  have h1 : n + 1 ∈ l ++ [n] ++ [n + 1] := by simp
  have h2 : n ∈ (l ++ [n] ++ [n + 1]).erase (n + 1) :=
    (List.mem_erase_of_ne (by omega)).mpr (by simp)
  rw [List.length_erase_of_mem h2, List.length_erase_of_mem h1]
  simp

/-- On every path but one, a relay returns with as many live local references as it was
entered with; the one path is that of `onDeviceDiscovered` after a failed `NewStringUTF`. -/
theorem relay_local_refs_balanced (c : RelayCall) (h : RelayEnv) (g : Bridge) (th : Thread)
    (hpath : (∀ json, c ≠ RelayCall.call_java_method_onDeviceDiscovered json)
      ∨ h.newStringUTF = true ∨ h.findClass = false) :
    (c.run h g th).1.locals.length = th.locals.length := by
  rcases hres : get_jni_env h g th with ⟨env, th0, t0⟩
  have hframe := get_jni_env_frame h g th
  rw [hres] at hframe
  obtain ⟨-, hloc, -, -, -, -, -⟩ := hframe
  simp only at hloc
  cases env <;> cases c <;> cases hp : th0.pending <;> cases hclass : h.findClass <;>
    cases hstr : h.newStringUTF <;> cases hthrows : h.callbackThrows <;>
    simp [RelayCall.run, call_java_method_onDeviceDiscovered,
      call_java_method_onDiscoveryStateChanged, call_java_method_onConnectionChanged,
      call_java_method_onClipboardDataReceived, call_java_method_onError, hres,
      Thread.FindClass, Thread.NewStringUTF, Thread.CallStaticVoidMethod,
      Thread.DeleteLocalRef, Thread.ExceptionClearIfPending, detachIf, hclass, hstr,
      hthrows, hp, hloc, length_erase_one, length_erase_two] at hpath ⊢

/-! ## The three plain relays -/

theorem plainRelay_retarget (slot slot2 : CallbackSlot) (m m2 : Option MethodID)
    (text : NativeString) (h : RelayEnv) (g : Bridge) (th : Thread) :
    (plainRelay slot2 m2 text h g th).1 = (plainRelay slot m text h g th).1
    ∧ (plainRelay slot2 m2 text h g th).2
        = (plainRelay slot m text h g th).2.map (JniOp.retarget slot2 m2) := by
  have hget : (get_jni_env h g th).2.2.map (JniOp.retarget slot2 m2)
      = (get_jni_env h g th).2.2 := by
    obtain ⟨versionOk, attach, attachEnv, findClass, newStringUTF, callbackThrows⟩ := h
    cases hjvm : g.g_jvm <;> cases henv : th.env <;> cases versionOk <;>
      by_cases ha : attach = 0 <;>
      simp [get_jni_env, attach_current_thread, hjvm, Thread.GetEnv,
        Thread.AttachCurrentThread, henv, JNI_OK, JNI_EDETACHED, JNI_EVERSION, ha,
        JniOp.retarget]
  rcases hres : get_jni_env h g th with ⟨env, th0, t0⟩
  rw [hres] at hget
  simp only at hget
  cases env <;> cases hp : th0.pending <;> cases hclass : h.findClass <;>
    cases hstr : h.newStringUTF <;> cases hthrows : h.callbackThrows <;>
    simp [plainRelay, hres, Thread.FindClass, Thread.NewStringUTF,
      Thread.CallStaticVoidMethod, Thread.DeleteLocalRef, Thread.ExceptionClearIfPending,
      hclass, hstr, hthrows, hp, hget, JniOp.retarget]

/-- C29: for every argument string and every behaviour of the host runtime, each of
`call_java_method_onDiscoveryStateChanged`, `call_java_method_onClipboardDataReceived` and
`call_java_method_onError` is the one relay `plainRelay` applied to its own slot; the three
leave the thread in the same state; and the operations of one are the operations of
another with nothing changed but the slot (and its value) passed to
`CallStaticVoidMethod`. -/
theorem plain_relays_same_up_to_slot (text : NativeString) (h : RelayEnv) (g : Bridge)
    (th : Thread) :
    call_java_method_onDiscoveryStateChanged text h g th
      = plainRelay CallbackSlot.g_onDiscoveryStateChanged g.g_onDiscoveryStateChanged
          text h g th
    ∧ call_java_method_onClipboardDataReceived text h g th
      = plainRelay CallbackSlot.g_onClipboardDataReceived g.g_onClipboardDataReceived
          text h g th
    ∧ call_java_method_onError text h g th
      = plainRelay CallbackSlot.g_onError g.g_onError text h g th
    ∧ (call_java_method_onClipboardDataReceived text h g th).1
      = (call_java_method_onDiscoveryStateChanged text h g th).1
    ∧ (call_java_method_onError text h g th).1
      = (call_java_method_onDiscoveryStateChanged text h g th).1
    ∧ (call_java_method_onClipboardDataReceived text h g th).2
      = (call_java_method_onDiscoveryStateChanged text h g th).2.map
          (JniOp.retarget CallbackSlot.g_onClipboardDataReceived g.g_onClipboardDataReceived)
    ∧ (call_java_method_onError text h g th).2
      = (call_java_method_onDiscoveryStateChanged text h g th).2.map
          (JniOp.retarget CallbackSlot.g_onError g.g_onError)
    ∧ (call_java_method_onDiscoveryStateChanged text h g th).2
      = (call_java_method_onError text h g th).2.map
          (JniOp.retarget CallbackSlot.g_onDiscoveryStateChanged
            g.g_onDiscoveryStateChanged) := by
  have e1 : call_java_method_onDiscoveryStateChanged text h g th
      = plainRelay CallbackSlot.g_onDiscoveryStateChanged g.g_onDiscoveryStateChanged
          text h g th := rfl
  have e2 : call_java_method_onClipboardDataReceived text h g th
      = plainRelay CallbackSlot.g_onClipboardDataReceived g.g_onClipboardDataReceived
          text h g th := rfl
  have e3 : call_java_method_onError text h g th
      = plainRelay CallbackSlot.g_onError g.g_onError text h g th := rfl
  refine ⟨e1, e2, e3, ?_, ?_, ?_, ?_, ?_⟩
  · rw [e1, e2]
    exact (plainRelay_retarget _ _ _ _ text h g th).1
  · rw [e1, e3]
    exact (plainRelay_retarget _ _ _ _ text h g th).1
  · rw [e1, e2]
    exact (plainRelay_retarget _ _ _ _ text h g th).2
  · rw [e1, e3]
    exact (plainRelay_retarget _ _ _ _ text h g th).2
  · rw [e1, e3]
    exact (plainRelay_retarget _ _ _ _ text h g th).2

/-! ## Attaching across a sequence of relays -/

/-- The attach operations of `get_jni_env()`: none on an attached thread, at most one
otherwise; a successful one leaves the thread attached; and a thread that is still not
attached afterwards saw no successful attach, and no attach at all if the attach would
have succeeded. -/
theorem get_jni_env_attach_count (h : RelayEnv) (g : Bridge) (th : Thread) :
    (th.env ≠ none →
      (get_jni_env h g th).2.2.countP JniOp.isAttach = 0
      ∧ (get_jni_env h g th).2.2.countP JniOp.isAttachOk = 0
      ∧ (get_jni_env h g th).2.1.env ≠ none)
    ∧ (get_jni_env h g th).2.2.countP JniOp.isAttach ≤ 1
    ∧ (get_jni_env h g th).2.2.countP JniOp.isAttachOk ≤ 1
    ∧ ((get_jni_env h g th).2.1.env = none →
        (get_jni_env h g th).2.2.countP JniOp.isAttachOk = 0)
    ∧ (h.attach = JNI_OK → (get_jni_env h g th).2.1.env = none →
        (get_jni_env h g th).2.2.countP JniOp.isAttach = 0) := by
  obtain ⟨versionOk, attach, attachEnv, findClass, newStringUTF, callbackThrows⟩ := h
  cases hjvm : g.g_jvm <;> cases henv : th.env <;> cases versionOk <;>
    by_cases ha : attach = 0 <;>
    simp [get_jni_env, attach_current_thread, hjvm, Thread.GetEnv,
      Thread.AttachCurrentThread, henv, JNI_OK, JNI_EDETACHED, JNI_EVERSION, ha,
      JniOp.isAttach, JniOp.isAttachOk, List.countP_cons]

/-- A relay attaches exactly as its `get_jni_env()` does and leaves the attachment as
`get_jni_env()` left it. -/
theorem relay_attach_count (c : RelayCall) (h : RelayEnv) (g : Bridge) (th : Thread) :
    (c.run h g th).2.countP JniOp.isAttach
      = (get_jni_env h g th).2.2.countP JniOp.isAttach
    ∧ (c.run h g th).2.countP JniOp.isAttachOk
      = (get_jni_env h g th).2.2.countP JniOp.isAttachOk
    ∧ (c.run h g th).1.env = (get_jni_env h g th).2.1.env := by
  rcases hres : get_jni_env h g th with ⟨env, th0, t0⟩
  cases env <;> cases c <;> cases hp : th0.pending <;> cases hclass : h.findClass <;>
    cases hstr : h.newStringUTF <;> cases hthrows : h.callbackThrows <;>
    simp [RelayCall.run, call_java_method_onDeviceDiscovered,
      call_java_method_onDiscoveryStateChanged, call_java_method_onConnectionChanged,
      call_java_method_onClipboardDataReceived, call_java_method_onError, hres,
      Thread.FindClass, Thread.NewStringUTF, Thread.CallStaticVoidMethod,
      Thread.DeleteLocalRef, Thread.ExceptionClearIfPending, detachIf, hclass, hstr,
      hthrows, hp, JniOp.isAttach, JniOp.isAttachOk, List.countP_cons, List.countP_append]

theorem runRelays_attached (cs : List (RelayCall × RelayEnv)) (g : Bridge) (th : Thread)
    (hatt : th.env ≠ none) :
    (runRelays cs g th).2.countP JniOp.isAttach = 0
    ∧ (runRelays cs g th).2.countP JniOp.isAttachOk = 0 := by
  induction cs generalizing th with
  | nil => simp [runRelays]
  | cons p rest ih =>
    have hr := relay_attach_count p.1 p.2 g th
    have hg := (get_jni_env_attach_count p.2 g th).1 hatt
    have hnext : (p.1.run p.2 g th).1.env ≠ none := by
      rw [hr.2.2]
      exact hg.2.2
    have hrest := ih (p.1.run p.2 g th).1 hnext
    simp only [runRelays, List.countP_append]
    rw [hr.1, hr.2.1, hg.1, hg.2.1, hrest.1, hrest.2]
    exact ⟨rfl, rfl⟩

/-- C30 as stated fails: on the thread `Thread.detached`, when the `AttachCurrentThread` of
the first relay returns `JNI_ERR`, the second relay attaches again, so two attach
operations are performed. -/
theorem second_relay_attaches_again :
    (runRelays
        [(RelayCall.call_java_method_onError [104, 105],
          { RelayEnv.success with attach := JNI_ERR }),
         (RelayCall.call_java_method_onError [104, 105], RelayEnv.success)]
        Bridge.loaded Thread.detached).2.countP JniOp.isAttach = 2
    ∧ Bridge.loaded.g_jvm ≠ none := by
  decide

/-- C30 as the code has it: in every sequence of relay calls on one thread, of any kinds,
arguments and behaviours of the host runtime, at most one `AttachCurrentThread` returns
`JNI_OK`; when every attach that is tried returns `JNI_OK`, at most one attach operation
is performed at all; a sequence that starts on an attached thread performs no attach; and
once a relay has left the thread attached, no later relay of the sequence attaches. -/
theorem relays_attach_once (cs : List (RelayCall × RelayEnv)) (g : Bridge) (th : Thread) :
    (runRelays cs g th).2.countP JniOp.isAttachOk ≤ 1
    ∧ ((∀ p ∈ cs, p.2.attach = JNI_OK) → (runRelays cs g th).2.countP JniOp.isAttach ≤ 1)
    ∧ (th.env ≠ none → (runRelays cs g th).2.countP JniOp.isAttach = 0)
    ∧ (∀ p rest, cs = p :: rest → (p.1.run p.2 g th).1.env ≠ none →
        (runRelays rest g (p.1.run p.2 g th).1).2.countP JniOp.isAttach = 0) := by
  refine ⟨?_, ?_, fun hatt => (runRelays_attached cs g th hatt).1,
    fun p rest _ hatt => (runRelays_attached rest g _ hatt).1⟩
  · induction cs generalizing th with
    | nil => simp [runRelays]
    | cons p rest ih =>
      have hr := relay_attach_count p.1 p.2 g th
      have hg := get_jni_env_attach_count p.2 g th
      simp only [runRelays, List.countP_append]
      rw [hr.2.1]
      by_cases hnext : (p.1.run p.2 g th).1.env = none
      · have h0 := hg.2.2.2.1 (by rw [← hr.2.2]; exact hnext)
        have hrest := ih (p.1.run p.2 g th).1
        omega
      · have hrest := (runRelays_attached rest g _ hnext).2
        have h1 := hg.2.2.1
        omega
  · induction cs generalizing th with
    | nil => intro _; simp [runRelays]
    | cons p rest ih =>
      intro hall
      have hr := relay_attach_count p.1 p.2 g th
      have hg := get_jni_env_attach_count p.2 g th
      simp only [runRelays, List.countP_append]
      rw [hr.1]
      by_cases hnext : (p.1.run p.2 g th).1.env = none
      · have h0 := hg.2.2.2.2 (hall p (List.mem_cons_self p rest))
          (by rw [← hr.2.2]; exact hnext)
        have hrest := ih (p.1.run p.2 g th).1
          (fun q hq => hall q (List.mem_cons_of_mem p hq))
        omega
      · have hrest := (runRelays_attached rest g _ hnext).1
        have h1 := hg.2.1
        omega

end NearClip
